import Mathlib

/-!
# CrystalFrame core: Target Locator and Presentation Pipeline

A shallow embedding of `src/Core/ShellTargetLocator.cpp`, `src/Core/Renderer.cpp`,
`src/Core/ConfigManager.cpp`, `src/Core/IpcBridge.cpp`, `src/Core/OverlayHost.cpp`
and the coordinator routines of `src/Core/Core.cpp`, followed by the properties
proved about them.

Conventions of the embedding

* C++ `int`/`LONG` values are `Int`; the arithmetic coincides with the C++
  arithmetic whenever the C++ expression does not overflow (signed overflow is
  undefined behaviour in C++, so nothing is claimed there).  `a / b` on C++
  integers truncates towards zero and is written `Int.tdiv a b`.
* C++ `float` values are finite IEEE-754 binary32 numbers.  Every such number is
  an integer multiple of `2^-149`; a value is held as that integer (`F32`).
  Sums and differences are rounded to 24 significant bits, ties to even
  (`F32.round`); subnormal results are exact.  Overflow to infinity is not
  represented (the sums and differences taken by the program have operands in
  `[0, 1]`).  NaN is outside the model: no operation of the program produces
  one from finite operands, and `std::clamp` excludes it by precondition.
* Window handles are natural numbers, `0` being the null handle.
* Results of operating-system queries (window enumeration, compositor return
  codes, the clock) are explicit arguments of the embedded functions.
* `std::string` values are lists of characters; a C++ exception is the `error`
  of an `Except` result.
-/

namespace CrystalFrame

/-! ## binary32 arithmetic -/

/-- A finite binary32 value `x`, held as the integer `x * 2^149`. -/
abbrev F32 := Int

namespace F32

/-- The value `m / 2^e` (for `e ≤ 149`). -/
def lit (m : Int) (e : Nat) : F32 := m * ((2 ^ (149 - e) : Nat) : Int)

/-- Number of binary digits of `n`, counted by repeated halving (`fuel` bounds
the number of halvings). -/
def bitLengthAux : Nat → Nat → Nat
  | 0, _ => 0
  | fuel + 1, n => if n = 0 then 0 else bitLengthAux fuel (n / 2) + 1

/-- Number of binary digits of `n` (`0` for `n = 0`). -/
def bitLength (n : Nat) : Nat := bitLengthAux n n

/-- Round a magnitude to 24 significant bits, round-half-to-even. -/
def roundMag (n : Nat) : Nat :=
  let k := bitLength n - 24
  if k = 0 then n
  else
    let q := n / 2 ^ k
    let r := n % 2 ^ k
    let half := 2 ^ (k - 1)
    if r > half ∨ (r = half ∧ q % 2 = 1) then (q + 1) * 2 ^ k else q * 2 ^ k

/-- Round an exact value to the nearest binary32 value. -/
def round (x : Int) : F32 :=
  if x < 0 then -((roundMag x.natAbs : Nat) : Int) else ((roundMag x.natAbs : Nat) : Int)

/-- `a + b` in binary32. -/
def add (a b : F32) : F32 := round (a + b)

/-- `a - b` in binary32. -/
def sub (a b : F32) : F32 := round (a - b)

/-- Round the quotient `num / den` of two magnitudes (`den > 0`), taken in units
of `2^-149`, to 24 significant bits, round-half-to-even. -/
def roundRatio (num den : Nat) : Nat :=
  let k := bitLength (num / den) - 24
  let d := den * 2 ^ k
  let q := num / d
  let r := num % d
  if 2 * r > d ∨ (2 * r = d ∧ q % 2 = 1) then (q + 1) * 2 ^ k else q * 2 ^ k

/-- `a / b` in binary32, for `b ≠ 0`. -/
def div (a b : F32) : F32 :=
  if (a < 0) = (b < 0) then ((roundRatio (a.natAbs * 2 ^ 149) b.natAbs : Nat) : Int)
  else -((roundRatio (a.natAbs * 2 ^ 149) b.natAbs : Nat) : Int)

/-- Conversion of an `int` to `float`. -/
def ofInt (n : Int) : F32 := round (n * ((2 ^ 149 : Nat) : Int))

/-- `std::abs` on a float. -/
def abs (a : F32) : F32 := if a < 0 then -a else a

/-- `std::clamp(v, lo, hi)`. -/
def clamp (v lo hi : F32) : F32 := if v < lo then lo else if hi < v then hi else v

/-- The literal `0.0f`. -/
def zero : F32 := 0
/-- The literal `1.0f`. -/
def one : F32 := lit 1 0
/-- The literal `0.1f` = 13421773 / 2^27. -/
def c0_1 : F32 := lit 13421773 27
/-- The literal `0.2f` = 13421773 / 2^26. -/
def c0_2 : F32 := lit 13421773 26
/-- The literal `0.3f` = 5033165 / 2^24. -/
def c0_3 : F32 := lit 5033165 24
/-- The literal `0.4f` = 13421773 / 2^25. -/
def c0_4 : F32 := lit 13421773 25
/-- The literal `0.6f` = 5033165 / 2^23. -/
def c0_6 : F32 := lit 5033165 23
/-- The literal `0.01f` = 5368709 / 2^29. -/
def c0_01 : F32 := lit 5368709 29
/-- The largest binary32 value below `0.01f`, 10737417 / 2^30. -/
def c0_01_pred : F32 := lit 10737417 30
/-- The literal `0.5f`. -/
def c0_5 : F32 := lit 1 1
/-- The literal `0.75f`. -/
def c0_75 : F32 := lit 3 2
/-- The literal `0.59f` = 9898557 / 2^24. -/
def c0_59 : F32 := lit 9898557 24
/-- The literal `1.5f`. -/
def c1_5 : F32 := lit 3 1
/-- The literal `100.0f`. -/
def c100 : F32 := lit 100 0
/-- The literal `0.8f` = 13421773 / 2^24. -/
def c0_8 : F32 := lit 13421773 24

end F32

/-! ## Data model (`ShellTargetLocator.h`) -/

/-- Win32 `RECT`. -/
structure RECT where
  left : Int
  top : Int
  right : Int
  bottom : Int
  deriving DecidableEq, Repr

/-- Screen border the taskbar is docked to. -/
inductive Edge where
  | Bottom
  | Top
  | Left
  | Right
  deriving DecidableEq, Repr

/-- Record produced by taskbar detection. -/
structure TaskbarInfo where
  hwnd : Nat := 0
  rect : RECT := ⟨0, 0, 0, 0⟩
  edge : Edge := Edge.Bottom
  autoHide : Bool := false
  found : Bool := false
  deriving DecidableEq, Repr

/-- Record produced by one start-menu poll. -/
structure StartInfo where
  hwnd : Nat := 0
  rect : RECT := ⟨0, 0, 0, 0⟩
  isOpen : Bool := false
  confidence : F32 := F32.zero
  detected : Bool := false
  deriving DecidableEq, Repr

/-- Calls made through `IShellTargetCallback`. -/
inductive ShellEvent where
  | OnTaskbarChanged (info : TaskbarInfo)
  | OnStartShown (info : StartInfo)
  | OnStartHidden
  | OnStartDetectionFailed
  deriving DecidableEq, Repr

/-- Data members of `ShellTargetLocator` used by detection and monitoring.
`m_callback` records whether the callback pointer is non-null. -/
structure ShellTargetLocator where
  m_callback : Bool := false
  m_taskbarInfo : TaskbarInfo := {}
  m_startInfo : StartInfo := {}
  m_running : Bool := false
  m_lowConfidenceCount : Int := 0
  m_startEnabled : Bool := true
  deriving DecidableEq, Repr

namespace ShellTargetLocator

/-- `GetTaskbarInfo`: snapshot of the taskbar record. -/
def GetTaskbarInfo (self : ShellTargetLocator) : TaskbarInfo := self.m_taskbarInfo

/-- `GetStartInfo`: snapshot of the published start record. -/
def GetStartInfo (self : ShellTargetLocator) : StartInfo := self.m_startInfo

/-- `if (m_callback) m_callback->...`: the call is made only through a non-null
pointer. -/
def notify (self : ShellTargetLocator) (e : ShellEvent) : List ShellEvent :=
  if self.m_callback then [e] else []

/-! ### Taskbar edge -/

/-- `DetermineEdge`; `screenWidth`, `screenHeight` are the values returned by
`GetSystemMetrics(SM_CXSCREEN)` and `GetSystemMetrics(SM_CYSCREEN)`. -/
def DetermineEdge (screenWidth screenHeight : Int) (rect : RECT) : Edge :=
  let width := rect.right - rect.left
  let height := rect.bottom - rect.top
  if height < width then
    if rect.top < Int.tdiv screenHeight 2 then Edge.Top else Edge.Bottom
  else
    if rect.left < Int.tdiv screenWidth 2 then Edge.Left else Edge.Right

/-! ### Start-menu candidate scoring -/

/-- C `abs` on `int`. -/
def cabs (x : Int) : Int := if x < 0 then -x else x

/-- `VerifyStartMenuRect`; `screenWidth`, `screenHeight` as in `DetermineEdge`. -/
def VerifyStartMenuRect (screenWidth screenHeight : Int) (rect : RECT) : Bool :=
  let width := rect.right - rect.left
  let height := rect.bottom - rect.top
  if width < 300 ∨ height < 400 then false
  else if width > 1200 ∨ height > 1000 then false
  else
    let _screenHeight := screenHeight
    let centerX := rect.left + Int.tdiv width 2
    let screenCenterX := Int.tdiv screenWidth 2
    let offset := cabs (centerX - screenCenterX)
    if offset > Int.tdiv screenWidth 4 then false else true

/-- `CalculateConfidence`.  `className` is what `GetClassNameW(hwnd)` returned,
`foreground` the result of `IsStartMenuForeground()`, `visible` the result of
`IsWindowVisible(hwnd)`. -/
def CalculateConfidence (className : String) (foreground : Bool)
    (screenWidth screenHeight : Int) (rect : RECT) (visible : Bool) : F32 :=
  let confidence := F32.zero
  let confidence :=
    if className = "Windows.UI.Core.CoreWindow" then F32.add confidence F32.c0_4
    else if className = "Xaml_WindowedPopupClass" then F32.add confidence F32.c0_3
    else confidence
  let confidence := if foreground then F32.add confidence F32.c0_3 else confidence
  let confidence :=
    if VerifyStartMenuRect screenWidth screenHeight rect then F32.add confidence F32.c0_2
    else confidence
  let confidence := if visible then F32.add confidence F32.c0_1 else confidence
  confidence

/-! ### Start-menu monitoring -/

/-- Body of one pass of the `MonitorStart` loop after `DetectStart()` returned
`newState`, with `lastState` the loop-local record of the previous pass.
Returns the locator, the new `lastState` and the callbacks made, in order. -/
def MonitorStart_poll (self : ShellTargetLocator) (lastState newState : StartInfo) :
    ShellTargetLocator × StartInfo × List ShellEvent :=
  let stateChanged := newState.isOpen != lastState.isOpen
  let (s1, ev1) :=
    if stateChanged then
      if newState.isOpen ∧ newState.confidence ≥ F32.c0_6 then
        ({ self with m_startInfo := newState, m_lowConfidenceCount := 0 },
          self.notify (ShellEvent.OnStartShown newState))
      else if ¬ newState.isOpen ∧ lastState.isOpen then
        ({ self with m_startInfo := { self.m_startInfo with isOpen := false } },
          self.notify ShellEvent.OnStartHidden)
      else (self, [])
    else (self, [])
  let (s2, ev2) :=
    if newState.isOpen ∧ newState.confidence < F32.c0_6 then
      let s1 := { s1 with m_lowConfidenceCount := s1.m_lowConfidenceCount + 1 }
      if s1.m_lowConfidenceCount > 10 then
        ({ s1 with m_startEnabled := false, m_lowConfidenceCount := 0 },
          s1.notify ShellEvent.OnStartDetectionFailed)
      else (s1, [])
    else ({ s1 with m_lowConfidenceCount := 0 }, [])
  (s2, newState, ev1 ++ ev2)

/-- A poll record that counts towards the low-confidence streak: the start
menu appears open but the confidence is below `0.6f`. -/
def lowOpen (p : StartInfo) : Prop := p.isOpen = true ∧ p.confidence < F32.c0_6

/-- State of the monitor thread: the locator and the loop-local `lastState`. -/
structure Monitor where
  loc : ShellTargetLocator
  lastState : StartInfo := {}
  deriving DecidableEq, Repr

/-- One pass of `while (m_running) { ... }`.  `detect` is what `DetectStart()`
returns if this pass calls it; a pass of a stopped or disabled locator does not
call it and changes nothing. -/
def MonitorStart_step (m : Monitor) (detect : StartInfo) : Monitor × List ShellEvent :=
  if ¬ m.loc.m_running then (m, [])
  else if ¬ m.loc.m_startEnabled then (m, [])
  else
    let (loc, last, ev) := m.loc.MonitorStart_poll m.lastState detect
    ({ loc := loc, lastState := last }, ev)

/-- Successive passes of the loop, one per entry of `polls`; the callbacks of all
passes are collected in order. -/
def MonitorStart_run : Monitor → List StartInfo → Monitor × List ShellEvent
  | m, [] => (m, [])
  | m, p :: ps =>
    let (m1, ev1) := MonitorStart_step m p
    let (m2, ev2) := MonitorStart_run m1 ps
    (m2, ev1 ++ ev2)

/-- The monitor as `Initialize` starts it: the callback pointer passed to
`Initialize`, the taskbar record left by the initial `DetectTaskbar()`,
`m_running = true`, and a fresh `lastState`. -/
def monitorAtStart (callback : Bool) (taskbar : TaskbarInfo) : Monitor :=
  { loc := { m_callback := callback, m_taskbarInfo := taskbar, m_running := true },
    lastState := {} }

/-- A rectangle accepted by `VerifyStartMenuRect` on a 1920x1080 screen. -/
def sampleRect : RECT := ⟨660, 300, 1260, 1000⟩

/-- A poll record with `isOpen = true` and confidence `0.59f`. -/
def lowPoll : StartInfo :=
  { hwnd := 1, rect := sampleRect, isOpen := true, confidence := F32.c0_59, detected := true }

/-- A poll record with `isOpen = true` and confidence `0.6f`. -/
def highPoll : StartInfo :=
  { hwnd := 1, rect := sampleRect, isOpen := true, confidence := F32.c0_6, detected := true }

/-- The record `DetectStart` returns when it finds no start menu. -/
def closedPoll : StartInfo := {}

/-! ### Taskbar detection -/

/-- What the operating system answers during one `DetectTaskbar()` pass: the
handle `FindWindowW` returns, `IsWindow`, `IsWindowVisible`, the rectangle
`GetWindowRect` yields (`none` when the call fails), the state word
`SHAppBarMessage(ABM_GETSTATE)` returns, and the screen metrics read by
`DetermineEdge`. -/
structure TaskbarProbe where
  hwnd : Nat := 0
  isWindow : Bool := false
  isVisible : Bool := false
  rect : Option RECT := none
  appBarState : Nat := 0
  screenWidth : Int := 0
  screenHeight : Int := 0
  deriving DecidableEq, Repr

/-- `CheckAutoHide`: `(state & ABS_AUTOHIDE) != 0`, `ABS_AUTOHIDE` being `1`. -/
def CheckAutoHide (state : Nat) : Bool := Nat.land state 1 != 0

/-- `DetectTaskbar`: the locator afterwards, the `bool` returned and the
callbacks made. -/
def DetectTaskbar (self : ShellTargetLocator) (probe : TaskbarProbe) :
    ShellTargetLocator × Bool × List ShellEvent :=
  if probe.hwnd = 0 ∨ ¬ probe.isWindow ∨ ¬ probe.isVisible then
    ({ self with m_taskbarInfo := { self.m_taskbarInfo with found := false, hwnd := 0 } },
      false, [])
  else
    match probe.rect with
    | none => (self, false, [])
    | some rect =>
      let edge := DetermineEdge probe.screenWidth probe.screenHeight rect
      let autoHide := CheckAutoHide probe.appBarState
      let self :=
        { self with
          m_taskbarInfo :=
            { self.m_taskbarInfo with
              hwnd := probe.hwnd
              rect := rect
              edge := edge
              autoHide := autoHide
              found := true } }
      (self, true, self.notify (ShellEvent.OnTaskbarChanged self.m_taskbarInfo))

/-- A tray window that passes the liveness checks on a 1920x1080 screen, docked
at the bottom. -/
def liveTaskbar : TaskbarProbe :=
  { hwnd := 7, isWindow := true, isVisible := true, rect := some ⟨0, 1040, 1920, 1080⟩,
    screenWidth := 1920, screenHeight := 1080 }

/-- The same tray window in a pass in which `GetWindowRect` fails. -/
def unreadableTaskbar : TaskbarProbe := { liveTaskbar with rect := none }

/-! ### Start-menu detection -/

/-- What `EnumWindows` lets the callback of `FindStartMenuWindow` see of one
top-level window: its handle, and what `GetClassNameW`, `IsWindowVisible` and
`GetWindowTextW` answer for it. -/
structure WindowProbe where
  hwnd : Nat
  className : String
  visible : Bool
  title : String
  deriving DecidableEq, Repr

/-- One `EnumWindows` call of `FindStartMenuWindow` over the windows in
enumeration order: the handle left in `found` (`0` when the callback never
stores one).  The enumeration stops at the first window stored. -/
def enumFind (className : String) : List WindowProbe → Nat
  | [] => 0
  | w :: ws =>
    if w.className = className ∧ w.visible = true ∧ (w.title = "" ∨ w.title = "Start") then
      w.hwnd
    else enumFind className ws

/-- `FindStartMenuWindow`: the loop over the two class names; `windowsPrimary`
and `windowsSecondary` are what the first and the second `EnumWindows` call go
through. -/
def FindStartMenuWindow (windowsPrimary windowsSecondary : List WindowProbe) : Nat :=
  let found := enumFind "Windows.UI.Core.CoreWindow" windowsPrimary
  if found ≠ 0 then found
  else
    let found := enumFind "Xaml_WindowedPopupClass" windowsSecondary
    if found ≠ 0 then found else 0

/-- What the operating system answers during one `DetectStart()` call: the two
window enumerations, `GetWindowRect` for the handle found (`none` when the call
fails), the screen metrics read by the `VerifyStartMenuRect` call of
`DetectStart`, and, inside `CalculateConfidence`, `GetClassNameW`,
`IsStartMenuForeground`, the screen metrics read by its own
`VerifyStartMenuRect` call, and `IsWindowVisible`. -/
structure StartProbe where
  windowsPrimary : List WindowProbe := []
  windowsSecondary : List WindowProbe := []
  rect : Option RECT := none
  screenWidth : Int := 0
  screenHeight : Int := 0
  className : String := ""
  foreground : Bool := false
  screenWidthAgain : Int := 0
  screenHeightAgain : Int := 0
  visible : Bool := false
  deriving DecidableEq, Repr

/-- `DetectStart`. -/
def DetectStart (probe : StartProbe) : StartInfo :=
  let info : StartInfo := {}
  let hwnd := FindStartMenuWindow probe.windowsPrimary probe.windowsSecondary
  if hwnd = 0 then info
  else
    match probe.rect with
    | none => info
    | some rect =>
      if ¬ VerifyStartMenuRect probe.screenWidth probe.screenHeight rect then info
      else
        let confidence :=
          CalculateConfidence probe.className probe.foreground probe.screenWidthAgain
            probe.screenHeightAgain rect probe.visible
        { info with
          hwnd := hwnd
          rect := rect
          isOpen := true
          confidence := confidence
          detected := true }

/-- The handle `DetectStart` works on. -/
def StartProbe.candidate (probe : StartProbe) : Nat :=
  FindStartMenuWindow probe.windowsPrimary probe.windowsSecondary

/-- The operating system reports the same class name and visibility for the
candidate window throughout one `DetectStart` call: every enumeration entry for
the candidate's handle carries the class name and the visibility that
`CalculateConfidence` is given. -/
def StartProbe.sameWindowAnswers (probe : StartProbe) : Prop :=
  ∀ w ∈ probe.windowsPrimary ++ probe.windowsSecondary, w.hwnd = probe.candidate →
    w.className = probe.className ∧ w.visible = probe.visible

/-- The two `GetSystemMetrics` readings of the screen size taken during one
`DetectStart` call agree. -/
def StartProbe.sameScreen (probe : StartProbe) : Prop :=
  probe.screenWidthAgain = probe.screenWidth ∧ probe.screenHeightAgain = probe.screenHeight

/-- The values the confidence of an open record takes: `0.3f + 0.2f + 0.1f`
(which is `0.6f`), `0.4f + 0.2f + 0.1f`, `0.3f + 0.3f + 0.2f + 0.1f` and
`0.4f + 0.3f + 0.2f + 0.1f` (which is `1.0f`), each sum taken from the left in
binary32. -/
def openConfidences : List F32 :=
  [F32.c0_6, F32.lit 11744052 24, F32.lit 15099495 24, F32.one]

/-- A start menu window of the primary class on a 1920x1080 screen, with the
display switched to 800x600 between the two readings of the screen size. -/
def resizedScreenProbe : StartProbe :=
  { windowsPrimary := [⟨5, "Windows.UI.Core.CoreWindow", true, "Start"⟩]
    rect := some sampleRect
    screenWidth := 1920
    screenHeight := 1080
    className := "Windows.UI.Core.CoreWindow"
    foreground := false
    screenWidthAgain := 800
    screenHeightAgain := 600
    visible := true }

/-- The same window with a steady 1920x1080 screen. -/
def steadyProbe : StartProbe :=
  { resizedScreenProbe with screenWidthAgain := 1920, screenHeightAgain := 1080 }

/-! ### Start-up and shutdown of the locator -/

/-- `Initialize(callback)`: `callback` tells whether the pointer passed is
non-null, `msgWindowOk` is the result of `CreateMessageWindow()`, `probe` what
the operating system answers during the initial `DetectTaskbar()`.  Returns the
locator, the `bool` result and the callbacks made; on success the monitor thread
is started. -/
def Initialize (self : ShellTargetLocator) (callback msgWindowOk : Bool)
    (probe : TaskbarProbe) : ShellTargetLocator × Bool × List ShellEvent :=
  let self := { self with m_callback := callback }
  if ¬ msgWindowOk then (self, false, [])
  else
    let detected := self.DetectTaskbar probe
    ({ detected.1 with m_running := true }, true, detected.2.2)

/-- `Shutdown`: the running flag is cleared and the monitor thread joined. -/
def Shutdown (self : ShellTargetLocator) : ShellTargetLocator :=
  { self with m_running := false }

/-! ### Order of the start-menu events -/

/-- The 'opened' and 'closed' events of a trace, in order: `true` for
`OnStartShown`, `false` for `OnStartHidden`. -/
def startTransitions : List ShellEvent → List Bool
  | [] => []
  | ShellEvent.OnStartShown _ :: es => true :: startTransitions es
  | ShellEvent.OnStartHidden :: es => false :: startTransitions es
  | _ :: es => startTransitions es

/-- Strict alternation of a sequence of transitions, `expected` being the kind
the next one must have. -/
def alternates : Bool → List Bool → Bool
  | _, [] => true
  | expected, b :: bs => (b == expected) && alternates (!expected) bs

/-- No 'opened' directly after an 'opened'; `last` tells whether the transition
before the sequence was an 'opened'. -/
def noRepeatedOpen : Bool → List Bool → Bool
  | _, [] => true
  | last, b :: bs => !(last && b) && noRepeatedOpen b bs

end ShellTargetLocator

/-! ## Presentation pipeline (`Renderer.h`, `Renderer.cpp`) -/

/-- The two overlay surfaces. -/
inductive Surface where
  | Taskbar
  | Start
  deriving DecidableEq, Repr

/-- Calls that leave the renderer: compositor calls with their outcome
(`ok = SUCCEEDED(hr)`) and the deferred-commit message posted to the host
window. -/
inductive RenderCall where
  | VisualSetOpacity (surface : Surface) (opacity : F32) (ok : Bool)
  | DeviceCommit (ok : Bool)
  | PostCommitMessage (hwnd : Nat)
  deriving DecidableEq, Repr

/-- What the environment answers during one renderer call: the outcome of
`IDCompositionVisual::SetOpacity`, the outcome of `IDCompositionDevice::Commit`,
the clock read by `ScheduleCommit` and the clock read by `CommitNow`
(`steady_clock` time points, in nanoseconds). -/
structure RenderEnv where
  setOpacityOk : Bool := true
  commitOk : Bool := true
  now : Int := 0
  commitTime : Int := 0
  deriving DecidableEq, Repr

/-- Data members of `Renderer`.  A `ComPtr` to a device or target is `true` when
non-null; a `ComPtr` to a visual is `some o` when non-null, `o` being the opacity
property the visual currently holds.  `calls` lists the calls that left the
renderer, oldest first. -/
structure Renderer where
  m_hwndHost : Nat := 0
  m_dcompDevice : Bool := false
  m_targetTaskbar : Bool := false
  m_visualTaskbar : Option F32 := none
  m_taskbarOpacity : F32 := F32.c0_75
  m_taskbarEnabled : Bool := true
  m_targetStart : Bool := false
  m_visualStart : Option F32 := none
  m_startOpacity : F32 := F32.c0_5
  m_startEnabled : Bool := true
  m_lastCommit : Int := 0
  m_pendingCommit : Bool := false
  calls : List RenderCall := []
  deriving DecidableEq, Repr

namespace Renderer

/-- `IDCompositionVisual::SetOpacity` on a non-null visual: the property
changes only when the call succeeds. -/
def visualSetOpacity (visual : Option F32) (opacity : F32) (ok : Bool) : Option F32 :=
  match visual with
  | none => none
  | some old => if ok then some opacity else some old

/-- `CommitNow`. -/
def CommitNow (self : Renderer) (env : RenderEnv) : Renderer :=
  if ¬ self.m_dcompDevice then self
  else
    { self with
      calls := self.calls ++ [RenderCall.DeviceCommit env.commitOk]
      m_lastCommit := env.commitTime
      m_pendingCommit := false }

/-- `ScheduleCommit`; `elapsed.count()` is the whole number of milliseconds
between `m_lastCommit` and `now`. -/
def ScheduleCommit (self : Renderer) (env : RenderEnv) : Renderer :=
  let elapsed := Int.tdiv (env.now - self.m_lastCommit) 1000000
  if elapsed ≥ 16 then self.CommitNow env
  else if ¬ self.m_pendingCommit then
    let self := { self with m_pendingCommit := true }
    if self.m_hwndHost ≠ 0 then
      { self with calls := self.calls ++ [RenderCall.PostCommitMessage self.m_hwndHost] }
    else self
  else self

/-- `OnDeferredCommit`. -/
def OnDeferredCommit (self : Renderer) (env : RenderEnv) : Renderer :=
  if self.m_pendingCommit then self.CommitNow env else self

/-- `SetTaskbarOpacity`. -/
def SetTaskbarOpacity (self : Renderer) (opacity : F32) (env : RenderEnv) : Renderer :=
  let opacity := F32.clamp opacity F32.zero F32.one
  if F32.abs (F32.sub self.m_taskbarOpacity opacity) < F32.c0_01 then self
  else
    let self := { self with m_taskbarOpacity := opacity }
    if self.m_visualTaskbar.isSome ∧ self.m_taskbarEnabled then
      let self :=
        { self with
          m_visualTaskbar := visualSetOpacity self.m_visualTaskbar opacity env.setOpacityOk
          calls := self.calls ++
            [RenderCall.VisualSetOpacity Surface.Taskbar opacity env.setOpacityOk] }
      if ¬ env.setOpacityOk then self else self.ScheduleCommit env
    else self

/-- `SetStartOpacity`. -/
def SetStartOpacity (self : Renderer) (opacity : F32) (env : RenderEnv) : Renderer :=
  let opacity := F32.clamp opacity F32.zero F32.one
  if F32.abs (F32.sub self.m_startOpacity opacity) < F32.c0_01 then self
  else
    let self := { self with m_startOpacity := opacity }
    if self.m_visualStart.isSome ∧ self.m_startEnabled then
      let self :=
        { self with
          m_visualStart := visualSetOpacity self.m_visualStart opacity env.setOpacityOk
          calls := self.calls ++
            [RenderCall.VisualSetOpacity Surface.Start opacity env.setOpacityOk] }
      if ¬ env.setOpacityOk then self else self.ScheduleCommit env
    else self

/-- `SetTaskbarEnabled`. -/
def SetTaskbarEnabled (self : Renderer) (enabled : Bool) (env : RenderEnv) : Renderer :=
  let self := { self with m_taskbarEnabled := enabled }
  if self.m_visualTaskbar.isSome then
    let opacity := if enabled then self.m_taskbarOpacity else F32.zero
    let self :=
      { self with
        m_visualTaskbar := visualSetOpacity self.m_visualTaskbar opacity env.setOpacityOk
        calls := self.calls ++
          [RenderCall.VisualSetOpacity Surface.Taskbar opacity env.setOpacityOk] }
    self.ScheduleCommit env
  else self

/-- `SetStartEnabled`. -/
def SetStartEnabled (self : Renderer) (enabled : Bool) (env : RenderEnv) : Renderer :=
  let self := { self with m_startEnabled := enabled }
  if self.m_visualStart.isSome then
    let opacity := if enabled then self.m_startOpacity else F32.zero
    let self :=
      { self with
        m_visualStart := visualSetOpacity self.m_visualStart opacity env.setOpacityOk
        calls := self.calls ++
          [RenderCall.VisualSetOpacity Surface.Start opacity env.setOpacityOk] }
    self.ScheduleCommit env
  else self

/-- What the environment answers during `Initialize`: the outcome of each
creation call, of the two initial `SetOpacity` calls and of the initial commit,
and the clock read by `CommitNow`. -/
structure InitEnv where
  deviceOk : Bool := true
  targetTaskbarOk : Bool := true
  targetStartOk : Bool := true
  visualTaskbarOk : Bool := true
  visualStartOk : Bool := true
  opacityTaskbarOk : Bool := true
  opacityStartOk : Bool := true
  commitOk : Bool := true
  commitTime : Int := 0
  deriving DecidableEq, Repr

/-- `Initialize(hwndTaskbar, hwndStart)`; returns the renderer and the `bool`
result.  A freshly created visual has opacity `1.0`.  The solid-colour content
surfaces touch no data member and make no opacity or commit call; they are not
represented. -/
def Initialize (self : Renderer) (hwndTaskbar _hwndStart : Nat) (env : InitEnv) :
    Renderer × Bool :=
  let self := { self with m_hwndHost := hwndTaskbar }
  let self := { self with m_dcompDevice := env.deviceOk }
  if ¬ env.deviceOk then (self, false)
  else
    let self := { self with m_targetTaskbar := env.targetTaskbarOk }
    if ¬ env.targetTaskbarOk then (self, false)
    else
      let self := { self with m_targetStart := env.targetStartOk }
      if ¬ env.targetStartOk then (self, false)
      else
        let self :=
          { self with m_visualTaskbar := if env.visualTaskbarOk then some F32.one else none }
        if ¬ env.visualTaskbarOk then (self, false)
        else
          let self :=
            { self with m_visualStart := if env.visualStartOk then some F32.one else none }
          if ¬ env.visualStartOk then (self, false)
          else
            let self :=
              { self with
                m_visualTaskbar :=
                  visualSetOpacity self.m_visualTaskbar self.m_taskbarOpacity env.opacityTaskbarOk
                calls := self.calls ++
                  [RenderCall.VisualSetOpacity Surface.Taskbar self.m_taskbarOpacity
                    env.opacityTaskbarOk] }
            let self :=
              { self with
                m_visualStart :=
                  visualSetOpacity self.m_visualStart self.m_startOpacity env.opacityStartOk
                calls := self.calls ++
                  [RenderCall.VisualSetOpacity Surface.Start self.m_startOpacity
                    env.opacityStartOk] }
            let self := self.CommitNow { commitOk := env.commitOk, commitTime := env.commitTime }
            (self, true)

/-- `Shutdown`: every `ComPtr` is reset. -/
def Shutdown (self : Renderer) : Renderer :=
  { self with
    m_visualStart := none
    m_visualTaskbar := none
    m_targetStart := false
    m_targetTaskbar := false
    m_dcompDevice := false }

/-- A call of the public interface of `Renderer`, with what the environment
answers during it. -/
inductive Call where
  | Initialize (hwndTaskbar hwndStart : Nat) (env : InitEnv)
  | SetTaskbarOpacity (opacity : F32) (env : RenderEnv)
  | SetStartOpacity (opacity : F32) (env : RenderEnv)
  | SetTaskbarEnabled (enabled : Bool) (env : RenderEnv)
  | SetStartEnabled (enabled : Bool) (env : RenderEnv)
  | OnDeferredCommit (env : RenderEnv)
  | Shutdown
  deriving DecidableEq, Repr

/-- Effect of one interface call. -/
def call (self : Renderer) : Call → Renderer
  | Call.Initialize hwndTaskbar hwndStart env => (self.Initialize hwndTaskbar hwndStart env).1
  | Call.SetTaskbarOpacity opacity env => self.SetTaskbarOpacity opacity env
  | Call.SetStartOpacity opacity env => self.SetStartOpacity opacity env
  | Call.SetTaskbarEnabled enabled env => self.SetTaskbarEnabled enabled env
  | Call.SetStartEnabled enabled env => self.SetStartEnabled enabled env
  | Call.OnDeferredCommit env => self.OnDeferredCommit env
  | Call.Shutdown => self.Shutdown

/-- Effect of a sequence of interface calls, first call first. -/
def calls_run (self : Renderer) (cs : List Call) : Renderer := cs.foldl call self

/-- The renderer as constructed (the default member initialisers), after any
sequence of interface calls. -/
def reached (cs : List Call) : Renderer := calls_run {} cs

/-- Both stored opacity targets lie in `[0, 1]`. -/
def targetsInUnit (self : Renderer) : Prop :=
  (F32.zero ≤ self.m_taskbarOpacity ∧ self.m_taskbarOpacity ≤ F32.one) ∧
    (F32.zero ≤ self.m_startOpacity ∧ self.m_startOpacity ≤ F32.one)

/-- Number of `IDCompositionDevice::Commit` calls in a trace. -/
def commitCount (trace : List RenderCall) : Nat :=
  trace.countP (fun c => match c with
    | RenderCall.DeviceCommit _ => true
    | _ => false)

/-- Number of deferred-commit messages (`WM_DCOMP_COMMIT`) posted in a trace. -/
def postCount (trace : List RenderCall) : Nat :=
  trace.countP (fun c => match c with
    | RenderCall.PostCommitMessage _ => true
    | _ => false)

/-- What `elapsed.count()` is in `ScheduleCommit` when the clock reads
`env.now`: whole milliseconds since `m_lastCommit`. -/
def elapsedMs (self : Renderer) (env : RenderEnv) : Int :=
  Int.tdiv (env.now - self.m_lastCommit) 1000000

/-- The environment's answers during an opacity or enable call (the default
answers for the other calls, which take none of this kind). -/
def Call.renderEnv : Call → RenderEnv
  | Call.SetTaskbarOpacity _ env => env
  | Call.SetStartOpacity _ env => env
  | Call.SetTaskbarEnabled _ env => env
  | Call.SetStartEnabled _ env => env
  | Call.OnDeferredCommit env => env
  | _ => {}

/-- The opacity and enable calls. -/
def Call.isChange : Call → Bool
  | Call.SetTaskbarOpacity _ _ => true
  | Call.SetStartOpacity _ _ => true
  | Call.SetTaskbarEnabled _ _ => true
  | Call.SetStartEnabled _ _ => true
  | _ => false

/-- Whether an opacity or enable call made in state `self` gets as far as its
`ScheduleCommit()` statement: an opacity call does when it is not suppressed as
unchanged, the surface has a visual and is enabled, and the compositor accepts
the new opacity; an enable call does when the surface has a visual. -/
def reachesSchedule (self : Renderer) : Call → Bool
  | Call.SetTaskbarOpacity opacity env =>
    !decide (F32.abs (F32.sub self.m_taskbarOpacity (F32.clamp opacity F32.zero F32.one)) <
        F32.c0_01) &&
      self.m_visualTaskbar.isSome && self.m_taskbarEnabled && env.setOpacityOk
  | Call.SetStartOpacity opacity env =>
    !decide (F32.abs (F32.sub self.m_startOpacity (F32.clamp opacity F32.zero F32.one)) <
        F32.c0_01) &&
      self.m_visualStart.isSome && self.m_startEnabled && env.setOpacityOk
  | Call.SetTaskbarEnabled _ _ => self.m_visualTaskbar.isSome
  | Call.SetStartEnabled _ _ => self.m_visualStart.isSome
  | _ => false

/-- A run of opacity and enable calls each of which reaches `ScheduleCommit()`
while fewer than 16 whole milliseconds have elapsed since the last commit. -/
def throttledChanges : Renderer → List Call → Prop
  | _, [] => True
  | self, c :: cs =>
    self.reachesSchedule c = true ∧ self.elapsedMs c.renderEnv < 16 ∧
      throttledChanges (self.call c) cs

/-- The commit times of a run of interface calls: for each call that makes the
device commit, the value `m_lastCommit` takes on that commit. -/
def commitLog : Renderer → List Call → List Int
  | _, [] => []
  | self, c :: cs =>
    (if commitCount self.calls < commitCount (self.call c).calls then
        [(self.call c).m_lastCommit]
      else []) ++ commitLog (self.call c) cs

/-- The renderer after a successful `Initialize` whose initial commit is made
at time `0`. -/
def initialized : Renderer := reached [Call.Initialize 1 2 {}]

/-- The environment of a call made `t` milliseconds after time `0`, all
compositor calls succeeding. -/
def atMs (t : Int) : RenderEnv := { now := t * 1000000, commitTime := t * 1000000 }

/-- The opacity a surface is meant to show: its stored target when the surface
is enabled, `0` when it is disabled. -/
def effectiveOpacity (self : Renderer) : Surface → F32
  | Surface.Taskbar => if self.m_taskbarEnabled then self.m_taskbarOpacity else F32.zero
  | Surface.Start => if self.m_startEnabled then self.m_startOpacity else F32.zero

/-- The visual of a surface. -/
def visual (self : Renderer) : Surface → Option F32
  | Surface.Taskbar => self.m_visualTaskbar
  | Surface.Start => self.m_visualStart

/-- The opacity of the last `SetOpacity` call the compositor accepted for a
surface in a trace (`none` when there is none). -/
def lastApplied (surface : Surface) (trace : List RenderCall) : Option F32 :=
  trace.foldl
    (fun last c =>
      match c with
      | RenderCall.VisualSetOpacity s o true => if s = surface then some o else last
      | _ => last)
    none

/-- All creation calls, both initial `SetOpacity` calls and the initial commit
of `Initialize` succeed. -/
def InitEnv.allOk (env : InitEnv) : Prop :=
  env.deviceOk = true ∧ env.targetTaskbarOk = true ∧ env.targetStartOk = true ∧
    env.visualTaskbarOk = true ∧ env.visualStartOk = true ∧ env.opacityTaskbarOk = true ∧
    env.opacityStartOk = true ∧ env.commitOk = true

/-- A call is one of the four opacity and enable setters during which the
compositor accepts the opacity it is given, or a deferred-commit callback. -/
def Call.acceptedChange (c : Call) : Prop :=
  (c.isChange = true ∧ c.renderEnv.setOpacityOk = true) ∨ ∃ env, c = Call.OnDeferredCommit env

/-- The opacity held by the visual of each surface, and the opacity of the last
`SetOpacity` call the compositor accepted for it, is the surface's effective
opacity. -/
def appliedMatches (self : Renderer) : Prop :=
  ∀ surface : Surface,
    self.visual surface = some (self.effectiveOpacity surface) ∧
      lastApplied surface self.calls = some (self.effectiveOpacity surface)

/-- The environment of a call made `t` milliseconds after time `0` in which the
compositor rejects `SetOpacity`. -/
def rejectAtMs (t : Int) : RenderEnv :=
  { setOpacityOk := false, now := t * 1000000, commitTime := t * 1000000 }

end Renderer

/-! ## Text (`std::string`) -/

deriving instance DecidableEq for Except

namespace Str

/-- C `isspace` in the "C" locale: space, `\t`, `\n`, `\v`, `\f`, `\r`. -/
def isSpace (c : Char) : Bool :=
  c = ' ' || c = '\t' || c = '\n' || c = Char.ofNat 11 || c = Char.ofNat 12 || c = '\r'

/-- `hay.find(needle)`: index of the first occurrence, `none` for `npos`. -/
def find (needle : List Char) : List Char → Option Nat
  | [] => if needle = [] then some 0 else none
  | c :: cs =>
    if needle.isPrefixOf (c :: cs) then some 0
    else (find needle cs).map (fun i => i + 1)

/-- `hay.find(needle, pos)`. -/
def findFrom (needle hay : List Char) (pos : Nat) : Option Nat :=
  if hay.length < pos then none
  else (find needle (hay.drop pos)).map (fun i => i + pos)

/-- `hay.find(needle) != npos`. -/
def contains (needle hay : List Char) : Bool := (find needle hay).isSome

/-- Errors thrown by `std::stoi`. -/
inductive StoiError where
  | invalid_argument
  | out_of_range
  deriving DecidableEq, Repr

/-- Value of a run of decimal digits, most significant first. -/
def digitsValue (ds : List Char) : Nat :=
  ds.foldl (fun acc d => 10 * acc + (d.toNat - 48)) 0

/-- `std::stoi(s)`: leading white space is skipped, an optional sign and the
longest run of decimal digits are read, the rest is ignored; no digit throws
`invalid_argument`, a value that does not fit `int` throws `out_of_range`. -/
def stoi (s : List Char) : Except StoiError Int :=
  let s := s.dropWhile isSpace
  let negative := s.head? = some '-'
  let s := if s.head? = some '-' ∨ s.head? = some '+' then s.tail else s
  let ds := s.takeWhile Char.isDigit
  if ds = [] then Except.error StoiError.invalid_argument
  else
    let v : Int := if negative then -(digitsValue ds : Int) else (digitsValue ds : Int)
    if v < -2147483648 ∨ 2147483647 < v then Except.error StoiError.out_of_range
    else Except.ok v

/-- The lines a `while (std::getline(file, line))` loop sees: `cur` is the part
of the current line already read. -/
def getlinesAux : List Char → List Char → List (List Char)
  | cur, [] => if cur = [] then [] else [cur]
  | cur, c :: cs => if c = '\n' then cur :: getlinesAux [] cs else getlinesAux (cur ++ [c]) cs

/-- The lines a `while (std::getline(file, line))` loop sees. -/
def getlines (text : List Char) : List (List Char) := getlinesAux [] text

end Str

/-! ## Configuration store (`ConfigManager.h`, `ConfigManager.cpp`) -/

/-- The persisted record. -/
structure Config where
  taskbarOpacity : Int := 75
  startOpacity : Int := 50
  taskbarEnabled : Bool := true
  startEnabled : Bool := true
  deriving DecidableEq, Repr

/-- `ConfigManager`: the in-memory record and the content of the file at
`m_configPath` (`none` when there is no such file). -/
structure ConfigManager where
  m_config : Config := {}
  file : Option String := none
  deriving DecidableEq, Repr

namespace ConfigManager

/-- The text `Save` writes. -/
def saveText (c : Config) : String :=
  "\x7b\n" ++
  "  \"taskbarOpacity\": " ++ toString c.taskbarOpacity ++ ",\n" ++
  "  \"startOpacity\": " ++ toString c.startOpacity ++ ",\n" ++
  "  \"taskbarEnabled\": " ++ (if c.taskbarEnabled then "true" else "false") ++ ",\n" ++
  "  \"startEnabled\": " ++ (if c.startEnabled then "true" else "false") ++ "\n" ++
  "\x7d\n"

/-- `Save`; `opened` tells whether the output file could be opened. -/
def Save (self : ConfigManager) (opened : Bool) : ConfigManager × Bool :=
  if ¬ opened then (self, false)
  else ({ self with file := some (saveText self.m_config) }, true)

/-- What one turn of the loop body of `Load` does to the record with the line
just read; `std::stoi` may throw, and `Load` catches nothing. -/
def loadLine (config : Config) (line : List Char) : Except Str.StoiError Config :=
  let line := line.filter (fun c => !Str.isSpace c)
  if Str.contains "\"taskbarOpacity\":".toList line then
    match Str.find [':'] line with
    | some pos =>
      let value := line.drop (pos + 1)
      let value := value.filter (fun c => c != ',')
      (Str.stoi value).map (fun v => { config with taskbarOpacity := v })
    | none => Except.ok config
  else if Str.contains "\"startOpacity\":".toList line then
    match Str.find [':'] line with
    | some pos =>
      let value := line.drop (pos + 1)
      let value := value.filter (fun c => c != ',')
      (Str.stoi value).map (fun v => { config with startOpacity := v })
    | none => Except.ok config
  else if Str.contains "\"taskbarEnabled\":".toList line then
    Except.ok { config with taskbarEnabled := Str.contains "true".toList line }
  else if Str.contains "\"startEnabled\":".toList line then
    Except.ok { config with startEnabled := Str.contains "true".toList line }
  else Except.ok config

/-- The loop of `Load` over the lines of the file: the record reached, and the
exception that ended the loop if one was thrown. -/
def loadLines : Config → List (List Char) → Config × Option Str.StoiError
  | config, [] => (config, none)
  | config, line :: rest =>
    match loadLine config line with
    | Except.ok next => loadLines next rest
    | Except.error e => (config, some e)

/-- `Load`: the manager afterwards, and either the `bool` returned or the
exception that escapes. -/
def Load (self : ConfigManager) : ConfigManager × Except Str.StoiError Bool :=
  match self.file with
  | none => (self, Except.ok false)
  | some text =>
    match loadLines self.m_config (Str.getlines text.toList) with
    | (config, none) => ({ self with m_config := config }, Except.ok true)
    | (config, some e) => ({ self with m_config := config }, Except.error e)

/-- `std::clamp` on `int`. -/
def clampInt (v lo hi : Int) : Int := if v < lo then lo else if hi < v then hi else v

/-- `UpdateConfig`. -/
def UpdateConfig (self : ConfigManager) (newConfig : Config) : ConfigManager :=
  { self with m_config := newConfig }

/-- `SetTaskbarOpacity`. -/
def SetTaskbarOpacity (self : ConfigManager) (opacity : Int) : ConfigManager :=
  { self with m_config := { self.m_config with taskbarOpacity := clampInt opacity 0 100 } }

/-- `SetStartOpacity`. -/
def SetStartOpacity (self : ConfigManager) (opacity : Int) : ConfigManager :=
  { self with m_config := { self.m_config with startOpacity := clampInt opacity 0 100 } }

/-- A configuration file in the layout `Save` writes, with the opacities 500
and -20. -/
def outOfRangeFile : String :=
  "\x7b\n  \"taskbarOpacity\": 500,\n  \"startOpacity\": -20,\n" ++
    "  \"taskbarEnabled\": true,\n  \"startEnabled\": true\n\x7d\n"

/-- `GetConfig`. -/
def GetConfig (self : ConfigManager) : Config := self.m_config

/-- `SetTaskbarEnabled`. -/
def SetTaskbarEnabled (self : ConfigManager) (enabled : Bool) : ConfigManager :=
  { self with m_config := { self.m_config with taskbarEnabled := enabled } }

/-- `SetStartEnabled`. -/
def SetStartEnabled (self : ConfigManager) (enabled : Bool) : ConfigManager :=
  { self with m_config := { self.m_config with startEnabled := enabled } }

/-- `Initialize`: `dirOk` is the result of `EnsureDirectoryExists`, `saveOpened`
tells whether the file can be opened for writing.  An exception thrown by
`Load` passes through. -/
def Initialize (self : ConfigManager) (dirOk saveOpened : Bool) :
    ConfigManager × Except Str.StoiError Bool :=
  if ¬ dirOk then (self, Except.ok false)
  else
    match self.Load with
    | (self, Except.error e) => (self, Except.error e)
    | (self, Except.ok true) => (self, Except.ok true)
    | (self, Except.ok false) => ((self.Save saveOpened).1, Except.ok true)

/-- A configuration file in the layout `Save` writes, whose `startOpacity` is
not a number. -/
def malformedFile : String :=
  "\x7b\n  \"taskbarOpacity\": 80,\n  \"startOpacity\": high,\n" ++
    "  \"taskbarEnabled\": true,\n  \"startEnabled\": true\n\x7d\n"

/-- A configuration file whose `taskbarOpacity` does not fit an `int`. -/
def overflowFile : String :=
  "\x7b\n  \"taskbarOpacity\": 99999999999,\n  \"startOpacity\": 20,\n" ++
    "  \"taskbarEnabled\": true,\n  \"startEnabled\": true\n\x7d\n"

/-- A configuration file that names two of the four fields only. -/
def partialFile : String :=
  "\x7b\n  \"startOpacity\": 20,\n  \"taskbarEnabled\": false\n\x7d\n"

/-- None of the four keys `Load` looks for occurs in the line once its white
space is removed. -/
def noKey (line : List Char) : Prop :=
  Str.contains "\"taskbarOpacity\":".toList (line.filter (fun c => !Str.isSpace c)) = false ∧
    Str.contains "\"startOpacity\":".toList (line.filter (fun c => !Str.isSpace c)) = false ∧
    Str.contains "\"taskbarEnabled\":".toList (line.filter (fun c => !Str.isSpace c)) = false ∧
    Str.contains "\"startEnabled\":".toList (line.filter (fun c => !Str.isSpace c)) = false

end ConfigManager

/-! ## Control channel (`IpcBridge.h`, `IpcBridge.cpp`) -/

/-- Calls made through `IIpcCallback`. -/
inductive IpcCommand where
  | OnSetTaskbarOpacity (opacity : Int)
  | OnSetStartOpacity (opacity : Int)
  | OnSetTaskbarEnabled (enabled : Bool)
  | OnSetStartEnabled (enabled : Bool)
  | OnGetStatus
  | OnShutdown
  deriving DecidableEq, Repr

/-- The `taskbar` member of `StatusData`. -/
structure TaskbarStatus where
  found : Bool := false
  edge : String := ""
  autoHide : Bool := false
  enabled : Bool := false
  opacity : Int := 0
  deriving DecidableEq, Repr

/-- The `start` member of `StatusData`. -/
structure StartStatus where
  detected : Bool := false
  isOpen : Bool := false
  confidence : F32 := F32.zero
  enabled : Bool := false
  opacity : Int := 0
  deriving DecidableEq, Repr

/-- `StatusData`; the defaults are those of `StatusData status = {}`. -/
structure StatusData where
  taskbar : TaskbarStatus := {}
  start : StartStatus := {}
  deriving DecidableEq, Repr

/-- A message handed to the pipe: `SendStatusUpdate` and `SendError` write the
JSON text of these values; the values stand for the text. -/
inductive IpcMessage where
  | StatusUpdate (status : StatusData)
  | Error (message : String) (code : String)
  deriving DecidableEq, Repr

/-- Data members of `IpcBridge`: `m_pipeValid` tells whether `m_hPipe` is a valid
handle, `m_callback` whether the callback pointer is non-null; `written` lists
the messages passed to `WriteFile`, oldest first. -/
structure IpcBridge where
  m_pipeValid : Bool := false
  m_running : Bool := false
  m_callback : Bool := false
  written : List IpcMessage := []
  deriving DecidableEq, Repr

namespace IpcBridge

/-- The character `"`. -/
def quote : Char := Char.ofNat 34

/-- `ParseCommand`. -/
def ParseCommand (json key : List Char) : List Char :=
  let searchKey := quote :: key ++ [quote]
  match Str.find searchKey json with
  | none => []
  | some pos =>
    match Str.findFrom [':'] json pos with
    | none => []
    | some colonPos =>
      match Str.findFrom [quote] json colonPos with
      | none => []
      | some startQuote =>
        match Str.findFrom [quote] json (startQuote + 1) with
        | none => []
        | some endQuote => (json.drop (startQuote + 1)).take (endQuote - startQuote - 1)

/-- `ParseInt`; `std::stoi` may throw. -/
def ParseInt (json key : List Char) : Except Str.StoiError Int :=
  let searchKey := quote :: key ++ [quote]
  match Str.find searchKey json with
  | none => Except.ok 0
  | some pos =>
    match Str.findFrom [':'] json pos with
    | none => Except.ok 0
    | some colonPos =>
      Str.stoi ((json.drop (colonPos + 1)).dropWhile (fun c => c = ' ' || c = '\n'))

/-- `ParseBool`. -/
def ParseBool (json key : List Char) : Bool :=
  let searchKey := quote :: key ++ [quote]
  match Str.find searchKey json with
  | none => false
  | some pos =>
    match Str.findFrom "true".toList json pos, Str.findFrom "false".toList json pos with
    | some _, none => true
    | some truePos, some falsePos => decide (truePos < falsePos)
    | none, _ => false

/-- `HandleMessage`: the callbacks made, in order.  An exception thrown while
parsing is caught by the `catch` clause, which only logs it.  `callback` tells
whether `m_callback` is non-null. -/
def HandleMessage (callback : Bool) (json : String) : List IpcCommand :=
  let text := json.toList
  let type := ParseCommand text "type".toList
  if type = [] then []
  else if type = "SetTaskbarOpacity".toList then
    match ParseInt text "opacity".toList with
    | Except.ok opacity => if callback then [IpcCommand.OnSetTaskbarOpacity opacity] else []
    | Except.error _ => []
  else if type = "SetStartOpacity".toList then
    match ParseInt text "opacity".toList with
    | Except.ok opacity => if callback then [IpcCommand.OnSetStartOpacity opacity] else []
    | Except.error _ => []
  else if type = "SetTaskbarEnabled".toList then
    if callback then [IpcCommand.OnSetTaskbarEnabled (ParseBool text "enabled".toList)] else []
  else if type = "SetStartEnabled".toList then
    if callback then [IpcCommand.OnSetStartEnabled (ParseBool text "enabled".toList)] else []
  else if type = "GetStatus".toList then
    if callback then [IpcCommand.OnGetStatus] else []
  else if type = "Shutdown".toList then
    if callback then [IpcCommand.OnShutdown] else []
  else []

/-- `SendMessage`, for the text that stands for `message`. -/
def SendMessage (self : IpcBridge) (message : IpcMessage) : IpcBridge :=
  if ¬ self.m_pipeValid then self
  else { self with written := self.written ++ [message] }

/-- `SendStatusUpdate`. -/
def SendStatusUpdate (self : IpcBridge) (status : StatusData) : IpcBridge :=
  self.SendMessage (IpcMessage.StatusUpdate status)

/-- `SendError`. -/
def SendError (self : IpcBridge) (message code : String) : IpcBridge :=
  self.SendMessage (IpcMessage.Error message code)

/-- Modelled from the spec: the control client is not part of the repository.
An opacity command as the flat JSON object with the members `type` and
`opacity`, written without white space. -/
def opacityMessage (type : String) (opacity : Int) : String :=
  "\x7b\"type\":\"" ++ type ++ "\",\"opacity\":" ++ toString opacity ++ "\x7d"

/-- Modelled from the spec: an enable command as the flat JSON object with the
members `type` and `enabled`, written without white space. -/
def enabledMessage (type : String) (enabled : Bool) : String :=
  "\x7b\"type\":\"" ++ type ++ "\",\"enabled\":" ++ (if enabled then "true" else "false") ++
    "\x7d"

/-- Modelled from the spec: a command without arguments as the flat JSON object
with the single member `type`. -/
def bareMessage (type : String) : String :=
  "\x7b\"type\":\"" ++ type ++ "\"\x7d"

/-- Modelled from the spec: an opacity command whose member `opacity` is
followed by an arbitrary text. -/
def rawOpacityMessage (type value : String) : String :=
  "\x7b\"type\":\"" ++ type ++ "\",\"opacity\":" ++ value ++ "\x7d"

/-- `Initialize(callback)`: `callback` tells whether the pointer passed is
non-null, `pipeOk` whether `CreateNamedPipeW` returned a valid handle.  On
success the listener thread is started. -/
def Initialize (self : IpcBridge) (callback pipeOk : Bool) : IpcBridge × Bool :=
  let self := { self with m_callback := callback, m_pipeValid := pipeOk }
  if ¬ pipeOk then (self, false)
  else ({ self with m_running := true }, true)

/-- `Shutdown`: the running flag is cleared, the pipe closed and the listener
thread joined. -/
def Shutdown (self : IpcBridge) : IpcBridge :=
  { self with m_running := false, m_pipeValid := false }

end IpcBridge

/-! ## Overlay windows (`OverlayHost.h`, `OverlayHost.cpp`) -/

/-- What the window manager holds for an overlay window: whether it is shown,
and its position and size. -/
structure OverlayWindow where
  shown : Bool := false
  x : Int := 0
  y : Int := 0
  width : Int := 0
  height : Int := 0
  deriving DecidableEq, Repr

/-- Data members of `OverlayHost` (`0` is the null handle) and the state of the
two windows they name. -/
structure OverlayHost where
  m_hwndTaskbar : Nat := 0
  m_hwndStart : Nat := 0
  taskbarWindow : OverlayWindow := {}
  startWindow : OverlayWindow := {}
  deriving DecidableEq, Repr

namespace OverlayHost

/-- `UpdateTaskbarOverlay`: `SetWindowPos` with `SWP_SHOWWINDOW`. -/
def UpdateTaskbarOverlay (self : OverlayHost) (info : TaskbarInfo) : OverlayHost :=
  if self.m_hwndTaskbar = 0 ∨ ¬ info.found then self
  else
    { self with
      taskbarWindow :=
        { shown := true, x := info.rect.left, y := info.rect.top,
          width := info.rect.right - info.rect.left,
          height := info.rect.bottom - info.rect.top } }

/-- `ShowStartOverlay`: `SetWindowPos` with `SWP_SHOWWINDOW`. -/
def ShowStartOverlay (self : OverlayHost) (info : StartInfo) : OverlayHost :=
  if self.m_hwndStart = 0 ∨ ¬ info.detected then self
  else
    { self with
      startWindow :=
        { shown := true, x := info.rect.left, y := info.rect.top,
          width := info.rect.right - info.rect.left,
          height := info.rect.bottom - info.rect.top } }

/-- `HideStartOverlay`: `ShowWindow(m_hwndStart, SW_HIDE)`. -/
def HideStartOverlay (self : OverlayHost) : OverlayHost :=
  if self.m_hwndStart = 0 then self
  else { self with startWindow := { self.startWindow with shown := false } }

/-- `Initialize`: `classesOk` is the result of `RegisterWindowClasses()`,
`hwndTaskbar` and `hwndStart` are the handles the two `CreateOverlayWindow`
calls return (`0` on failure).  A window is created hidden, at the origin, with
no extent. -/
def Initialize (self : OverlayHost) (classesOk : Bool) (hwndTaskbar hwndStart : Nat) :
    OverlayHost × Bool :=
  if ¬ classesOk then (self, false)
  else
    let self := { self with m_hwndTaskbar := hwndTaskbar, taskbarWindow := {} }
    if hwndTaskbar = 0 then (self, false)
    else
      let self := { self with m_hwndStart := hwndStart, startWindow := {} }
      if hwndStart = 0 then (self, false) else (self, true)

/-- `Shutdown`: both windows are destroyed and their handles cleared. -/
def Shutdown (self : OverlayHost) : OverlayHost :=
  let self :=
    if self.m_hwndStart ≠ 0 then { self with m_hwndStart := 0, startWindow := {} } else self
  let self :=
    if self.m_hwndTaskbar ≠ 0 then { self with m_hwndTaskbar := 0, taskbarWindow := {} }
    else self
  self

end OverlayHost

/-! ## Coordinator (`Core.h`, `Core.cpp`) -/

/-- `EdgeToString`, as the narrow string `GetCurrentStatus` converts it to. -/
def EdgeToString : Edge → String
  | Edge.Bottom => "bottom"
  | Edge.Top => "top"
  | Edge.Left => "left"
  | Edge.Right => "right"

/-- Members of `CrystalFrameCore`; a `unique_ptr` is `none` when null.  The
locator is held together with the local state of its monitor thread.
`quitPosted` records that `PostQuitMessage` has been called. -/
structure CrystalFrameCore where
  m_running : Bool := false
  m_config : Option ConfigManager := none
  m_locator : Option ShellTargetLocator.Monitor := none
  m_renderer : Option Renderer := none
  m_overlayHost : Option OverlayHost := none
  m_ipc : Option IpcBridge := none
  quitPosted : Bool := false
  deriving DecidableEq, Repr

namespace CrystalFrameCore

/-- `OnSetStartEnabled`; `env` is what the compositor and the clock answer,
`saveOpened` whether the configuration file could be opened for writing. -/
def OnSetStartEnabled (self : CrystalFrameCore) (enabled : Bool) (env : RenderEnv)
    (saveOpened : Bool) : CrystalFrameCore :=
  let self :=
    { self with m_renderer := self.m_renderer.map (fun (r : Renderer) => r.SetStartEnabled enabled env) }
  let self :=
    { self with
      m_config :=
        self.m_config.map
          (fun (c : ConfigManager) => ((c.SetStartEnabled enabled).Save saveOpened).1) }
  self

/-- `GetCurrentStatus`. -/
def GetCurrentStatus (self : CrystalFrameCore) : StatusData :=
  let status : StatusData := {}
  let status :=
    match self.m_locator with
    | none => status
    | some m =>
      let taskbarInfo := m.loc.GetTaskbarInfo
      let startInfo := m.loc.GetStartInfo
      { taskbar :=
          { status.taskbar with
            found := taskbarInfo.found
            edge := EdgeToString taskbarInfo.edge
            autoHide := taskbarInfo.autoHide }
        start :=
          { status.start with
            detected := startInfo.detected
            isOpen := startInfo.isOpen
            confidence := startInfo.confidence } }
  let status :=
    match self.m_config with
    | none => status
    | some c =>
      let config := c.GetConfig
      { taskbar :=
          { status.taskbar with
            enabled := config.taskbarEnabled
            opacity := config.taskbarOpacity }
        start :=
          { status.start with
            enabled := config.startEnabled
            opacity := config.startOpacity } }
  status

/-- `OnSetTaskbarOpacity`; `opacity / 100.0f` is the binary32 quotient of the
converted `int`. -/
def OnSetTaskbarOpacity (self : CrystalFrameCore) (opacity : Int) (env : RenderEnv)
    (saveOpened : Bool) : CrystalFrameCore :=
  let self :=
    { self with
      m_renderer :=
        self.m_renderer.map
          (fun (r : Renderer) =>
            r.SetTaskbarOpacity (F32.div (F32.ofInt opacity) F32.c100) env) }
  let self :=
    { self with
      m_config :=
        self.m_config.map
          (fun (c : ConfigManager) => ((c.SetTaskbarOpacity opacity).Save saveOpened).1) }
  self

/-- `OnSetStartOpacity`. -/
def OnSetStartOpacity (self : CrystalFrameCore) (opacity : Int) (env : RenderEnv)
    (saveOpened : Bool) : CrystalFrameCore :=
  let self :=
    { self with
      m_renderer :=
        self.m_renderer.map
          (fun (r : Renderer) =>
            r.SetStartOpacity (F32.div (F32.ofInt opacity) F32.c100) env) }
  let self :=
    { self with
      m_config :=
        self.m_config.map
          (fun (c : ConfigManager) => ((c.SetStartOpacity opacity).Save saveOpened).1) }
  self

/-- `OnSetTaskbarEnabled`. -/
def OnSetTaskbarEnabled (self : CrystalFrameCore) (enabled : Bool) (env : RenderEnv)
    (saveOpened : Bool) : CrystalFrameCore :=
  let self :=
    { self with
      m_renderer :=
        self.m_renderer.map (fun (r : Renderer) => r.SetTaskbarEnabled enabled env) }
  let self :=
    { self with
      m_config :=
        self.m_config.map
          (fun (c : ConfigManager) => ((c.SetTaskbarEnabled enabled).Save saveOpened).1) }
  self

/-- `OnGetStatus`. -/
def OnGetStatus (self : CrystalFrameCore) : CrystalFrameCore :=
  { self with
    m_ipc := self.m_ipc.map (fun (i : IpcBridge) => i.SendStatusUpdate self.GetCurrentStatus) }

/-- `OnStartDetectionFailed`. -/
def OnStartDetectionFailed (self : CrystalFrameCore) (env : RenderEnv) : CrystalFrameCore :=
  let self :=
    { self with
      m_renderer := self.m_renderer.map (fun (r : Renderer) => r.SetStartEnabled false env) }
  let self :=
    { self with
      m_overlayHost := self.m_overlayHost.map (fun (h : OverlayHost) => h.HideStartOverlay) }
  let self :=
    { self with
      m_ipc :=
        self.m_ipc.map
          (fun (i : IpcBridge) =>
            (i.SendError "Start menu detection unreliable" "START_DETECTION_FAILED").SendStatusUpdate
              self.GetCurrentStatus) }
  self

/-- `OnTaskbarChanged`. -/
def OnTaskbarChanged (self : CrystalFrameCore) (info : TaskbarInfo) : CrystalFrameCore :=
  let self :=
    { self with
      m_overlayHost :=
        self.m_overlayHost.map (fun (h : OverlayHost) => h.UpdateTaskbarOverlay info) }
  let self :=
    { self with
      m_ipc := self.m_ipc.map (fun (i : IpcBridge) => i.SendStatusUpdate self.GetCurrentStatus) }
  self

/-- `OnStartShown`. -/
def OnStartShown (self : CrystalFrameCore) (info : StartInfo) : CrystalFrameCore :=
  let self :=
    { self with
      m_overlayHost := self.m_overlayHost.map (fun (h : OverlayHost) => h.ShowStartOverlay info) }
  let self :=
    { self with
      m_ipc := self.m_ipc.map (fun (i : IpcBridge) => i.SendStatusUpdate self.GetCurrentStatus) }
  self

/-- `OnStartHidden`. -/
def OnStartHidden (self : CrystalFrameCore) : CrystalFrameCore :=
  let self :=
    { self with
      m_overlayHost := self.m_overlayHost.map (fun (h : OverlayHost) => h.HideStartOverlay) }
  let self :=
    { self with
      m_ipc := self.m_ipc.map (fun (i : IpcBridge) => i.SendStatusUpdate self.GetCurrentStatus) }
  self

/-- `OnShutdown`. -/
def OnShutdown (self : CrystalFrameCore) : CrystalFrameCore :=
  let self :=
    { self with
      m_ipc := self.m_ipc.map (fun (i : IpcBridge) => i.SendStatusUpdate self.GetCurrentStatus) }
  { self with m_running := false, quitPosted := true }

/-- A call through `IShellTargetCallback` arriving at the coordinator; `env` is
what the compositor and the clock answer during it. -/
def onShellEvent (self : CrystalFrameCore) (env : RenderEnv) : ShellEvent → CrystalFrameCore
  | ShellEvent.OnTaskbarChanged info => self.OnTaskbarChanged info
  | ShellEvent.OnStartShown info => self.OnStartShown info
  | ShellEvent.OnStartHidden => self.OnStartHidden
  | ShellEvent.OnStartDetectionFailed => self.OnStartDetectionFailed env

/-- A call through `IIpcCallback` arriving at the coordinator. -/
def onIpcCommand (self : CrystalFrameCore) (env : RenderEnv) (saveOpened : Bool) :
    IpcCommand → CrystalFrameCore
  | IpcCommand.OnSetTaskbarOpacity opacity => self.OnSetTaskbarOpacity opacity env saveOpened
  | IpcCommand.OnSetStartOpacity opacity => self.OnSetStartOpacity opacity env saveOpened
  | IpcCommand.OnSetTaskbarEnabled enabled => self.OnSetTaskbarEnabled enabled env saveOpened
  | IpcCommand.OnSetStartEnabled enabled => self.OnSetStartEnabled enabled env saveOpened
  | IpcCommand.OnGetStatus => self.OnGetStatus
  | IpcCommand.OnShutdown => self.OnShutdown

/-- The coordinator after the listener thread has passed one message to
`HandleMessage`: the callbacks `HandleMessage` makes arrive in order. -/
def receive (self : CrystalFrameCore) (json : String) (env : RenderEnv) (saveOpened : Bool) :
    CrystalFrameCore :=
  match self.m_ipc with
  | none => self
  | some i => (IpcBridge.HandleMessage i.m_callback json).foldl
      (fun (core : CrystalFrameCore) cmd => core.onIpcCommand env saveOpened cmd) self

/-- What the environment answers during `CrystalFrameCore::Initialize`: the
content of the configuration file (`none` when there is none), the results of
`EnsureDirectoryExists` and of opening the file for writing, the answers to
`OverlayHost::Initialize`, to `Renderer::Initialize` and to the four renderer
calls that apply the configuration, the answers to
`ShellTargetLocator::Initialize`, and whether the pipe could be created. -/
structure CoreInitEnv where
  configFile : Option String := none
  configDirOk : Bool := true
  saveOpened : Bool := true
  classesOk : Bool := true
  hwndTaskbar : Nat := 1
  hwndStart : Nat := 2
  render : Renderer.InitEnv := {}
  applyTaskbarOpacity : RenderEnv := {}
  applyStartOpacity : RenderEnv := {}
  applyTaskbarEnabled : RenderEnv := {}
  applyStartEnabled : RenderEnv := {}
  msgWindowOk : Bool := true
  taskbar : ShellTargetLocator.TaskbarProbe := {}
  pipeOk : Bool := true
  deriving DecidableEq, Repr

/-- `Initialize`: the coordinator afterwards and the `bool` returned, or the
exception that escapes (nothing between `std::stoi` in `ConfigManager::Load`
and `wWinMain` catches it).  The only callback the locator can make during its
`Initialize` is `OnTaskbarChanged`, which reads no compositor answer. -/
def Initialize (self : CrystalFrameCore) (env : CoreInitEnv) :
    Except Str.StoiError (CrystalFrameCore × Bool) :=
  let self :=
    { self with
      m_config := some { file := env.configFile }
      m_locator := some { loc := {} }
      m_overlayHost := some {}
      m_renderer := some {}
      m_ipc := some {} }
  match ({ file := env.configFile } : ConfigManager).Initialize env.configDirOk
      env.saveOpened with
  | (_, Except.error e) => Except.error e
  | (manager, Except.ok false) => Except.ok ({ self with m_config := some manager }, false)
  | (manager, Except.ok true) =>
    let self := { self with m_config := some manager }
    let config := manager.GetConfig
    let host := OverlayHost.Initialize {} env.classesOk env.hwndTaskbar env.hwndStart
    let self := { self with m_overlayHost := some host.1 }
    if ¬ host.2 then Except.ok (self, false)
    else
      let renderer := Renderer.Initialize {} host.1.m_hwndTaskbar host.1.m_hwndStart env.render
      let self := { self with m_renderer := some renderer.1 }
      if ¬ renderer.2 then Except.ok (self, false)
      else
        let r := renderer.1
        let r :=
          r.SetTaskbarOpacity (F32.div (F32.ofInt config.taskbarOpacity) F32.c100)
            env.applyTaskbarOpacity
        let r :=
          r.SetStartOpacity (F32.div (F32.ofInt config.startOpacity) F32.c100)
            env.applyStartOpacity
        let r := r.SetTaskbarEnabled config.taskbarEnabled env.applyTaskbarEnabled
        let r := r.SetStartEnabled config.startEnabled env.applyStartEnabled
        let self := { self with m_renderer := some r }
        let locator := ShellTargetLocator.Initialize {} true env.msgWindowOk env.taskbar
        let self := { self with m_locator := some { loc := locator.1 } }
        let self :=
          locator.2.2.foldl (fun (core : CrystalFrameCore) e => core.onShellEvent {} e) self
        if ¬ locator.2.1 then Except.ok (self, false)
        else
          let ipc := IpcBridge.Initialize {} true env.pipeOk
          let self := { self with m_ipc := some ipc.1 }
          if ¬ ipc.2 then Except.ok (self, false)
          else
            let self :=
              { self with
                m_ipc :=
                  self.m_ipc.map
                    (fun (i : IpcBridge) => i.SendStatusUpdate self.GetCurrentStatus) }
            Except.ok (self, true)

/-- What the destructor of a member does when `Shutdown` resets the pointer to
it, with the state in which the member ends. -/
inductive Teardown where
  | ChannelStopped (ipc : IpcBridge)
  | CompositorReleased (renderer : Renderer)
  | MonitorJoined (locator : ShellTargetLocator)
  | WindowsDestroyed (host : OverlayHost)
  | ConfigSaved (config : ConfigManager) (saved : Bool)
  deriving DecidableEq, Repr

/-- The statements of `Shutdown`, numbered from `0`, on the coordinator and the
destructor work done so far: `m_running = false`, then `m_ipc.reset()`,
`m_renderer.reset()`, `m_locator.reset()`, `m_overlayHost.reset()` and
`m_config.reset()`.  Resetting a null pointer does nothing; a destructor runs
the `Shutdown` of its class (`Save` for the configuration manager, with
`saveOpened` telling whether the file can be opened). -/
def Shutdown_statement (saveOpened : Bool) :
    Nat → CrystalFrameCore × List Teardown → CrystalFrameCore × List Teardown
  | 0, (self, done) => ({ self with m_running := false }, done)
  | 1, (self, done) =>
    match self.m_ipc with
    | none => (self, done)
    | some i => ({ self with m_ipc := none }, done ++ [Teardown.ChannelStopped i.Shutdown])
  | 2, (self, done) =>
    match self.m_renderer with
    | none => (self, done)
    | some r =>
      ({ self with m_renderer := none }, done ++ [Teardown.CompositorReleased r.Shutdown])
  | 3, (self, done) =>
    match self.m_locator with
    | none => (self, done)
    | some m =>
      ({ self with m_locator := none }, done ++ [Teardown.MonitorJoined m.loc.Shutdown])
  | 4, (self, done) =>
    match self.m_overlayHost with
    | none => (self, done)
    | some h =>
      ({ self with m_overlayHost := none }, done ++ [Teardown.WindowsDestroyed h.Shutdown])
  | 5, (self, done) =>
    match self.m_config with
    | none => (self, done)
    | some c =>
      ({ self with m_config := none },
        done ++ [Teardown.ConfigSaved (c.Save saveOpened).1 (c.Save saveOpened).2])
  | _, state => state

/-- The coordinator and the destructor work done after the first `n` statements
of `Shutdown`. -/
def Shutdown_upto (self : CrystalFrameCore) (saveOpened : Bool) (n : Nat) :
    CrystalFrameCore × List Teardown :=
  (List.range n).foldl (fun state k => Shutdown_statement saveOpened k state) (self, [])

/-- `Shutdown`: all six statements. -/
def Shutdown (self : CrystalFrameCore) (saveOpened : Bool) : CrystalFrameCore × List Teardown :=
  self.Shutdown_upto saveOpened 6

/-- Position of the first entry of a kind in the destructor work (`none` when
there is none). -/
def Teardown.indexOf (p : Teardown → Bool) (done : List Teardown) : Option Nat :=
  let i := done.findIdx p
  if i < done.length then some i else none

/-- The work is the release of the compositor resources. -/
def Teardown.isCompositorReleased : Teardown → Bool
  | Teardown.CompositorReleased _ => true
  | _ => false

/-- The work is the joining of the monitor thread. -/
def Teardown.isMonitorJoined : Teardown → Bool
  | Teardown.MonitorJoined _ => true
  | _ => false

/-- The work is the stopping of the control channel. -/
def Teardown.isChannelStopped : Teardown → Bool
  | Teardown.ChannelStopped _ => true
  | _ => false

/-- The opacity a setter command with argument `opacity` asks of the renderer:
`opacity / 100.0f`, as the renderer's setter clamps it to `[0, 1]`. -/
def requested (opacity : Int) : F32 :=
  F32.clamp (F32.div (F32.ofInt opacity) F32.c100) F32.zero F32.one

/-- The coordinator after each of the handlers that are not setter commands:
`OnGetStatus`, `OnShutdown`, `OnTaskbarChanged`, `OnStartShown`, `OnStartHidden`
and `OnStartDetectionFailed`.  Each of them calls `SendStatusUpdate`. -/
def statusPushes (self : CrystalFrameCore) (env : RenderEnv) (taskbar : TaskbarInfo)
    (start : StartInfo) : List CrystalFrameCore :=
  [self.OnGetStatus, self.OnShutdown, self.OnTaskbarChanged taskbar, self.OnStartShown start,
    self.OnStartHidden, self.OnStartDetectionFailed env]

/-- The message written to the pipe last (`none` when there is no control
channel or nothing has been written). -/
def lastWritten (self : CrystalFrameCore) : Option IpcMessage :=
  match self.m_ipc with
  | none => none
  | some i => i.written.getLast?

/-- The start 'enabled' value reported by `GetCurrentStatus` equals the
renderer's start-overlay flag. -/
def startFlagsAgree (self : CrystalFrameCore) : Prop :=
  self.m_renderer.map (fun (r : Renderer) => r.m_startEnabled) =
    some self.GetCurrentStatus.start.enabled

/-- A system after a successful `Initialize` with the default configuration: the
overlay windows exist, the renderer is initialised, the pipe is open with the
coordinator as callback, the monitor thread is at its start, and the start menu
overlay is shown. -/
def runningSystem : CrystalFrameCore :=
  { m_running := true
    m_config := some {}
    m_locator := some (ShellTargetLocator.monitorAtStart true {})
    m_renderer := some Renderer.initialized
    m_overlayHost := some
      { m_hwndTaskbar := 1, m_hwndStart := 2,
        startWindow := { shown := true, x := 660, y := 300, width := 600, height := 700 } }
    m_ipc := some { m_pipeValid := true, m_running := true, m_callback := true } }

/-- A running system whose locator has just disabled itself: the renderer is
initialised, the configuration holds its defaults, and the monitor thread has
processed eleven polls of confidence `0.59f` since start-up. -/
def afterAutoDisable : CrystalFrameCore :=
  { m_running := true
    m_config := some {}
    m_locator := some
      (ShellTargetLocator.MonitorStart_run (ShellTargetLocator.monitorAtStart true {})
        (List.replicate 11 ShellTargetLocator.lowPoll)).1
    m_renderer := some (Renderer.Initialize {} 1 2 {}).1 }

end CrystalFrameCore

/-! ## Properties of start-menu monitoring -/

namespace ShellTargetLocator

/-! ### One poll, component by component -/

theorem poll_lastState (self : ShellTargetLocator) (lastState newState : StartInfo) :
    (self.MonitorStart_poll lastState newState).2.1 = newState := by
  unfold MonitorStart_poll
  rfl

theorem poll_events (self : ShellTargetLocator) (lastState newState : StartInfo) :
    (self.MonitorStart_poll lastState newState).2.2 =
      (if newState.isOpen = true ∧ lastState.isOpen = false ∧
          F32.c0_6 ≤ newState.confidence then
        self.notify (ShellEvent.OnStartShown newState)
      else if newState.isOpen = false ∧ lastState.isOpen = true then
        self.notify ShellEvent.OnStartHidden
      else []) ++
      (if newState.isOpen = true ∧ newState.confidence < F32.c0_6 ∧
          10 < self.m_lowConfidenceCount + 1 then
        self.notify ShellEvent.OnStartDetectionFailed
      else []) := by
  unfold MonitorStart_poll notify
  rcases lt_or_le newState.confidence F32.c0_6 with hlt | hc
  · have hc : ¬ F32.c0_6 ≤ newState.confidence := not_le.mpr hlt
    by_cases h10 : 10 < self.m_lowConfidenceCount + 1 <;>
      cases hO : newState.isOpen <;> cases hL : lastState.isOpen <;>
      simp [hO, hL, hc, hlt, h10]
  · have hlt : ¬ newState.confidence < F32.c0_6 := not_lt.mpr hc
    cases hO : newState.isOpen <;> cases hL : lastState.isOpen <;>
      simp [hO, hL, hc, hlt]

theorem poll_count (self : ShellTargetLocator) (lastState newState : StartInfo) :
    (self.MonitorStart_poll lastState newState).1.m_lowConfidenceCount =
      if newState.isOpen = true ∧ newState.confidence < F32.c0_6 then
        if 10 < self.m_lowConfidenceCount + 1 then 0 else self.m_lowConfidenceCount + 1
      else 0 := by
  unfold MonitorStart_poll notify
  rcases lt_or_le newState.confidence F32.c0_6 with hlt | hc
  · have hc : ¬ F32.c0_6 ≤ newState.confidence := not_le.mpr hlt
    by_cases h10 : 10 < self.m_lowConfidenceCount + 1 <;>
      cases hO : newState.isOpen <;> cases hL : lastState.isOpen <;>
      simp [hO, hL, hc, hlt, h10]
  · have hlt : ¬ newState.confidence < F32.c0_6 := not_lt.mpr hc
    cases hO : newState.isOpen <;> cases hL : lastState.isOpen <;>
      simp [hO, hL, hc, hlt]

theorem poll_enabled (self : ShellTargetLocator) (lastState newState : StartInfo) :
    (self.MonitorStart_poll lastState newState).1.m_startEnabled =
      if newState.isOpen = true ∧ newState.confidence < F32.c0_6 ∧
          10 < self.m_lowConfidenceCount + 1 then false
      else self.m_startEnabled := by
  unfold MonitorStart_poll notify
  rcases lt_or_le newState.confidence F32.c0_6 with hlt | hc
  · have hc : ¬ F32.c0_6 ≤ newState.confidence := not_le.mpr hlt
    by_cases h10 : 10 < self.m_lowConfidenceCount + 1 <;>
      cases hO : newState.isOpen <;> cases hL : lastState.isOpen <;>
      simp [hO, hL, hc, hlt, h10]
  · have hlt : ¬ newState.confidence < F32.c0_6 := not_lt.mpr hc
    cases hO : newState.isOpen <;> cases hL : lastState.isOpen <;>
      simp [hO, hL, hc, hlt]

theorem poll_startInfo (self : ShellTargetLocator) (lastState newState : StartInfo) :
    (self.MonitorStart_poll lastState newState).1.m_startInfo =
      if newState.isOpen = true ∧ lastState.isOpen = false ∧
          F32.c0_6 ≤ newState.confidence then newState
      else if newState.isOpen = false ∧ lastState.isOpen = true then
        { self.m_startInfo with isOpen := false }
      else self.m_startInfo := by
  unfold MonitorStart_poll notify
  rcases lt_or_le newState.confidence F32.c0_6 with hlt | hc
  · have hc : ¬ F32.c0_6 ≤ newState.confidence := not_le.mpr hlt
    by_cases h10 : 10 < self.m_lowConfidenceCount + 1 <;>
      cases hO : newState.isOpen <;> cases hL : lastState.isOpen <;>
      simp [hO, hL, hc, hlt, h10]
  · have hlt : ¬ newState.confidence < F32.c0_6 := not_lt.mpr hc
    cases hO : newState.isOpen <;> cases hL : lastState.isOpen <;>
      simp [hO, hL, hc, hlt]

theorem poll_fixed (self : ShellTargetLocator) (lastState newState : StartInfo) :
    (self.MonitorStart_poll lastState newState).1.m_callback = self.m_callback ∧
      (self.MonitorStart_poll lastState newState).1.m_running = self.m_running ∧
      (self.MonitorStart_poll lastState newState).1.m_taskbarInfo = self.m_taskbarInfo := by
  unfold MonitorStart_poll notify
  rcases lt_or_le newState.confidence F32.c0_6 with hlt | hc
  · have hc : ¬ F32.c0_6 ≤ newState.confidence := not_le.mpr hlt
    by_cases h10 : 10 < self.m_lowConfidenceCount + 1 <;>
      cases hO : newState.isOpen <;> cases hL : lastState.isOpen <;>
      simp [hO, hL, hc, hlt, h10]
  · have hlt : ¬ newState.confidence < F32.c0_6 := not_lt.mpr hc
    cases hO : newState.isOpen <;> cases hL : lastState.isOpen <;>
      simp [hO, hL, hc, hlt]

/-- An `OnStartShown` call in the callbacks of a poll comes from the opened
branch and carries the polled record. -/
theorem shown_mem_poll (self : ShellTargetLocator) (lastState newState info : StartInfo) :
    ShellEvent.OnStartShown info ∈ (self.MonitorStart_poll lastState newState).2.2 ↔
      self.m_callback = true ∧ newState.isOpen = true ∧ lastState.isOpen = false ∧
        F32.c0_6 ≤ newState.confidence ∧ info = newState := by
  rw [poll_events]
  unfold notify
  by_cases hA : newState.isOpen = true ∧ lastState.isOpen = false ∧
      F32.c0_6 ≤ newState.confidence
  · cases hcb : self.m_callback <;> simp [hA]
  · have hA2 : ¬ (newState.isOpen = true ∧ lastState.isOpen = false ∧
        F32.c0_6 ≤ newState.confidence ∧ info = newState) :=
      fun h => hA ⟨h.1, h.2.1, h.2.2.1⟩
    have hrhs : ¬ (self.m_callback = true ∧ newState.isOpen = true ∧
        lastState.isOpen = false ∧ F32.c0_6 ≤ newState.confidence ∧ info = newState) :=
      fun h => hA2 h.2
    simp only [hA, if_false, hrhs, iff_false]
    cases hcb : self.m_callback <;> simp

/-- An `OnStartHidden` call in the callbacks of a poll comes from the closed
branch. -/
theorem hidden_mem_poll (self : ShellTargetLocator) (lastState newState : StartInfo) :
    ShellEvent.OnStartHidden ∈ (self.MonitorStart_poll lastState newState).2.2 ↔
      self.m_callback = true ∧ newState.isOpen = false ∧ lastState.isOpen = true := by
  rw [poll_events]
  unfold notify
  cases hO : newState.isOpen <;> cases hL : lastState.isOpen <;>
    cases hcb : self.m_callback <;> simp

/-- C1.  In one poll of `MonitorStart`, for every locator state, previous record
and new record: `OnStartShown` is emitted only if the new record has
`isOpen = true` and `confidence ≥ 0.6f`; and whenever it is emitted, the event
carries the new record unchanged, `GetStartInfo` returns exactly that record
afterwards, and the low-confidence streak counter is `0` after the poll. -/
theorem opened_event_contract (self : ShellTargetLocator)
    (lastState newState info : StartInfo)
    (h : ShellEvent.OnStartShown info ∈ (self.MonitorStart_poll lastState newState).2.2) :
    newState.isOpen = true ∧ newState.confidence ≥ F32.c0_6 ∧ info = newState ∧
      (self.MonitorStart_poll lastState newState).1.GetStartInfo = newState ∧
      (self.MonitorStart_poll lastState newState).1.m_lowConfidenceCount = 0 := by
  obtain ⟨_, hO, hL, hc, hinfo⟩ := (shown_mem_poll self lastState newState info).mp h
  refine ⟨hO, hc, hinfo, ?_, ?_⟩
  · show (self.MonitorStart_poll lastState newState).1.m_startInfo = newState
    rw [poll_startInfo, if_pos ⟨hO, hL, hc⟩]
  · rw [poll_count, if_neg (fun hlow => absurd hc (not_le.mpr hlow.2))]

/-- An `OnStartDetectionFailed` call in the callbacks of a poll comes from the
auto-disable branch. -/
theorem failed_mem_poll (self : ShellTargetLocator) (lastState newState : StartInfo) :
    ShellEvent.OnStartDetectionFailed ∈ (self.MonitorStart_poll lastState newState).2.2 ↔
      self.m_callback = true ∧ newState.isOpen = true ∧ newState.confidence < F32.c0_6 ∧
        10 < self.m_lowConfidenceCount + 1 := by
  rw [poll_events]
  unfold notify
  by_cases hB : newState.isOpen = true ∧ newState.confidence < F32.c0_6 ∧
      10 < self.m_lowConfidenceCount + 1
  · have hA : ¬ (newState.isOpen = true ∧ lastState.isOpen = false ∧
        F32.c0_6 ≤ newState.confidence) := fun h => absurd h.2.2 (not_le.mpr hB.2.1)
    have hA2 : ¬ (newState.isOpen = false ∧ lastState.isOpen = true) := by
      rw [hB.1]; simp
    cases hcb : self.m_callback <;> simp [hA, hA2, hB]
  · have hrhs : ¬ (self.m_callback = true ∧ newState.isOpen = true ∧
        newState.confidence < F32.c0_6 ∧ 10 < self.m_lowConfidenceCount + 1) :=
      fun h => hB h.2
    simp only [hB, if_false, hrhs, iff_false, List.append_nil]
    cases hcb : self.m_callback <;> split <;> try split
    all_goals simp

/-- C5.  For every poll processed by a locator that has a callback registered,
`OnStartHidden` is emitted if and only if the previous record had
`isOpen = true` and the new record has `isOpen = false`; whenever it is emitted
the snapshot returned by `GetStartInfo` has `isOpen = false` afterwards; and no
poll emits both `OnStartShown` and `OnStartHidden`. -/
theorem closed_event_contract (self : ShellTargetLocator) (lastState newState : StartInfo) :
    (self.m_callback = true →
        (ShellEvent.OnStartHidden ∈ (self.MonitorStart_poll lastState newState).2.2 ↔
          lastState.isOpen = true ∧ newState.isOpen = false)) ∧
      (ShellEvent.OnStartHidden ∈ (self.MonitorStart_poll lastState newState).2.2 →
        (self.MonitorStart_poll lastState newState).1.GetStartInfo.isOpen = false) ∧
      ¬ (ShellEvent.OnStartHidden ∈ (self.MonitorStart_poll lastState newState).2.2 ∧
          ∃ info, ShellEvent.OnStartShown info ∈
            (self.MonitorStart_poll lastState newState).2.2) := by
  refine ⟨?_, ?_, ?_⟩
  · intro hcb
    rw [hidden_mem_poll]
    constructor
    · rintro ⟨_, hO, hL⟩
      exact ⟨hL, hO⟩
    · rintro ⟨hL, hO⟩
      exact ⟨hcb, hO, hL⟩
  · intro h
    obtain ⟨_, hO, hL⟩ := (hidden_mem_poll self lastState newState).mp h
    show (self.MonitorStart_poll lastState newState).1.m_startInfo.isOpen = false
    have hA : ¬ (newState.isOpen = true ∧ lastState.isOpen = false ∧
        F32.c0_6 ≤ newState.confidence) := by
      rw [hO]; simp
    rw [poll_startInfo, if_neg hA, if_pos ⟨hO, hL⟩]
  · rintro ⟨hh, info, hs⟩
    obtain ⟨_, hO, _⟩ := (hidden_mem_poll self lastState newState).mp hh
    obtain ⟨_, hO2, _⟩ := (shown_mem_poll self lastState newState info).mp hs
    rw [hO] at hO2
    exact Bool.noConfusion hO2

/-! ### Passes of the loop -/

theorem step_active (m : Monitor) (detect : StartInfo)
    (hrun : m.loc.m_running = true) (hen : m.loc.m_startEnabled = true) :
    MonitorStart_step m detect =
      ({ loc := (m.loc.MonitorStart_poll m.lastState detect).1,
         lastState := (m.loc.MonitorStart_poll m.lastState detect).2.1 },
        (m.loc.MonitorStart_poll m.lastState detect).2.2) := by
  unfold MonitorStart_step
  simp [hrun, hen]

theorem step_idle (m : Monitor) (detect : StartInfo)
    (h : m.loc.m_running = false ∨ m.loc.m_startEnabled = false) :
    MonitorStart_step m detect = (m, []) := by
  unfold MonitorStart_step
  rcases h with h | h
  · simp [h]
  · simp [h]

theorem run_nil (m : Monitor) : MonitorStart_run m [] = (m, []) := rfl

theorem run_cons (m : Monitor) (p : StartInfo) (ps : List StartInfo) :
    MonitorStart_run m (p :: ps) =
      ((MonitorStart_run (MonitorStart_step m p).1 ps).1,
        (MonitorStart_step m p).2 ++ (MonitorStart_run (MonitorStart_step m p).1 ps).2) := rfl

theorem run_append (ps qs : List StartInfo) (m : Monitor) :
    MonitorStart_run m (ps ++ qs) =
      ((MonitorStart_run (MonitorStart_run m ps).1 qs).1,
        (MonitorStart_run m ps).2 ++ (MonitorStart_run (MonitorStart_run m ps).1 qs).2) := by
  induction ps generalizing m with
  | nil => simp [run_nil]
  | cons p ps ih => simp [run_cons, ih, List.append_assoc]

/-- A pass over a low-confidence open record below the limit only advances the
streak counter. -/
theorem step_low (m : Monitor) (p : StartInfo)
    (hrun : m.loc.m_running = true) (hen : m.loc.m_startEnabled = true)
    (hlow : lowOpen p) (hroom : m.loc.m_lowConfidenceCount + 1 ≤ 10) :
    MonitorStart_step m p =
      ({ loc := { m.loc with m_lowConfidenceCount := m.loc.m_lowConfidenceCount + 1 },
         lastState := p }, []) := by
  have hc : ¬ F32.c0_6 ≤ p.confidence := not_le.mpr hlow.2
  have h10 : ¬ 10 < m.loc.m_lowConfidenceCount + 1 := not_lt.mpr hroom
  rw [step_active m p hrun hen]
  unfold MonitorStart_poll notify
  cases hL : m.lastState.isOpen <;> simp [hlow.1, hlow.2, hc, h10, hL]

/-- A pass over a low-confidence open record at the limit disables detection,
clears the counter and reports the failure. -/
theorem step_low_limit (m : Monitor) (p : StartInfo)
    (hrun : m.loc.m_running = true) (hen : m.loc.m_startEnabled = true)
    (hlow : lowOpen p) (hfull : 10 < m.loc.m_lowConfidenceCount + 1) :
    MonitorStart_step m p =
      ({ loc := { m.loc with m_startEnabled := false, m_lowConfidenceCount := 0 },
         lastState := p }, m.loc.notify ShellEvent.OnStartDetectionFailed) := by
  have hc : ¬ F32.c0_6 ≤ p.confidence := not_le.mpr hlow.2
  rw [step_active m p hrun hen]
  unfold MonitorStart_poll notify
  cases hL : m.lastState.isOpen <;> simp [hlow.1, hlow.2, hc, hfull, hL]

/-- Low-confidence open records that fit below the limit emit nothing and only
advance the streak counter. -/
theorem run_low (polls : List StartInfo) :
    ∀ m : Monitor, m.loc.m_running = true → m.loc.m_startEnabled = true →
      (∀ p ∈ polls, lowOpen p) → m.loc.m_lowConfidenceCount + polls.length ≤ 10 →
      (MonitorStart_run m polls).2 = [] ∧
        (MonitorStart_run m polls).1.loc =
          { m.loc with m_lowConfidenceCount := m.loc.m_lowConfidenceCount + polls.length } := by
  induction polls with
  | nil =>
    intro m _ _ _ _
    simp [run_nil]
  | cons p ps ih =>
    intro m hrun hen hlow hroom
    have hlen : ((p :: ps).length : Int) = (ps.length : Int) + 1 := by simp
    have hp : lowOpen p := hlow p (List.mem_cons_self p ps)
    have hstep := step_low m p hrun hen hp (by omega)
    have hps : ∀ q ∈ ps, lowOpen q := fun q hq => hlow q (List.mem_cons_of_mem p hq)
    rw [run_cons, hstep]
    have := ih { loc := { m.loc with m_lowConfidenceCount := m.loc.m_lowConfidenceCount + 1 },
                 lastState := p } hrun hen hps (by simp only; omega)
    refine ⟨by simp [this.1], ?_⟩
    rw [this.2]
    simp only [hlen]
    congr 1
    omega

/-- No pass of the loop changes the callback pointer or the running flag. -/
theorem step_fixed (m : Monitor) (detect : StartInfo) :
    (MonitorStart_step m detect).1.loc.m_callback = m.loc.m_callback ∧
      (MonitorStart_step m detect).1.loc.m_running = m.loc.m_running := by
  by_cases hact : m.loc.m_running = true ∧ m.loc.m_startEnabled = true
  · rw [step_active m detect hact.1 hact.2]
    exact ⟨(poll_fixed m.loc m.lastState detect).1, (poll_fixed m.loc m.lastState detect).2.1⟩
  · have hidle : m.loc.m_running = false ∨ m.loc.m_startEnabled = false := by
      cases hr : m.loc.m_running <;> cases he : m.loc.m_startEnabled <;> simp_all
    rw [step_idle m detect hidle]
    exact ⟨rfl, rfl⟩

theorem run_fixed (polls : List StartInfo) :
    ∀ m : Monitor, (MonitorStart_run m polls).1.loc.m_callback = m.loc.m_callback ∧
      (MonitorStart_run m polls).1.loc.m_running = m.loc.m_running := by
  induction polls with
  | nil => exact fun _ => ⟨rfl, rfl⟩
  | cons p ps ih =>
    intro m
    rw [run_cons]
    exact ⟨(ih _).1.trans (step_fixed m p).1, (ih _).2.trans (step_fixed m p).2⟩

/-- One pass of the loop keeps the streak counter within `[0, 10]`. -/
theorem step_count_range (m : Monitor) (detect : StartInfo)
    (h : 0 ≤ m.loc.m_lowConfidenceCount ∧ m.loc.m_lowConfidenceCount ≤ 10) :
    0 ≤ (MonitorStart_step m detect).1.loc.m_lowConfidenceCount ∧
      (MonitorStart_step m detect).1.loc.m_lowConfidenceCount ≤ 10 := by
  by_cases hact : m.loc.m_running = true ∧ m.loc.m_startEnabled = true
  · rw [step_active m detect hact.1 hact.2]
    simp only [poll_count]
    split
    · split <;> omega
    · omega
  · have hidle : m.loc.m_running = false ∨ m.loc.m_startEnabled = false := by
      cases hr : m.loc.m_running <;> cases he : m.loc.m_startEnabled <;> simp_all
    rw [step_idle m detect hidle]
    exact h

/-- Any number of passes keeps the streak counter within `[0, 10]`. -/
theorem run_count_range (polls : List StartInfo) :
    ∀ m : Monitor, (0 ≤ m.loc.m_lowConfidenceCount ∧ m.loc.m_lowConfidenceCount ≤ 10) →
      0 ≤ (MonitorStart_run m polls).1.loc.m_lowConfidenceCount ∧
        (MonitorStart_run m polls).1.loc.m_lowConfidenceCount ≤ 10 := by
  induction polls with
  | nil => exact fun _ h => h
  | cons p ps ih =>
    intro m h
    rw [run_cons]
    exact ih _ (step_count_range m p h)

/-- C4.  For every poll processed by `MonitorStart`: when the record has
`isOpen = true` and `confidence < 0.6f` the streak counter becomes `old + 1`, or
`0` when `old + 1` exceeds `10` (the poll on which the locator disables itself);
for every other record the counter becomes `0`, whatever the previous record
was, hence whether or not an opened or closed transition happened on the poll.
A counter within `[0, 10]` before a poll is within `[0, 10]` after it, and so the
counter is within `[0, 10]` after every sequence of passes since start-up. -/
theorem streak_counter_rule (self : ShellTargetLocator) (lastState newState : StartInfo) :
    ((newState.isOpen = true ∧ newState.confidence < F32.c0_6) →
        (self.MonitorStart_poll lastState newState).1.m_lowConfidenceCount =
            (if self.m_lowConfidenceCount + 1 > 10 then 0 else self.m_lowConfidenceCount + 1) ∧
          (self.m_lowConfidenceCount + 1 > 10 →
            (self.MonitorStart_poll lastState newState).1.m_startEnabled = false)) ∧
      ((newState.isOpen = false ∨ newState.confidence ≥ F32.c0_6) →
        (self.MonitorStart_poll lastState newState).1.m_lowConfidenceCount = 0) ∧
      ((0 ≤ self.m_lowConfidenceCount ∧ self.m_lowConfidenceCount ≤ 10) →
        0 ≤ (self.MonitorStart_poll lastState newState).1.m_lowConfidenceCount ∧
          (self.MonitorStart_poll lastState newState).1.m_lowConfidenceCount ≤ 10) ∧
      (∀ (callback : Bool) (taskbar : TaskbarInfo) (polls : List StartInfo),
        0 ≤ (MonitorStart_run (monitorAtStart callback taskbar)
              polls).1.loc.m_lowConfidenceCount ∧
          (MonitorStart_run (monitorAtStart callback taskbar)
              polls).1.loc.m_lowConfidenceCount ≤ 10) := by
  refine ⟨?_, ?_, ?_, ?_⟩
  · intro hlow
    refine ⟨?_, ?_⟩
    · rw [poll_count, if_pos hlow]
    · intro h10
      rw [poll_enabled, if_pos ⟨hlow.1, hlow.2, h10⟩]
  · intro hother
    have hnot : ¬ (newState.isOpen = true ∧ newState.confidence < F32.c0_6) := by
      rintro ⟨hO, hlt⟩
      rcases hother with h | h
      · rw [hO] at h
        exact Bool.noConfusion h
      · exact absurd h (not_le.mpr hlt)
    rw [poll_count, if_neg hnot]
  · rintro ⟨h0, h10⟩
    rw [poll_count]
    split
    · split <;> omega
    · omega
  · intro callback taskbar polls
    exact run_count_range polls (monitorAtStart callback taskbar)
      ⟨le_refl (0 : Int), show (0 : Int) ≤ 10 by decide⟩

/-- C3.  From an enabled, running locator with a callback registered and the
streak counter at `0`, eleven consecutive polls whose records have
`isOpen = true` and `confidence < 0.6f` emit exactly one callback in all,
`OnStartDetectionFailed`, and leave start detection disabled with the counter
back at `0`; every shorter prefix of these polls (in particular the first ten)
emits nothing and leaves detection enabled, so the event belongs to the
eleventh poll. -/
theorem auto_disable_after_eleven (m : Monitor) (polls : List StartInfo)
    (hrun : m.loc.m_running = true) (hen : m.loc.m_startEnabled = true)
    (hcb : m.loc.m_callback = true) (hzero : m.loc.m_lowConfidenceCount = 0)
    (hlen : polls.length = 11) (hlow : ∀ p ∈ polls, lowOpen p) :
    (MonitorStart_run m polls).2 = [ShellEvent.OnStartDetectionFailed] ∧
      (MonitorStart_run m polls).1.loc.m_startEnabled = false ∧
      (MonitorStart_run m polls).1.loc.m_lowConfidenceCount = 0 ∧
      ∀ k, k ≤ 10 →
        (MonitorStart_run m (polls.take k)).2 = [] ∧
          (MonitorStart_run m (polls.take k)).1.loc.m_startEnabled = true := by
  have hprefix : ∀ k, k ≤ 10 →
      (MonitorStart_run m (polls.take k)).2 = [] ∧
        (MonitorStart_run m (polls.take k)).1.loc =
          { m.loc with m_lowConfidenceCount := (k : Int) } := by
    intro k hk
    have hklen : (polls.take k).length = k := by
      rw [List.length_take, hlen]
      omega
    have := run_low (polls.take k) m hrun hen
      (fun p hp => hlow p (List.mem_of_mem_take hp)) (by rw [hklen, hzero]; omega)
    rw [hklen, hzero] at this
    simpa using this
  obtain ⟨hev10, hloc10⟩ := hprefix 10 (le_refl 10)
  have hsplit : polls = polls.take 10 ++ polls.drop 10 := (List.take_append_drop 10 polls).symm
  obtain ⟨p, hp⟩ : ∃ p, polls.drop 10 = [p] := by
    have hdl : (polls.drop 10).length = 1 := by
      rw [List.length_drop, hlen]
    match hd : polls.drop 10, hdl with
    | [p], _ => exact ⟨p, rfl⟩
  have hpmem : p ∈ polls := by
    have : p ∈ polls.drop 10 := by rw [hp]; exact List.mem_singleton_self p
    exact List.mem_of_mem_drop this
  have hlast := step_low_limit (MonitorStart_run m (polls.take 10)).1 p
    (by rw [hloc10]; exact hrun) (by rw [hloc10]; exact hen) (hlow p hpmem)
    (by rw [hloc10]; simp)
  have hrunAll : MonitorStart_run m polls =
      ((MonitorStart_step (MonitorStart_run m (polls.take 10)).1 p).1,
        (MonitorStart_step (MonitorStart_run m (polls.take 10)).1 p).2) := by
    conv_lhs => rw [hsplit, hp]
    rw [run_append, hev10, run_cons, run_nil]
    simp
  rw [hrunAll, hlast]
  refine ⟨?_, rfl, rfl, ?_⟩
  · unfold notify
    rw [hloc10]
    simp [hcb]
  · intro k hk
    obtain ⟨h1, h2⟩ := hprefix k hk
    exact ⟨h1, by rw [h2]; exact hen⟩

set_option maxRecDepth 4000 in
/-- The contract of C1 at a first poll that finds the start menu open with
confidence `0.6f`. -/
theorem opened_event_contract_witness :
    ShellEvent.OnStartShown highPoll ∈
        ((monitorAtStart true {}).loc.MonitorStart_poll {} highPoll).2.2 ∧
      (highPoll.isOpen = true ∧ highPoll.confidence ≥ F32.c0_6 ∧ highPoll = highPoll ∧
        ((monitorAtStart true {}).loc.MonitorStart_poll {} highPoll).1.GetStartInfo = highPoll ∧
        ((monitorAtStart true {}).loc.MonitorStart_poll {} highPoll).1.m_lowConfidenceCount = 0) :=
  ⟨by decide, opened_event_contract (monitorAtStart true {}).loc {} highPoll highPoll (by decide)⟩

set_option maxRecDepth 4000 in
/-- The record `lowPoll` counts towards the streak. -/
theorem lowPoll_lowOpen : lowOpen lowPoll := ⟨rfl, by decide⟩

/-- The run of C3 on eleven polls of confidence `0.59f` from start-up. -/
theorem auto_disable_after_eleven_witness :
    (monitorAtStart true {}).loc.m_running = true ∧
      (monitorAtStart true {}).loc.m_startEnabled = true ∧
      (monitorAtStart true {}).loc.m_callback = true ∧
      (monitorAtStart true {}).loc.m_lowConfidenceCount = 0 ∧
      (List.replicate 11 lowPoll).length = 11 ∧
      (∀ p ∈ List.replicate 11 lowPoll, lowOpen p) ∧
      ((MonitorStart_run (monitorAtStart true {}) (List.replicate 11 lowPoll)).2 =
          [ShellEvent.OnStartDetectionFailed] ∧
        (MonitorStart_run (monitorAtStart true {})
          (List.replicate 11 lowPoll)).1.loc.m_startEnabled = false ∧
        (MonitorStart_run (monitorAtStart true {})
          (List.replicate 11 lowPoll)).1.loc.m_lowConfidenceCount = 0 ∧
        ∀ k, k ≤ 10 →
          (MonitorStart_run (monitorAtStart true {})
              ((List.replicate 11 lowPoll).take k)).2 = [] ∧
            (MonitorStart_run (monitorAtStart true {})
              ((List.replicate 11 lowPoll).take k)).1.loc.m_startEnabled = true) :=
  ⟨rfl, rfl, rfl, rfl, rfl,
    fun _ hp => (List.eq_of_mem_replicate hp) ▸ lowPoll_lowOpen,
    auto_disable_after_eleven (monitorAtStart true {}) (List.replicate 11 lowPoll)
      rfl rfl rfl rfl rfl (fun _ hp => (List.eq_of_mem_replicate hp) ▸ lowPoll_lowOpen)⟩

set_option maxRecDepth 4000 in
/-- The rule of C4 at a locator whose streak counter is `3` (a low-confidence
open record, then a record that finds nothing) and at one whose counter is
`10`. -/
theorem streak_counter_rule_witness :
    (({ m_lowConfidenceCount := 3 } : ShellTargetLocator).MonitorStart_poll
        lowPoll lowPoll).1.m_lowConfidenceCount = 4 ∧
      (({ m_lowConfidenceCount := 10 } : ShellTargetLocator).MonitorStart_poll
        lowPoll lowPoll).1.m_startEnabled = false ∧
      (({ m_lowConfidenceCount := 3 } : ShellTargetLocator).MonitorStart_poll
        lowPoll closedPoll).1.m_lowConfidenceCount = 0 ∧
      (({ m_lowConfidenceCount := 3 } : ShellTargetLocator).MonitorStart_poll
        lowPoll lowPoll).1.m_lowConfidenceCount ≤ 10 :=
  ⟨((streak_counter_rule { m_lowConfidenceCount := 3 } lowPoll lowPoll).1 lowPoll_lowOpen).1,
    ((streak_counter_rule { m_lowConfidenceCount := 10 } lowPoll lowPoll).1
      lowPoll_lowOpen).2 (by decide),
    (streak_counter_rule { m_lowConfidenceCount := 3 } lowPoll closedPoll).2.1 (Or.inl rfl),
    ((streak_counter_rule { m_lowConfidenceCount := 3 } lowPoll lowPoll).2.2.1
      ⟨by decide, by decide⟩).2⟩

/-- The contract of C5 at a poll that finds nothing right after a poll that
found the start menu open. -/
theorem closed_event_contract_witness :
    ShellEvent.OnStartHidden ∈
        (({ m_callback := true, m_startInfo := highPoll } : ShellTargetLocator).MonitorStart_poll
          highPoll closedPoll).2.2 ∧
      (({ m_callback := true, m_startInfo := highPoll } : ShellTargetLocator).MonitorStart_poll
          highPoll closedPoll).1.GetStartInfo.isOpen = false :=
  ⟨((closed_event_contract { m_callback := true, m_startInfo := highPoll }
      highPoll closedPoll).1 rfl).mpr ⟨rfl, rfl⟩,
    (closed_event_contract { m_callback := true, m_startInfo := highPoll }
      highPoll closedPoll).2.1
      (((closed_event_contract { m_callback := true, m_startInfo := highPoll }
        highPoll closedPoll).1 rfl).mpr ⟨rfl, rfl⟩)⟩

set_option maxRecDepth 4000 in
/-- C2, as stated, fails.  After start-up one poll finds the start menu open
with confidence `0.59f`: nothing is emitted, so no opened event is in effect and
detection is still enabled.  The next poll finds it open with confidence `0.6f`
and emits nothing either, because the loop compares with the previous record,
whose `isOpen` is already `true`. -/
theorem hysteresis_counterexample :
    (MonitorStart_run (monitorAtStart true {}) [lowPoll]).2 = [] ∧
      (MonitorStart_run (monitorAtStart true {}) [lowPoll]).1.loc.m_running = true ∧
      (MonitorStart_run (monitorAtStart true {}) [lowPoll]).1.loc.m_startEnabled = true ∧
      (MonitorStart_run (monitorAtStart true {}) [lowPoll]).1.loc.m_callback = true ∧
      highPoll.isOpen = true ∧ highPoll.confidence ≥ F32.c0_6 ∧
      (MonitorStart_step (MonitorStart_run (monitorAtStart true {}) [lowPoll]).1 highPoll).2
        = [] ∧
      (MonitorStart_run (monitorAtStart true {}) [lowPoll, highPoll]).2 = [] := by
  decide

/-- C2, amended.  The literal `0.59f` is below `0.6f`, and a pass whose record has
`isOpen = true` and a confidence below `0.6f` never emits `OnStartShown`,
whatever the state of the monitor.  A pass of a running, enabled locator with a
callback registered whose record has `isOpen = true` and a confidence of `0.6f`
or more emits `OnStartShown` with that record, and nothing else, whenever the
record of the previous pass had `isOpen = false` (at start-up the previous
record is the empty one); this holds in particular after every sequence of
polls since start-up that leaves detection enabled. -/
theorem hysteresis_amended (m : Monitor) (p : StartInfo) :
    F32.c0_59 < F32.c0_6 ∧
      (p.isOpen = true → p.confidence < F32.c0_6 →
        ∀ info, ShellEvent.OnStartShown info ∉ (MonitorStart_step m p).2) ∧
      (m.loc.m_running = true → m.loc.m_startEnabled = true → m.loc.m_callback = true →
        m.lastState.isOpen = false → p.isOpen = true → F32.c0_6 ≤ p.confidence →
        (MonitorStart_step m p).2 = [ShellEvent.OnStartShown p]) ∧
      (∀ (taskbar : TaskbarInfo) (polls : List StartInfo),
        (MonitorStart_run (monitorAtStart true taskbar) polls).1.loc.m_startEnabled = true →
        (MonitorStart_run (monitorAtStart true taskbar) polls).1.lastState.isOpen = false →
        p.isOpen = true → F32.c0_6 ≤ p.confidence →
        (MonitorStart_step (MonitorStart_run (monitorAtStart true taskbar) polls).1 p).2 =
          [ShellEvent.OnStartShown p]) := by
  have hstep : ∀ m : Monitor, m.loc.m_running = true → m.loc.m_startEnabled = true →
      m.loc.m_callback = true → m.lastState.isOpen = false → p.isOpen = true →
      F32.c0_6 ≤ p.confidence → (MonitorStart_step m p).2 = [ShellEvent.OnStartShown p] := by
    intro m hrun hen hcb hL hO hc
    rw [step_active m p hrun hen, poll_events, if_pos ⟨hO, hL, hc⟩,
      if_neg (fun h => absurd hc (not_le.mpr h.2.1))]
    simp [notify, hcb]
  refine ⟨by decide, ?_, hstep m, ?_⟩
  · intro _ hlt info hmem
    by_cases hact : m.loc.m_running = true ∧ m.loc.m_startEnabled = true
    · rw [step_active m p hact.1 hact.2] at hmem
      obtain ⟨_, _, _, hc, _⟩ := (shown_mem_poll m.loc m.lastState p info).mp hmem
      exact absurd hc (not_le.mpr hlt)
    · have hidle : m.loc.m_running = false ∨ m.loc.m_startEnabled = false := by
        cases hr : m.loc.m_running <;> cases he : m.loc.m_startEnabled <;> simp_all
      rw [step_idle m p hidle] at hmem
      exact absurd hmem (List.not_mem_nil _)
  · intro taskbar polls hen hL hO hc
    have hfix := run_fixed polls (monitorAtStart true taskbar)
    exact hstep _ (hfix.2.trans rfl) hen (hfix.1.trans rfl) hL hO hc

set_option maxRecDepth 4000 in
/-- The amended C2 at start-up: a first poll with confidence `0.59f` emits no
opened event, a first poll with confidence `0.6f` emits one. -/
theorem hysteresis_amended_witness :
    (∀ info, ShellEvent.OnStartShown info ∉
        (MonitorStart_step (monitorAtStart true {}) lowPoll).2) ∧
      (MonitorStart_step (monitorAtStart true {}) highPoll).2 =
        [ShellEvent.OnStartShown highPoll] :=
  ⟨(hysteresis_amended (monitorAtStart true {}) lowPoll).2.1 rfl (by decide),
    (hysteresis_amended (monitorAtStart true {}) highPoll).2.2.1 rfl rfl rfl rfl rfl
      (by decide)⟩

/-! ### Geometry -/

/-- C7.  For every rectangle and screen size `DetermineEdge` returns `Top` when
`height < width` and `rect.top < screenHeight / 2`, `Bottom` when
`height < width` and `rect.top ≥ screenHeight / 2`, `Left` when `height ≥ width`
and `rect.left < screenWidth / 2`, `Right` when `height ≥ width` and
`rect.left ≥ screenWidth / 2` (truncating division, `width = right - left`,
`height = bottom - top`).  On a 1920x1080 screen `(0,1040)-(1920,1080)` is
`Bottom`, `(0,0)-(40,1080)` is `Left`, `(1880,0)-(1920,1080)` is `Right` and
`(0,0)-(1920,40)` is `Top`. -/
theorem determine_edge_rule (screenWidth screenHeight : Int) (rect : RECT) :
    (rect.bottom - rect.top < rect.right - rect.left →
        rect.top < Int.tdiv screenHeight 2 →
        DetermineEdge screenWidth screenHeight rect = Edge.Top) ∧
      (rect.bottom - rect.top < rect.right - rect.left →
        rect.top ≥ Int.tdiv screenHeight 2 →
        DetermineEdge screenWidth screenHeight rect = Edge.Bottom) ∧
      (rect.bottom - rect.top ≥ rect.right - rect.left →
        rect.left < Int.tdiv screenWidth 2 →
        DetermineEdge screenWidth screenHeight rect = Edge.Left) ∧
      (rect.bottom - rect.top ≥ rect.right - rect.left →
        rect.left ≥ Int.tdiv screenWidth 2 →
        DetermineEdge screenWidth screenHeight rect = Edge.Right) ∧
      DetermineEdge 1920 1080 ⟨0, 1040, 1920, 1080⟩ = Edge.Bottom ∧
      DetermineEdge 1920 1080 ⟨0, 0, 40, 1080⟩ = Edge.Left ∧
      DetermineEdge 1920 1080 ⟨1880, 0, 1920, 1080⟩ = Edge.Right ∧
      DetermineEdge 1920 1080 ⟨0, 0, 1920, 40⟩ = Edge.Top := by
  refine ⟨?_, ?_, ?_, ?_, by decide, by decide, by decide, by decide⟩
  · intro hw ht
    simp [DetermineEdge, hw, ht]
  · intro hw ht
    simp [DetermineEdge, hw, not_lt.mpr ht]
  · intro hw hl
    simp [DetermineEdge, not_lt.mpr hw, hl]
  · intro hw hl
    simp [DetermineEdge, not_lt.mpr hw, not_lt.mpr hl]

/-- The rule of C7 at a taskbar docked to the top of a 2560x1440 screen. -/
theorem determine_edge_rule_witness :
    DetermineEdge 2560 1440 ⟨0, 0, 2560, 48⟩ = Edge.Top :=
  (determine_edge_rule 2560 1440 ⟨0, 0, 2560, 48⟩).1 (by decide) (by decide)

theorem cabs_eq_abs (x : Int) : cabs x = |x| := by
  unfold cabs
  split
  · rename_i h
    exact (abs_of_neg h).symm
  · rename_i h
    exact (abs_of_nonneg (not_lt.mp h)).symm

/-- C9.  For every rectangle and screen width `VerifyStartMenuRect` returns
`true` if and only if `300 ≤ width ≤ 1200`, `400 ≤ height ≤ 1000` and
`|rect.left + width / 2 - screenWidth / 2| ≤ screenWidth / 4` (truncating
division); the screen height and the vertical position of the rectangle never
affect the result. -/
theorem verify_rect_rule (screenWidth screenHeight : Int) (rect : RECT) :
    (VerifyStartMenuRect screenWidth screenHeight rect = true ↔
        300 ≤ rect.right - rect.left ∧ rect.right - rect.left ≤ 1200 ∧
          400 ≤ rect.bottom - rect.top ∧ rect.bottom - rect.top ≤ 1000 ∧
          |rect.left + Int.tdiv (rect.right - rect.left) 2 - Int.tdiv screenWidth 2| ≤
            Int.tdiv screenWidth 4) ∧
      ∀ (otherHeight dy : Int),
        VerifyStartMenuRect screenWidth otherHeight
            ⟨rect.left, rect.top + dy, rect.right, rect.bottom + dy⟩ =
          VerifyStartMenuRect screenWidth screenHeight rect := by
  constructor
  · unfold VerifyStartMenuRect
    simp only [cabs_eq_abs]
    by_cases h1 : rect.right - rect.left < 300 ∨ rect.bottom - rect.top < 400
    · simp only [h1, if_true]
      constructor
      · intro h
        exact Bool.noConfusion h
      · rintro ⟨a, _, b, _, _⟩
        rcases h1 with h1 | h1 <;> omega
    · by_cases h2 : rect.right - rect.left > 1200 ∨ rect.bottom - rect.top > 1000
      · simp only [h1, h2, if_true, if_false]
        constructor
        · intro h
          exact Bool.noConfusion h
        · rintro ⟨_, a, _, b, _⟩
          rcases h2 with h2 | h2 <;> omega
      · simp only [h1, h2, if_false]
        have h1a : 300 ≤ rect.right - rect.left := by
          by_contra hc; exact h1 (Or.inl (not_le.mp hc))
        have h1b : 400 ≤ rect.bottom - rect.top := by
          by_contra hc; exact h1 (Or.inr (not_le.mp hc))
        have h2a : rect.right - rect.left ≤ 1200 := by
          by_contra hc; exact h2 (Or.inl (not_le.mp hc))
        have h2b : rect.bottom - rect.top ≤ 1000 := by
          by_contra hc; exact h2 (Or.inr (not_le.mp hc))
        by_cases h3 : |rect.left + Int.tdiv (rect.right - rect.left) 2 -
            Int.tdiv screenWidth 2| > Int.tdiv screenWidth 4
        · simp only [h3, if_true]
          constructor
          · intro h
            exact Bool.noConfusion h
          · rintro ⟨_, _, _, _, c⟩
            exact absurd c (not_le.mpr h3)
        · simp only [h3, if_false, true_iff]
          exact ⟨h1a, h2a, h1b, h2b, not_lt.mp h3⟩
  · intro otherHeight dy
    unfold VerifyStartMenuRect
    have hh : rect.bottom + dy - (rect.top + dy) = rect.bottom - rect.top := by ring
    simp only [hh]

/-- The rule of C9 at a 600x700 rectangle centred on a 1920 pixel wide screen. -/
theorem verify_rect_rule_witness :
    VerifyStartMenuRect 1920 1080 sampleRect = true :=
  (verify_rect_rule 1920 1080 sampleRect).1.mpr (by decide)

/-! ### Confidence -/

set_option maxRecDepth 8000 in
/-- C8.  For every combination of the four factor outcomes `CalculateConfidence`
returns the binary32 sum, accumulated in this order, of the class weight (`0.4f`
for the primary class name, `0.3f` for the secondary one, `0` otherwise),
`0.3f` when the foreground process is the start-experience host, `0.2f` when
`VerifyStartMenuRect` accepts the rectangle and `0.1f` when the window is
visible.  The result lies in `[0, 1]`, is within `2^-23` of the exact sum of
the decimal weights, equals `1.0f` for a fully matching primary-class
candidate and equals `0.4f` for secondary class plus visibility only. -/
theorem confidence_additive (className : String) (foreground : Bool)
    (screenWidth screenHeight : Int) (rect : RECT) (visible : Bool) :
    CalculateConfidence className foreground screenWidth screenHeight rect visible =
        F32.add (F32.add (F32.add (F32.add F32.zero
                (if className = "Windows.UI.Core.CoreWindow" then F32.c0_4
                  else if className = "Xaml_WindowedPopupClass" then F32.c0_3 else F32.zero))
              (if foreground then F32.c0_3 else F32.zero))
            (if VerifyStartMenuRect screenWidth screenHeight rect then F32.c0_2 else F32.zero))
          (if visible then F32.c0_1 else F32.zero) ∧
      F32.zero ≤ CalculateConfidence className foreground screenWidth screenHeight rect visible ∧
      CalculateConfidence className foreground screenWidth screenHeight rect visible ≤ F32.one ∧
      |10 * CalculateConfidence className foreground screenWidth screenHeight rect visible -
          ((if className = "Windows.UI.Core.CoreWindow" then 4
              else if className = "Xaml_WindowedPopupClass" then 3 else 0) +
            (if foreground then 3 else 0) +
            (if VerifyStartMenuRect screenWidth screenHeight rect then 2 else 0) +
            (if visible then 1 else 0)) * F32.one| ≤ 10 * F32.lit 1 23 ∧
      (className = "Windows.UI.Core.CoreWindow" → foreground = true →
        VerifyStartMenuRect screenWidth screenHeight rect = true → visible = true →
        CalculateConfidence className foreground screenWidth screenHeight rect visible =
          F32.one) ∧
      (className = "Xaml_WindowedPopupClass" → foreground = false →
        VerifyStartMenuRect screenWidth screenHeight rect = false → visible = true →
        CalculateConfidence className foreground screenWidth screenHeight rect visible =
          F32.c0_4) := by
  unfold CalculateConfidence
  generalize VerifyStartMenuRect screenWidth screenHeight rect = geometry
  by_cases h1 : className = "Windows.UI.Core.CoreWindow"
  · subst h1
    cases foreground <;> cases geometry <;> cases visible <;> decide
  · by_cases h2 : className = "Xaml_WindowedPopupClass"
    · subst h2
      cases foreground <;> cases geometry <;> cases visible <;> decide
    · simp only [h1, h2, if_false]
      refine ⟨?_, ?_, ?_, ?_, fun h => False.elim h, fun h => False.elim h⟩ <;>
        cases foreground <;> cases geometry <;> cases visible <;> decide

set_option maxRecDepth 8000 in
/-- The two named cases of C8: a visible primary-class window of plausible
geometry with the start-experience host in the foreground scores `1.0f`; a
visible secondary-class window of implausible geometry without it scores
`0.4f`. -/
theorem confidence_additive_witness :
    CalculateConfidence "Windows.UI.Core.CoreWindow" true 1920 1080 sampleRect true =
        F32.one ∧
      CalculateConfidence "Xaml_WindowedPopupClass" false 1920 1080 ⟨0, 0, 100, 100⟩ true =
        F32.c0_4 :=
  ⟨(confidence_additive "Windows.UI.Core.CoreWindow" true 1920 1080 sampleRect true).2.2.2.2.1
      rfl rfl (by decide) rfl,
    (confidence_additive "Xaml_WindowedPopupClass" false 1920 1080 ⟨0, 0, 100, 100⟩
      true).2.2.2.2.2 rfl rfl (by decide) rfl⟩

/-! ### Taskbar detection -/

/-- C21.  In every pass of `DetectTaskbar` in which `FindWindowW` returns no
handle, or `IsWindow` or `IsWindowVisible` answers no, the function returns
`false`, the taskbar record afterwards has `found = false` and a null handle, no
callback is made, and nothing else of the locator changes.  Hence, whatever the
pass, a record that `DetectTaskbar` marks found and every `OnTaskbarChanged`
callback it makes carry the handle of this pass, which passed all three
checks. -/
theorem taskbar_liveness (self : ShellTargetLocator) (probe : TaskbarProbe) :
    ((probe.hwnd = 0 ∨ probe.isWindow = false ∨ probe.isVisible = false) →
        (self.DetectTaskbar probe).2.1 = false ∧
          (self.DetectTaskbar probe).1.GetTaskbarInfo.found = false ∧
          (self.DetectTaskbar probe).1.GetTaskbarInfo.hwnd = 0 ∧
          (self.DetectTaskbar probe).2.2 = [] ∧
          (self.DetectTaskbar probe).1 =
            { self with m_taskbarInfo := { self.m_taskbarInfo with found := false, hwnd := 0 } }) ∧
      ((self.DetectTaskbar probe).2.1 = true →
        (probe.hwnd ≠ 0 ∧ probe.isWindow = true ∧ probe.isVisible = true) ∧
          (self.DetectTaskbar probe).1.GetTaskbarInfo.found = true ∧
          (self.DetectTaskbar probe).1.GetTaskbarInfo.hwnd = probe.hwnd) ∧
      (∀ info, ShellEvent.OnTaskbarChanged info ∈ (self.DetectTaskbar probe).2.2 →
        (probe.hwnd ≠ 0 ∧ probe.isWindow = true ∧ probe.isVisible = true) ∧
          info.found = true ∧ info.hwnd = probe.hwnd ∧
          info = (self.DetectTaskbar probe).1.GetTaskbarInfo) := by
  by_cases hlive : probe.hwnd = 0 ∨ ¬ probe.isWindow = true ∨ ¬ probe.isVisible = true
  · have hres : self.DetectTaskbar probe =
        ({ self with m_taskbarInfo := { self.m_taskbarInfo with found := false, hwnd := 0 } },
          false, []) := by
      unfold DetectTaskbar
      rw [if_pos hlive]
    refine ⟨fun _ => ?_, ?_, ?_⟩
    · rw [hres]
      exact ⟨rfl, rfl, rfl, rfl, rfl⟩
    · rw [hres]
      intro h
      cases h
    · rw [hres]
      intro info h
      cases h
  · have hlive' : probe.hwnd ≠ 0 ∧ probe.isWindow = true ∧ probe.isVisible = true := by
      simp only [not_or, not_not] at hlive
      exact hlive
    refine ⟨fun h => ?_, ?_, ?_⟩
    · exfalso
      rcases h with h | h | h
      · exact hlive'.1 h
      · rw [hlive'.2.1] at h
        cases h
      · rw [hlive'.2.2] at h
        cases h
    · cases hrect : probe.rect with
      | none =>
        unfold DetectTaskbar
        rw [if_neg hlive]
        simp only [hrect]
        intro h
        cases h
      | some rect =>
        unfold DetectTaskbar
        rw [if_neg hlive]
        simp only [hrect]
        intro _
        exact ⟨hlive', rfl, rfl⟩
    · cases hrect : probe.rect with
      | none =>
        unfold DetectTaskbar
        rw [if_neg hlive]
        simp only [hrect]
        intro info h
        cases h
      | some rect =>
        unfold DetectTaskbar
        rw [if_neg hlive]
        simp only [hrect, notify]
        intro info h
        split at h
        · rw [List.mem_singleton] at h
          injection h with h
          subst h
          exact ⟨hlive', rfl, rfl, rfl⟩
        · cases h

/-- C21 on a locator that holds the record of an earlier successful pass: a pass
in which the tray window is hidden clears `found` and the handle and makes no
callback. -/
theorem taskbar_liveness_witness :
    (((({ m_callback := true } : ShellTargetLocator).DetectTaskbar liveTaskbar).1.DetectTaskbar
        { liveTaskbar with isVisible := false }).2.1 = false) ∧
      ((({ m_callback := true } : ShellTargetLocator).DetectTaskbar liveTaskbar).1.DetectTaskbar
        { liveTaskbar with isVisible := false }).1.GetTaskbarInfo.found = false ∧
      ((({ m_callback := true } : ShellTargetLocator).DetectTaskbar liveTaskbar).1.DetectTaskbar
        { liveTaskbar with isVisible := false }).2.2 = [] :=
  have h := (taskbar_liveness
    (({ m_callback := true } : ShellTargetLocator).DetectTaskbar liveTaskbar).1
    { liveTaskbar with isVisible := false }).1 (Or.inr (Or.inr rfl))
  ⟨h.1, h.2.1, h.2.2.2.1⟩

/-- C22 (the code departs from it).  A pass of `DetectTaskbar` in which the tray
window is live and visible but `GetWindowRect` fails returns `false`, makes no
callback and leaves the locator exactly as it was.  So when the record held
`found = true` before the pass, as it does after a successful pass, it still
holds `found = true`, the old handle and the old rectangle afterwards; the
record reads `found = false` after such a pass only if it did before. -/
theorem rect_failure_keeps_record :
    (∀ (self : ShellTargetLocator) (probe : TaskbarProbe),
        probe.hwnd ≠ 0 → probe.isWindow = true → probe.isVisible = true → probe.rect = none →
        self.DetectTaskbar probe = (self, false, []) ∧
          (self.DetectTaskbar probe).1.GetTaskbarInfo.found = self.GetTaskbarInfo.found) ∧
      ((({ m_callback := true } : ShellTargetLocator).DetectTaskbar liveTaskbar).1.DetectTaskbar
        unreadableTaskbar).2.1 = false ∧
      ((({ m_callback := true } : ShellTargetLocator).DetectTaskbar liveTaskbar).1.DetectTaskbar
        unreadableTaskbar).1.GetTaskbarInfo =
        { hwnd := 7, rect := ⟨0, 1040, 1920, 1080⟩, edge := Edge.Bottom, autoHide := false,
          found := true } ∧
      (({ m_callback := true } : ShellTargetLocator).DetectTaskbar
        { liveTaskbar with isVisible := false }).1.GetTaskbarInfo.found = false := by
  refine ⟨?_, by decide, by decide, by decide⟩
  intro self probe h1 h2 h3 h4
  have hres : self.DetectTaskbar probe = (self, false, []) := by
    unfold DetectTaskbar
    rw [if_neg (by simp [h1, h2, h3])]
    simp only [h4]
  rw [hres]
  exact ⟨rfl, rfl⟩

/-! ### Records of `DetectStart` -/

/-- The handle an enumeration leaves in `found` belongs to a visible window of
the class looked for. -/
theorem enumFind_spec (className : String) (ws : List WindowProbe)
    (h : enumFind className ws ≠ 0) :
    ∃ w ∈ ws, w.hwnd = enumFind className ws ∧ w.className = className ∧ w.visible = true := by
  induction ws with
  | nil => exact absurd rfl h
  | cons w ws ih =>
    unfold enumFind at h ⊢
    by_cases hm : w.className = className ∧ w.visible = true ∧ (w.title = "" ∨ w.title = "Start")
    · rw [if_pos hm]
      exact ⟨w, List.mem_cons_self w ws, rfl, hm.1, hm.2.1⟩
    · rw [if_neg hm] at h ⊢
      obtain ⟨v, hv, hrest⟩ := ih h
      exact ⟨v, List.mem_cons_of_mem w hv, hrest⟩

/-- The candidate of `DetectStart` is a window that an enumeration saw visible
and of one of the two class names. -/
theorem candidate_spec (probe : StartProbe) (h : probe.candidate ≠ 0) :
    ∃ w ∈ probe.windowsPrimary ++ probe.windowsSecondary, w.hwnd = probe.candidate ∧
      (w.className = "Windows.UI.Core.CoreWindow" ∨ w.className = "Xaml_WindowedPopupClass") ∧
      w.visible = true := by
  unfold StartProbe.candidate FindStartMenuWindow at h ⊢
  by_cases h1 : enumFind "Windows.UI.Core.CoreWindow" probe.windowsPrimary ≠ 0
  · simp only [h1, if_true, ne_eq, not_false_eq_true] at h ⊢
    obtain ⟨w, hw, hh, hc, hv⟩ := enumFind_spec _ _ h1
    exact ⟨w, List.mem_append_left _ hw, hh, Or.inl hc, hv⟩
  · by_cases h2 : enumFind "Xaml_WindowedPopupClass" probe.windowsSecondary ≠ 0
    · simp only [h1, h2, if_true, if_false, ne_eq, not_false_eq_true] at h ⊢
      obtain ⟨w, hw, hh, hc, hv⟩ := enumFind_spec _ _ h2
      exact ⟨w, List.mem_append_right _ hw, hh, Or.inr hc, hv⟩
    · simp only [h1, h2, if_false] at h
      exact absurd rfl h

/-- With steady answers about the candidate, `CalculateConfidence` is given one
of the two class names and a visible window. -/
theorem steady_answers (probe : StartProbe) (hsame : probe.sameWindowAnswers)
    (h : probe.candidate ≠ 0) :
    (probe.className = "Windows.UI.Core.CoreWindow" ∨
        probe.className = "Xaml_WindowedPopupClass") ∧ probe.visible = true := by
  obtain ⟨w, hw, hh, hc, hv⟩ := candidate_spec probe h
  obtain ⟨h1, h2⟩ := hsame w hw hh
  rw [← h1, ← h2]
  exact ⟨hc, hv⟩

set_option maxRecDepth 8000 in
/-- The confidence of a visible window of one of the two classes whose rectangle
is accepted. -/
theorem confidence_accepted (className : String) (foreground : Bool)
    (screenWidth screenHeight : Int) (rect : RECT)
    (hclass : className = "Windows.UI.Core.CoreWindow" ∨ className = "Xaml_WindowedPopupClass")
    (hrect : VerifyStartMenuRect screenWidth screenHeight rect = true) :
    CalculateConfidence className foreground screenWidth screenHeight rect true ∈
        openConfidences ∧
      F32.c0_6 ≤ CalculateConfidence className foreground screenWidth screenHeight rect true := by
  unfold CalculateConfidence
  simp only [hrect, if_true]
  rcases hclass with h | h <;> subst h <;> cases foreground <;> decide

/-- What `DetectStart` returns. -/
theorem DetectStart_cases (probe : StartProbe) :
    (DetectStart probe = {} ∨
      ∃ rect, probe.rect = some rect ∧ probe.candidate ≠ 0 ∧
        VerifyStartMenuRect probe.screenWidth probe.screenHeight rect = true ∧
        DetectStart probe =
          { hwnd := probe.candidate, rect := rect, isOpen := true,
            confidence := CalculateConfidence probe.className probe.foreground
              probe.screenWidthAgain probe.screenHeightAgain rect probe.visible,
            detected := true }) := by
  unfold DetectStart StartProbe.candidate
  by_cases h0 : FindStartMenuWindow probe.windowsPrimary probe.windowsSecondary = 0
  · left
    simp only [h0, if_true]
  · cases hrect : probe.rect with
    | none =>
      left
      simp only [h0, if_false]
    | some rect =>
      cases hv : VerifyStartMenuRect probe.screenWidth probe.screenHeight rect
      · left
        simp [h0, hv]
      · right
        refine ⟨rect, rfl, h0, hv, ?_⟩
        simp [h0, hv]

/-- A record of `DetectStart` under steady answers is not a low-confidence open
record. -/
theorem DetectStart_not_low (probe : StartProbe) (hsame : probe.sameWindowAnswers)
    (hscreen : probe.sameScreen) : ¬ lowOpen (DetectStart probe) := by
  rintro ⟨hopen, hlow⟩
  rcases DetectStart_cases probe with h | ⟨rect, _, hcand, hv, h⟩
  · rw [h] at hopen
    cases hopen
  · obtain ⟨hclass, hvis⟩ := steady_answers probe hsame hcand
    rw [h] at hlow
    simp only at hlow
    rw [hscreen.1, hscreen.2, hvis] at hlow
    exact absurd (confidence_accepted _ probe.foreground _ _ rect hclass hv).2 (not_le.mpr hlow)

/-- A pass over a record that is not a low-confidence open record leaves the
streak counter at `0`, does not disable detection and reports no failure. -/
theorem step_not_low (m : Monitor) (p : StartInfo) (hp : ¬ lowOpen p)
    (hcount : m.loc.m_lowConfidenceCount = 0) :
    (MonitorStart_step m p).1.loc.m_lowConfidenceCount = 0 ∧
      (MonitorStart_step m p).1.loc.m_startEnabled = m.loc.m_startEnabled ∧
      ShellEvent.OnStartDetectionFailed ∉ (MonitorStart_step m p).2 := by
  by_cases hact : m.loc.m_running = true ∧ m.loc.m_startEnabled = true
  · rw [step_active m p hact.1 hact.2]
    have hp' : ¬ (p.isOpen = true ∧ p.confidence < F32.c0_6) := hp
    refine ⟨?_, ?_, ?_⟩
    · simp only [poll_count]
      rw [if_neg hp']
    · simp only [poll_enabled]
      rw [if_neg (fun h => hp' ⟨h.1, h.2.1⟩)]
    · simp only [failed_mem_poll]
      exact fun h => hp' ⟨h.2.1, h.2.2.1⟩
  · have hidle : m.loc.m_running = false ∨ m.loc.m_startEnabled = false := by
      cases hr : m.loc.m_running <;> cases he : m.loc.m_startEnabled <;> simp_all
    rw [step_idle m p hidle]
    exact ⟨hcount, rfl, by simp⟩

theorem run_not_low (polls : List StartInfo) :
    ∀ m : Monitor, (∀ p ∈ polls, ¬ lowOpen p) → m.loc.m_lowConfidenceCount = 0 →
      (MonitorStart_run m polls).1.loc.m_lowConfidenceCount = 0 ∧
        (MonitorStart_run m polls).1.loc.m_startEnabled = m.loc.m_startEnabled ∧
        ShellEvent.OnStartDetectionFailed ∉ (MonitorStart_run m polls).2 := by
  induction polls with
  | nil => exact fun m _ h => ⟨h, rfl, by simp [run_nil]⟩
  | cons p ps ih =>
    intro m hall hcount
    obtain ⟨h1, h2, h3⟩ := step_not_low m p (hall p (List.mem_cons_self p ps)) hcount
    obtain ⟨k1, k2, k3⟩ := ih (MonitorStart_step m p).1
      (fun q hq => hall q (List.mem_cons_of_mem p hq)) h1
    rw [run_cons]
    refine ⟨k1, k2.trans h2, ?_⟩
    simp only [List.mem_append, not_or]
    exact ⟨h3, k3⟩

set_option maxRecDepth 8000 in
/-- C26, as stated, fails.  A visible window of the primary class with an
accepted rectangle is found while the screen is 1920 wide; the display is 800
wide when `CalculateConfidence` reads the screen size again.  Class name and
visibility are reported the same throughout, yet `DetectStart` returns an open
record of confidence `0.4f + 0.1f = 0.5f`, and eleven such polls from start-up
leave the streak counter non-zero after the first and make the locator report
`OnStartDetectionFailed`. -/
theorem start_confidence_counterexample :
    resizedScreenProbe.sameWindowAnswers ∧
      DetectStart resizedScreenProbe =
        { hwnd := 5, rect := sampleRect, isOpen := true, confidence := F32.c0_5,
          detected := true } ∧
      F32.c0_5 < F32.c0_6 ∧
      (MonitorStart_run (monitorAtStart true {})
        [DetectStart resizedScreenProbe]).1.loc.m_lowConfidenceCount = 1 ∧
      (MonitorStart_run (monitorAtStart true {})
        (List.replicate 11 (DetectStart resizedScreenProbe))).2 =
        [ShellEvent.OnStartDetectionFailed] := by
  refine ⟨?_, by decide, by decide, by decide, by decide⟩
  unfold StartProbe.sameWindowAnswers
  decide

/-- C26, amended.  Assume that during one `DetectStart` call the operating
system reports the same class name and visibility for the candidate window and
the same screen size in both readings.  Then a record returned with
`isOpen = true` has `detected = true`, a rectangle accepted by
`VerifyStartMenuRect`, and a confidence that is one of the four binary32 values
`0.6f`, `0.4f + 0.2f + 0.1f`, `0.3f + 0.3f + 0.2f + 0.1f` and `1.0f`, hence at
least `0.6f`; a record returned with `isOpen = false` has confidence `0` and
`detected = false`.  Therefore, from start-up, after any number of polls made
under that assumption the streak counter is `0`, detection is still enabled and
no `OnStartDetectionFailed` has been reported. -/
theorem start_confidence_amended :
    (∀ probe : StartProbe, probe.sameWindowAnswers → probe.sameScreen →
        ((DetectStart probe).isOpen = true →
          (DetectStart probe).detected = true ∧
            VerifyStartMenuRect probe.screenWidth probe.screenHeight (DetectStart probe).rect
              = true ∧
            (DetectStart probe).confidence ∈ openConfidences ∧
            F32.c0_6 ≤ (DetectStart probe).confidence) ∧
          ((DetectStart probe).isOpen = false →
            (DetectStart probe).confidence = F32.zero ∧
              (DetectStart probe).detected = false)) ∧
      (∀ (callback : Bool) (taskbar : TaskbarInfo) (probes : List StartProbe),
        (∀ probe ∈ probes, probe.sameWindowAnswers ∧ probe.sameScreen) →
        ∀ k : Nat,
          (MonitorStart_run (monitorAtStart callback taskbar)
              ((probes.take k).map DetectStart)).1.loc.m_lowConfidenceCount = 0 ∧
            (MonitorStart_run (monitorAtStart callback taskbar)
              ((probes.take k).map DetectStart)).1.loc.m_startEnabled = true ∧
            ShellEvent.OnStartDetectionFailed ∉
              (MonitorStart_run (monitorAtStart callback taskbar)
                ((probes.take k).map DetectStart)).2) := by
  refine ⟨?_, ?_⟩
  · intro probe hsame hscreen
    rcases DetectStart_cases probe with h | ⟨rect, _, hcand, hv, h⟩
    · rw [h]
      exact ⟨fun hopen => absurd hopen (by decide), fun _ => ⟨rfl, rfl⟩⟩
    · obtain ⟨hclass, hvis⟩ := steady_answers probe hsame hcand
      have hconf := confidence_accepted probe.className probe.foreground probe.screenWidth
        probe.screenHeight rect hclass hv
      have hc : (DetectStart probe).confidence =
          CalculateConfidence probe.className probe.foreground probe.screenWidth
            probe.screenHeight rect true := by
        rw [h, ← hscreen.1, ← hscreen.2, ← hvis]
      have hd : (DetectStart probe).detected = true := by rw [h]
      have hr : (DetectStart probe).rect = rect := by rw [h]
      have ho : (DetectStart probe).isOpen = true := by rw [h]
      refine ⟨fun _ => ⟨hd, ?_, ?_, ?_⟩, fun hopen => ?_⟩
      · rw [hr]
        exact hv
      · rw [hc]
        exact hconf.1
      · rw [hc]
        exact hconf.2
      · rw [ho] at hopen
        cases hopen
  · intro callback taskbar probes hall k
    have hnot : ∀ p ∈ (probes.take k).map DetectStart, ¬ lowOpen p := by
      intro p hp
      obtain ⟨probe, hprobe, rfl⟩ := List.mem_map.mp hp
      have := hall probe (List.mem_of_mem_take hprobe)
      exact DetectStart_not_low probe this.1 this.2
    exact run_not_low _ (monitorAtStart callback taskbar) hnot rfl

set_option maxRecDepth 8000 in
/-- The amended C26 on a window of the primary class with a steady 1920x1080
screen: the record is open with confidence `0.4f + 0.2f + 0.1f`. -/
theorem start_confidence_amended_witness :
    (DetectStart steadyProbe).isOpen = true ∧
      (DetectStart steadyProbe).confidence = F32.lit 11744052 24 ∧
      F32.c0_6 ≤ (DetectStart steadyProbe).confidence :=
  have h := (start_confidence_amended.1 steadyProbe
    (by unfold StartProbe.sameWindowAnswers; decide)
    (by unfold StartProbe.sameScreen; decide)).1 (by decide)
  ⟨by decide, by decide, h.2.2.2⟩

/-! ### Order of the start-menu events -/

theorem startTransitions_append (a b : List ShellEvent) :
    startTransitions (a ++ b) = startTransitions a ++ startTransitions b := by
  induction a with
  | nil => rfl
  | cons e es ih =>
    cases e <;> simp [startTransitions, ih]

/-- The pass is a real one: the locator is running and detection is enabled. -/
theorem step_lastState (m : Monitor) (p : StartInfo) :
    (MonitorStart_step m p).1.lastState =
      if m.loc.m_running = true ∧ m.loc.m_startEnabled = true then p else m.lastState := by
  by_cases hact : m.loc.m_running = true ∧ m.loc.m_startEnabled = true
  · rw [step_active m p hact.1 hact.2, if_pos hact]
    exact poll_lastState m.loc m.lastState p
  · have hidle : m.loc.m_running = false ∨ m.loc.m_startEnabled = false := by
      cases hr : m.loc.m_running <;> cases he : m.loc.m_startEnabled <;> simp_all
    rw [step_idle m p hidle, if_neg hact]

/-- The 'opened' and 'closed' events of one pass. -/
theorem step_transitions (m : Monitor) (p : StartInfo) :
    startTransitions (MonitorStart_step m p).2 =
      if m.loc.m_running = true ∧ m.loc.m_startEnabled = true ∧ m.loc.m_callback = true then
        (if p.isOpen = true ∧ m.lastState.isOpen = false ∧ F32.c0_6 ≤ p.confidence then [true]
          else if p.isOpen = false ∧ m.lastState.isOpen = true then [false]
          else [])
      else [] := by
  by_cases hact : m.loc.m_running = true ∧ m.loc.m_startEnabled = true
  · rw [step_active m p hact.1 hact.2]
    simp only [poll_events, startTransitions_append]
    unfold notify
    cases hcb : m.loc.m_callback
    · simp [hact.1, hact.2, startTransitions]
    · simp only [hact.1, hact.2, true_and, if_true]
      have htail : startTransitions
          (if p.isOpen = true ∧ p.confidence < F32.c0_6 ∧ 10 < m.loc.m_lowConfidenceCount + 1
            then [ShellEvent.OnStartDetectionFailed] else []) = [] := by
        split <;> rfl
      rw [htail, List.append_nil]
      split
      · rfl
      · split <;> rfl
  · have hidle : m.loc.m_running = false ∨ m.loc.m_startEnabled = false := by
      cases hr : m.loc.m_running <;> cases he : m.loc.m_startEnabled <;> simp_all
    rw [step_idle m p hidle]
    have : ¬ (m.loc.m_running = true ∧ m.loc.m_startEnabled = true ∧ m.loc.m_callback = true) :=
      fun h => hact ⟨h.1, h.2.1⟩
    rw [if_neg this]
    rfl

/-- Without a callback no event is made. -/
theorem run_silent (polls : List StartInfo) :
    ∀ m : Monitor, m.loc.m_callback = false →
      startTransitions (MonitorStart_run m polls).2 = [] := by
  induction polls with
  | nil => exact fun _ _ => rfl
  | cons p ps ih =>
    intro m hcb
    rw [run_cons]
    simp only [startTransitions_append, step_transitions, hcb]
    rw [ih _ ((step_fixed m p).1.trans hcb)]
    simp

/-- Over records none of which is open with low confidence, the events alternate,
the first being an 'opened' when the record of the previous pass was closed. -/
theorem run_alternates (polls : List StartInfo) :
    ∀ m : Monitor, (∀ p ∈ polls, ¬ lowOpen p) →
      alternates (!m.lastState.isOpen) (startTransitions (MonitorStart_run m polls).2) = true := by
  induction polls with
  | nil => exact fun _ _ => rfl
  | cons p ps ih =>
    intro m hall
    have hp : ¬ (p.isOpen = true ∧ p.confidence < F32.c0_6) := hall p (List.mem_cons_self p ps)
    have hrest := ih (MonitorStart_step m p).1 (fun q hq => hall q (List.mem_cons_of_mem p hq))
    rw [run_cons]
    simp only [startTransitions_append]
    cases hcb : m.loc.m_callback
    · rw [run_silent ps _ ((step_fixed m p).1.trans hcb)]
      simp only [step_transitions, hcb]
      simp [alternates]
    · by_cases hact : m.loc.m_running = true ∧ m.loc.m_startEnabled = true
      · rw [step_lastState, if_pos hact] at hrest
        rw [step_transitions, if_pos ⟨hact.1, hact.2, hcb⟩]
        by_cases hA : p.isOpen = true ∧ m.lastState.isOpen = false ∧ F32.c0_6 ≤ p.confidence
        · rw [if_pos hA]
          rw [hA.1] at hrest
          simp only [List.singleton_append, alternates, hA.2.1]
          simpa using hrest
        · rw [if_neg hA]
          by_cases hB : p.isOpen = false ∧ m.lastState.isOpen = true
          · rw [if_pos hB]
            rw [hB.1] at hrest
            simp only [List.singleton_append, alternates, hB.2]
            simpa using hrest
          · rw [if_neg hB, List.nil_append]
            have hsame : p.isOpen = m.lastState.isOpen := by
              cases hO : p.isOpen <;> cases hL : m.lastState.isOpen
              · rfl
              · exact absurd ⟨hO, hL⟩ hB
              · exfalso
                rcases lt_or_le p.confidence F32.c0_6 with hlt | hge
                · exact hp ⟨hO, hlt⟩
                · exact hA ⟨hO, hL, hge⟩
              · rfl
            rw [hsame] at hrest
            exact hrest
      · have hidle : m.loc.m_running = false ∨ m.loc.m_startEnabled = false := by
          cases hr : m.loc.m_running <;> cases he : m.loc.m_startEnabled <;> simp_all
        rw [step_idle m p hidle] at hrest ⊢
        exact hrest

/-- Whatever the records, no 'opened' event follows an 'opened' event without a
'closed' event in between. -/
theorem run_noRepeatedOpen (polls : List StartInfo) :
    ∀ (m : Monitor) (last : Bool),
      (last = true → m.lastState.isOpen = true ∧ m.loc.m_callback = true) →
      noRepeatedOpen last (startTransitions (MonitorStart_run m polls).2) = true := by
  induction polls with
  | nil => exact fun _ _ _ => rfl
  | cons p ps ih =>
    intro m last hinv
    rw [run_cons]
    simp only [startTransitions_append]
    by_cases hact : m.loc.m_running = true ∧ m.loc.m_startEnabled = true ∧
        m.loc.m_callback = true
    · have hlast : (MonitorStart_step m p).1.lastState = p := by
        rw [step_lastState, if_pos ⟨hact.1, hact.2.1⟩]
      have hcb : (MonitorStart_step m p).1.loc.m_callback = true :=
        (step_fixed m p).1.trans hact.2.2
      rw [step_transitions, if_pos hact]
      by_cases hA : p.isOpen = true ∧ m.lastState.isOpen = false ∧ F32.c0_6 ≤ p.confidence
      · rw [if_pos hA]
        have hl : last = false := by
          cases hl : last
          · rfl
          · have := (hinv hl).1
            rw [hA.2.1] at this
            cases this
        have hopen : (MonitorStart_step m p).1.lastState.isOpen = true := by
          rw [hlast]
          exact hA.1
        have hrest := ih (MonitorStart_step m p).1 true (fun _ => ⟨hopen, hcb⟩)
        simp only [List.singleton_append, noRepeatedOpen, hl]
        simpa using hrest
      · rw [if_neg hA]
        by_cases hB : p.isOpen = false ∧ m.lastState.isOpen = true
        · rw [if_pos hB]
          have hrest := ih (MonitorStart_step m p).1 false (fun h => by cases h)
          simp only [List.singleton_append, noRepeatedOpen]
          simpa using hrest
        · rw [if_neg hB, List.nil_append]
          apply ih
          intro hl
          refine ⟨?_, hcb⟩
          rw [hlast]
          cases hO : p.isOpen
          · exact absurd ⟨hO, (hinv hl).1⟩ hB
          · rfl
    · have hnone : startTransitions (MonitorStart_step m p).2 = [] := by
        rw [step_transitions, if_neg hact]
      rw [hnone, List.nil_append]
      apply ih
      intro hl
      obtain ⟨hopen, hcb⟩ := hinv hl
      have hidle : ¬ (m.loc.m_running = true ∧ m.loc.m_startEnabled = true) :=
        fun h => hact ⟨h.1, h.2, hcb⟩
      rw [step_lastState, if_neg hidle]
      exact ⟨hopen, (step_fixed m p).1.trans hcb⟩

set_option maxRecDepth 8000 in
/-- C27, as stated, fails.  From start-up, a poll whose record is open with
confidence `0.59f` makes no event, and the following poll whose record is
closed makes `OnStartHidden`: a 'closed' event with no 'opened' event before
it.  Repeating the two polls gives two 'closed' events in a row. -/
theorem event_alternation_counterexample :
    (MonitorStart_run (monitorAtStart true {}) [lowPoll, closedPoll]).2 =
        [ShellEvent.OnStartHidden] ∧
      alternates true
        (startTransitions (MonitorStart_run (monitorAtStart true {}) [lowPoll, closedPoll]).2) =
        false ∧
      (MonitorStart_run (monitorAtStart true {})
        [lowPoll, closedPoll, lowPoll, closedPoll]).2 =
        [ShellEvent.OnStartHidden, ShellEvent.OnStartHidden] := by
  decide

/-- C27, amended.  For every sequence of poll records none of which is open with
a confidence below `0.6f`, the 'opened' and 'closed' events of `MonitorStart`
alternate strictly; the first is an 'opened' when the record of the pass before
was closed, as it is at start-up.  For arbitrary records, an 'opened' event is
never followed by another 'opened' event without a 'closed' event in between;
a 'closed' event is made exactly when the record of the previous pass was open
and the new one is closed, whether or not that earlier record led to an
'opened' event. -/
theorem event_alternation_amended :
    (∀ (m : Monitor) (polls : List StartInfo), (∀ p ∈ polls, ¬ lowOpen p) →
        alternates (!m.lastState.isOpen)
          (startTransitions (MonitorStart_run m polls).2) = true) ∧
      (∀ (callback : Bool) (taskbar : TaskbarInfo) (polls : List StartInfo),
        (∀ p ∈ polls, ¬ lowOpen p) →
        alternates true
          (startTransitions (MonitorStart_run (monitorAtStart callback taskbar) polls).2) =
          true) ∧
      (∀ (m : Monitor) (polls : List StartInfo),
        noRepeatedOpen false (startTransitions (MonitorStart_run m polls).2) = true) ∧
      (∀ (m : Monitor) (p : StartInfo),
        (ShellEvent.OnStartHidden ∈ (MonitorStart_step m p).2 ↔
          m.loc.m_running = true ∧ m.loc.m_startEnabled = true ∧ m.loc.m_callback = true ∧
            p.isOpen = false ∧ m.lastState.isOpen = true)) := by
  refine ⟨fun m polls h => run_alternates polls m h,
    fun callback taskbar polls h => run_alternates polls (monitorAtStart callback taskbar) h,
    fun m polls => run_noRepeatedOpen polls m false (fun h => by cases h), ?_⟩
  intro m p
  by_cases hact : m.loc.m_running = true ∧ m.loc.m_startEnabled = true
  · rw [step_active m p hact.1 hact.2]
    simp only [hidden_mem_poll, hact.1, hact.2, true_and]
  · have hidle : m.loc.m_running = false ∨ m.loc.m_startEnabled = false := by
      cases hr : m.loc.m_running <;> cases he : m.loc.m_startEnabled <;> simp_all
    rw [step_idle m p hidle]
    constructor
    · intro h
      cases h
    · intro h
      exact absurd ⟨h.1, h.2.1⟩ hact

set_option maxRecDepth 8000 in
/-- The amended C27 on the polls closed, open (`0.6f`), open, closed, open from
start-up: the events are 'opened', 'closed', 'opened'. -/
theorem event_alternation_amended_witness :
    startTransitions (MonitorStart_run (monitorAtStart true {})
        [closedPoll, highPoll, highPoll, closedPoll, highPoll]).2 = [true, false, true] ∧
      alternates true (startTransitions (MonitorStart_run (monitorAtStart true {})
        [closedPoll, highPoll, highPoll, closedPoll, highPoll]).2) = true :=
  ⟨by decide,
    event_alternation_amended.2.1 true {} [closedPoll, highPoll, highPoll, closedPoll, highPoll]
      (by unfold lowOpen; decide)⟩

end ShellTargetLocator

/-! ## Properties of the presentation pipeline -/

namespace F32

/-! ### Rounding -/

theorem bitLengthAux_zero (fuel : Nat) : bitLengthAux fuel 0 = 0 := by
  cases fuel <;> simp [bitLengthAux]

theorem bitLengthAux_spec : ∀ (fuel n : Nat), n ≤ fuel → 0 < n →
    2 ^ (bitLengthAux fuel n - 1) ≤ n ∧ n < 2 ^ bitLengthAux fuel n := by
  intro fuel
  induction fuel with
  | zero =>
    intro n h0 hpos
    omega
  | succ fuel ih =>
    intro n hle hpos
    have hne : n ≠ 0 := by omega
    simp only [bitLengthAux, hne, if_false, Nat.add_sub_cancel]
    by_cases hhalf : n / 2 = 0
    · rw [hhalf, bitLengthAux_zero]
      have : n = 1 := by omega
      subst this
      simp
    · have hpos2 : 0 < n / 2 := Nat.pos_of_ne_zero hhalf
      obtain ⟨h1, h2⟩ := ih (n / 2) (by omega) hpos2
      have hb : 1 ≤ bitLengthAux fuel (n / 2) := by
        by_contra hc
        have h0 : bitLengthAux fuel (n / 2) = 0 := by omega
        rw [h0] at h2
        simp at h2
        omega
      have hpow : 2 ^ bitLengthAux fuel (n / 2) = 2 * 2 ^ (bitLengthAux fuel (n / 2) - 1) := by
        conv_lhs => rw [← Nat.sub_add_cancel hb]
        rw [pow_succ]
        ring
      rw [pow_succ]
      constructor
      · rw [hpow]; omega
      · omega

theorem bitLength_spec (n : Nat) (hpos : 0 < n) :
    2 ^ (bitLength n - 1) ≤ n ∧ n < 2 ^ bitLength n :=
  bitLengthAux_spec n n (le_refl n) hpos

theorem bitLength_zero : bitLength 0 = 0 := rfl

/-- A multiple of `2^k` that does not exceed `n` does not exceed `n` rounded down
to a multiple of `2^k`. -/
theorem mul_pow_le_floor (a k n : Nat) (h : a * 2 ^ k ≤ n) : a * 2 ^ k ≤ n / 2 ^ k * 2 ^ k := by
  have hpos : 0 < 2 ^ k := Nat.two_pow_pos _
  exact Nat.mul_le_mul_right _ ((Nat.le_div_iff_mul_le hpos).mpr h)

theorem roundMag_ge (t e n : Nat) (ht : t < 2 ^ 24) (h : t * 2 ^ e ≤ n) :
    t * 2 ^ e ≤ roundMag n := by
  unfold roundMag
  simp only
  by_cases hk : bitLength n - 24 = 0
  · simp only [hk, if_true]
    exact h
  · simp only [hk, if_false]
    have hfloor : t * 2 ^ e ≤ n / 2 ^ (bitLength n - 24) * 2 ^ (bitLength n - 24) := by
      by_cases hke : bitLength n - 24 ≤ e
      · have hT : t * 2 ^ e = (t * 2 ^ (e - (bitLength n - 24))) * 2 ^ (bitLength n - 24) := by
          rw [Nat.mul_assoc, ← pow_add, Nat.sub_add_cancel hke]
        rw [hT]
        apply mul_pow_le_floor
        rw [← hT]
        exact h
      · have hnpos : 0 < n := by
          rcases Nat.eq_zero_or_pos n with h0 | h0
          · rw [h0, bitLength_zero] at hk
            exact absurd rfl hk
          · exact h0
        obtain ⟨hlow, _⟩ := bitLength_spec n hnpos
        have hb : bitLength n - 1 = 23 + (bitLength n - 24) := by omega
        rw [hb, pow_add] at hlow
        have h1 := mul_pow_le_floor (2 ^ 23) (bitLength n - 24) n hlow
        have h2 : t * 2 ^ e ≤ 2 ^ 23 * 2 ^ (bitLength n - 24) := by
          have he : bitLength n - 24 = (e + 1) + (bitLength n - 24 - (e + 1)) := by omega
          rw [he, pow_add, pow_succ]
          have hp : 1 ≤ 2 ^ (bitLength n - 24 - (e + 1)) := Nat.one_le_two_pow
          calc t * 2 ^ e ≤ 2 ^ 24 * 2 ^ e := Nat.mul_le_mul_right _ (le_of_lt ht)
            _ = 2 ^ 23 * (2 ^ e * 2) * 1 := by ring
            _ ≤ 2 ^ 23 * (2 ^ e * 2) * 2 ^ (bitLength n - 24 - (e + 1)) :=
                Nat.mul_le_mul_left _ hp
            _ = 2 ^ 23 * (2 ^ e * 2 * 2 ^ (bitLength n - 24 - (e + 1))) := by ring
        exact le_trans h2 h1
    split
    · exact le_trans hfloor (Nat.mul_le_mul_right _ (Nat.le_succ _))
    · exact hfloor

theorem roundMag_le (t e n : Nat) (ht : t < 2 ^ 24) (h : n ≤ t * 2 ^ e) :
    roundMag n ≤ t * 2 ^ e := by
  unfold roundMag
  simp only
  by_cases hk : bitLength n - 24 = 0
  · simp only [hk, if_true]
    exact h
  · simp only [hk, if_false]
    have hnpos : 0 < n := by
      rcases Nat.eq_zero_or_pos n with h0 | h0
      · rw [h0, bitLength_zero] at hk
        exact absurd rfl hk
      · exact h0
    obtain ⟨hlow, _⟩ := bitLength_spec n hnpos
    have hke : bitLength n - 24 ≤ e := by
      by_contra hc
      have hb : bitLength n - 1 = (24 + e) + (bitLength n - 1 - (24 + e)) := by omega
      rw [hb, pow_add, pow_add] at hlow
      have hp : 1 ≤ 2 ^ (bitLength n - 1 - (24 + e)) := Nat.one_le_two_pow
      have : t * 2 ^ e < 2 ^ 24 * 2 ^ e * 2 ^ (bitLength n - 1 - (24 + e)) :=
        calc t * 2 ^ e < 2 ^ 24 * 2 ^ e :=
              Nat.mul_lt_mul_of_pos_right ht (Nat.two_pow_pos _)
          _ = 2 ^ 24 * 2 ^ e * 1 := by ring
          _ ≤ 2 ^ 24 * 2 ^ e * 2 ^ (bitLength n - 1 - (24 + e)) := Nat.mul_le_mul_left _ hp
      omega
    have hT : t * 2 ^ e = (t * 2 ^ (e - (bitLength n - 24))) * 2 ^ (bitLength n - 24) := by
      rw [Nat.mul_assoc, ← pow_add, Nat.sub_add_cancel hke]
    generalize bitLength n - 24 = k at hk hke hT ⊢
    generalize t * 2 ^ (e - k) = a at hT
    rw [hT] at h ⊢
    have hpos : 0 < 2 ^ k := Nat.two_pow_pos _
    have hdm : 2 ^ k * (n / 2 ^ k) + n % 2 ^ k = n := Nat.div_add_mod n (2 ^ k)
    have hqa : n / 2 ^ k ≤ a := by
      apply Nat.div_le_of_le_mul
      rw [Nat.mul_comm]
      exact h
    split
    · rename_i hup
      have hr : 0 < n % 2 ^ k := by
        have hhalf : 0 < 2 ^ (k - 1) := Nat.two_pow_pos _
        rcases hup with hup | ⟨hup, _⟩ <;> omega
      have hlt : n / 2 ^ k < a := by
        by_contra hc
        have hqe : n / 2 ^ k = a := by omega
        rw [hqe, Nat.mul_comm] at hdm
        omega
      exact Nat.mul_le_mul_right _ hlt
    · exact Nat.mul_le_mul_right _ hqa

/-- The magnitude of a rounded value is the rounded magnitude. -/
theorem abs_round (x : Int) : abs (round x) = ((roundMag x.natAbs : Nat) : Int) := by
  unfold abs round
  by_cases hx : x < 0
  · simp only [hx, if_true]
    by_cases hm : roundMag x.natAbs = 0
    · simp [hm]
    · have : -((roundMag x.natAbs : Nat) : Int) < 0 := by
        have := Nat.pos_of_ne_zero hm
        omega
      simp only [this, if_true, neg_neg]
  · simp only [hx, if_false]
    have : ¬ ((roundMag x.natAbs : Nat) : Int) < 0 := by omega
    simp only [this, if_false]

theorem c0_01_eq : c0_01 = ((5368709 * 2 ^ 120 : Nat) : Int) := by decide

theorem c0_01_pred_eq : c0_01_pred = ((10737417 * 2 ^ 119 : Nat) : Int) := by decide

theorem c0_01_pred_lt : c0_01_pred < c0_01 := by decide

/-- A difference of exact magnitude `0.01f` or more is not below `0.01f` after
rounding. -/
theorem abs_sub_ge (a b : F32) (h : c0_01 ≤ |a - b|) : ¬ abs (sub a b) < c0_01 := by
  unfold sub
  rw [abs_round, c0_01_eq]
  rw [c0_01_eq, ← Int.natCast_natAbs] at h
  have h1 : 5368709 * 2 ^ 120 ≤ (a - b).natAbs := by exact_mod_cast h
  have h2 := roundMag_ge 5368709 120 _ (by norm_num) h1
  have h3 : ((5368709 * 2 ^ 120 : Nat) : Int) ≤ ((roundMag (a - b).natAbs : Nat) : Int) := by
    exact_mod_cast h2
  exact not_lt.mpr h3

/-- A difference of exact magnitude at most the predecessor of `0.01f` is below
`0.01f` after rounding. -/
theorem abs_sub_lt (a b : F32) (h : |a - b| ≤ c0_01_pred) : abs (sub a b) < c0_01 := by
  unfold sub
  rw [abs_round]
  rw [c0_01_pred_eq, ← Int.natCast_natAbs] at h
  have h1 : (a - b).natAbs ≤ 10737417 * 2 ^ 119 := by exact_mod_cast h
  have h2 := roundMag_le 10737417 119 _ (by norm_num) h1
  have h3 : ((roundMag (a - b).natAbs : Nat) : Int) ≤ ((10737417 * 2 ^ 119 : Nat) : Int) := by
    exact_mod_cast h2
  rw [← c0_01_pred_eq] at h3
  exact lt_of_le_of_lt h3 c0_01_pred_lt

/-! ### Clamping -/

theorem zero_le_one : zero ≤ one := by decide

/-- `std::clamp(v, 0.0f, 1.0f)` lies in `[0, 1]`. -/
theorem clamp_unit (v : F32) : zero ≤ clamp v zero one ∧ clamp v zero one ≤ one := by
  have h := zero_le_one
  unfold clamp
  split
  · exact ⟨le_refl _, h⟩
  · split
    · exact ⟨h, le_refl _⟩
    · rename_i h1 h2
      exact ⟨not_lt.mp h1, not_lt.mp h2⟩

end F32

namespace Renderer

/-- `CommitNow` touches only the commit bookkeeping and the call trace. -/
theorem CommitNow_frame (self : Renderer) (env : RenderEnv) :
    self.CommitNow env =
      { self with
        calls := (self.CommitNow env).calls
        m_lastCommit := (self.CommitNow env).m_lastCommit
        m_pendingCommit := (self.CommitNow env).m_pendingCommit } := by
  unfold CommitNow
  split_ifs <;> rfl

/-- `ScheduleCommit` touches only the commit bookkeeping and the call trace. -/
theorem ScheduleCommit_frame (self : Renderer) (env : RenderEnv) :
    self.ScheduleCommit env =
      { self with
        calls := (self.ScheduleCommit env).calls
        m_lastCommit := (self.ScheduleCommit env).m_lastCommit
        m_pendingCommit := (self.ScheduleCommit env).m_pendingCommit } := by
  unfold ScheduleCommit CommitNow
  simp only
  split_ifs <;> rfl

theorem CommitNow_targets (self : Renderer) (env : RenderEnv) :
    (self.CommitNow env).m_taskbarOpacity = self.m_taskbarOpacity ∧
      (self.CommitNow env).m_startOpacity = self.m_startOpacity := by
  have h1 := congrArg Renderer.m_taskbarOpacity (CommitNow_frame self env)
  have h2 := congrArg Renderer.m_startOpacity (CommitNow_frame self env)
  exact ⟨h1, h2⟩

theorem ScheduleCommit_targets (self : Renderer) (env : RenderEnv) :
    (self.ScheduleCommit env).m_taskbarOpacity = self.m_taskbarOpacity ∧
      (self.ScheduleCommit env).m_startOpacity = self.m_startOpacity := by
  have h1 := congrArg Renderer.m_taskbarOpacity (ScheduleCommit_frame self env)
  have h2 := congrArg Renderer.m_startOpacity (ScheduleCommit_frame self env)
  exact ⟨h1, h2⟩

theorem SetTaskbarOpacity_targets (self : Renderer) (opacity : F32) (env : RenderEnv) :
    (self.SetTaskbarOpacity opacity env).m_taskbarOpacity =
        (if F32.abs (F32.sub self.m_taskbarOpacity (F32.clamp opacity F32.zero F32.one)) <
            F32.c0_01 then self.m_taskbarOpacity
          else F32.clamp opacity F32.zero F32.one) ∧
      (self.SetTaskbarOpacity opacity env).m_startOpacity = self.m_startOpacity := by
  unfold SetTaskbarOpacity
  simp only
  split_ifs <;> simp [ScheduleCommit_targets]

theorem SetStartOpacity_targets (self : Renderer) (opacity : F32) (env : RenderEnv) :
    (self.SetStartOpacity opacity env).m_startOpacity =
        (if F32.abs (F32.sub self.m_startOpacity (F32.clamp opacity F32.zero F32.one)) <
            F32.c0_01 then self.m_startOpacity
          else F32.clamp opacity F32.zero F32.one) ∧
      (self.SetStartOpacity opacity env).m_taskbarOpacity = self.m_taskbarOpacity := by
  unfold SetStartOpacity
  simp only
  split_ifs <;> simp [ScheduleCommit_targets]

theorem SetTaskbarEnabled_targets (self : Renderer) (enabled : Bool) (env : RenderEnv) :
    (self.SetTaskbarEnabled enabled env).m_taskbarOpacity = self.m_taskbarOpacity ∧
      (self.SetTaskbarEnabled enabled env).m_startOpacity = self.m_startOpacity := by
  unfold SetTaskbarEnabled
  simp only
  split_ifs <;> simp [ScheduleCommit_targets]

theorem SetStartEnabled_targets (self : Renderer) (enabled : Bool) (env : RenderEnv) :
    (self.SetStartEnabled enabled env).m_taskbarOpacity = self.m_taskbarOpacity ∧
      (self.SetStartEnabled enabled env).m_startOpacity = self.m_startOpacity := by
  unfold SetStartEnabled
  simp only
  split_ifs <;> simp [ScheduleCommit_targets]

theorem OnDeferredCommit_targets (self : Renderer) (env : RenderEnv) :
    (self.OnDeferredCommit env).m_taskbarOpacity = self.m_taskbarOpacity ∧
      (self.OnDeferredCommit env).m_startOpacity = self.m_startOpacity := by
  unfold OnDeferredCommit
  split_ifs
  · exact CommitNow_targets self env
  · exact ⟨rfl, rfl⟩

theorem Initialize_targets (self : Renderer) (hwndTaskbar hwndStart : Nat) (env : InitEnv) :
    (self.Initialize hwndTaskbar hwndStart env).1.m_taskbarOpacity = self.m_taskbarOpacity ∧
      (self.Initialize hwndTaskbar hwndStart env).1.m_startOpacity = self.m_startOpacity := by
  unfold Initialize
  simp only
  split_ifs <;> simp [CommitNow_targets]

/-- Every interface call keeps both stored targets in `[0, 1]`. -/
theorem call_targetsInUnit (self : Renderer) (c : Call) (h : self.targetsInUnit) :
    (self.call c).targetsInUnit := by
  unfold targetsInUnit at h ⊢
  cases c with
  | Initialize hwndTaskbar hwndStart env =>
    have := Initialize_targets self hwndTaskbar hwndStart env
    simp only [call]
    rw [this.1, this.2]
    exact h
  | SetTaskbarOpacity opacity env =>
    have := SetTaskbarOpacity_targets self opacity env
    simp only [call]
    rw [this.1, this.2]
    refine ⟨?_, h.2⟩
    split
    · exact h.1
    · exact F32.clamp_unit opacity
  | SetStartOpacity opacity env =>
    have := SetStartOpacity_targets self opacity env
    simp only [call]
    rw [this.1, this.2]
    refine ⟨h.1, ?_⟩
    split
    · exact h.2
    · exact F32.clamp_unit opacity
  | SetTaskbarEnabled enabled env =>
    have := SetTaskbarEnabled_targets self enabled env
    simp only [call]
    rw [this.1, this.2]
    exact h
  | SetStartEnabled enabled env =>
    have := SetStartEnabled_targets self enabled env
    simp only [call]
    rw [this.1, this.2]
    exact h
  | OnDeferredCommit env =>
    have := OnDeferredCommit_targets self env
    simp only [call]
    rw [this.1, this.2]
    exact h
  | Shutdown => exact h

theorem calls_run_targetsInUnit (cs : List Call) :
    ∀ self : Renderer, self.targetsInUnit → (self.calls_run cs).targetsInUnit := by
  induction cs with
  | nil => exact fun _ h => h
  | cons c cs ih => exact fun self h => ih (self.call c) (call_targetsInUnit self c h)

/-- In every state the renderer can reach both stored targets lie in `[0, 1]`. -/
theorem reached_targetsInUnit (cs : List Call) : (reached cs).targetsInUnit :=
  calls_run_targetsInUnit cs {} ⟨⟨by decide, by decide⟩, ⟨by decide, by decide⟩⟩

set_option maxRecDepth 4000 in
/-- C10.  For every requested value `v` and every state `r` the renderer can
reach: after `SetTaskbarOpacity(v)` (resp. `SetStartOpacity(v)`) the stored
target lies in `[0, 1]`; it is `clamp(v, 0, 1)` when the binary32 value of
`|old - clamp(v, 0, 1)|` is at least `0.01f` and the old target otherwise.  In
exact arithmetic: a difference of `0.01f` or more always stores the clamped
value, a difference up to the binary32 predecessor of `0.01f` never does.  From a
target of `0.75` a request of `1.5` stores `1.0` and any negative request stores
`0`. -/
theorem opacity_clamp (cs : List Call) (v : F32) (env : RenderEnv) :
    ((F32.zero ≤ ((reached cs).SetTaskbarOpacity v env).m_taskbarOpacity ∧
        ((reached cs).SetTaskbarOpacity v env).m_taskbarOpacity ≤ F32.one) ∧
      (F32.zero ≤ ((reached cs).SetStartOpacity v env).m_startOpacity ∧
        ((reached cs).SetStartOpacity v env).m_startOpacity ≤ F32.one)) ∧
    (((reached cs).SetTaskbarOpacity v env).m_taskbarOpacity =
        (if F32.abs (F32.sub (reached cs).m_taskbarOpacity (F32.clamp v F32.zero F32.one)) ≥
            F32.c0_01 then F32.clamp v F32.zero F32.one
          else (reached cs).m_taskbarOpacity) ∧
      ((reached cs).SetStartOpacity v env).m_startOpacity =
        (if F32.abs (F32.sub (reached cs).m_startOpacity (F32.clamp v F32.zero F32.one)) ≥
            F32.c0_01 then F32.clamp v F32.zero F32.one
          else (reached cs).m_startOpacity)) ∧
    ((|(reached cs).m_taskbarOpacity - F32.clamp v F32.zero F32.one| ≥ F32.c0_01 →
        ((reached cs).SetTaskbarOpacity v env).m_taskbarOpacity =
          F32.clamp v F32.zero F32.one) ∧
      (|(reached cs).m_taskbarOpacity - F32.clamp v F32.zero F32.one| ≤ F32.c0_01_pred →
        ((reached cs).SetTaskbarOpacity v env).m_taskbarOpacity =
          (reached cs).m_taskbarOpacity) ∧
      (|(reached cs).m_startOpacity - F32.clamp v F32.zero F32.one| ≥ F32.c0_01 →
        ((reached cs).SetStartOpacity v env).m_startOpacity =
          F32.clamp v F32.zero F32.one) ∧
      (|(reached cs).m_startOpacity - F32.clamp v F32.zero F32.one| ≤ F32.c0_01_pred →
        ((reached cs).SetStartOpacity v env).m_startOpacity =
          (reached cs).m_startOpacity)) ∧
    (∀ r : Renderer,
      (r.m_taskbarOpacity = F32.c0_75 →
        (r.SetTaskbarOpacity F32.c1_5 env).m_taskbarOpacity = F32.one ∧
          (v < F32.zero → (r.SetTaskbarOpacity v env).m_taskbarOpacity = F32.zero)) ∧
      (r.m_startOpacity = F32.c0_75 →
        (r.SetStartOpacity F32.c1_5 env).m_startOpacity = F32.one ∧
          (v < F32.zero → (r.SetStartOpacity v env).m_startOpacity = F32.zero))) := by
  have hinv := reached_targetsInUnit cs
  have hT := (SetTaskbarOpacity_targets (reached cs) v env).1
  have hS := (SetStartOpacity_targets (reached cs) v env).1
  refine ⟨⟨?_, ?_⟩, ⟨?_, ?_⟩, ⟨?_, ?_, ?_, ?_⟩, ?_⟩
  · rw [hT]
    split
    · exact hinv.1
    · exact F32.clamp_unit v
  · rw [hS]
    split
    · exact hinv.2
    · exact F32.clamp_unit v
  · rw [hT]
    split_ifs with h1 h2 h2
    · exact absurd h1 (not_lt.mpr h2)
    · rfl
    · rfl
    · exact absurd (not_lt.mp h1) h2
  · rw [hS]
    split_ifs with h1 h2 h2
    · exact absurd h1 (not_lt.mpr h2)
    · rfl
    · rfl
    · exact absurd (not_lt.mp h1) h2
  · intro h
    rw [hT, if_neg (F32.abs_sub_ge _ _ h)]
  · intro h
    rw [hT, if_pos (F32.abs_sub_lt _ _ h)]
  · intro h
    rw [hS, if_neg (F32.abs_sub_ge _ _ h)]
  · intro h
    rw [hS, if_pos (F32.abs_sub_lt _ _ h)]
  · intro r
    refine ⟨fun h75 => ⟨?_, fun hneg => ?_⟩, fun h75 => ⟨?_, fun hneg => ?_⟩⟩
    · rw [(SetTaskbarOpacity_targets r F32.c1_5 env).1, h75]
      decide
    · have hc : F32.clamp v F32.zero F32.one = F32.zero := by
        unfold F32.clamp
        rw [if_pos hneg]
      rw [(SetTaskbarOpacity_targets r v env).1, h75, hc]
      decide
    · rw [(SetStartOpacity_targets r F32.c1_5 env).1, h75]
      decide
    · have hc : F32.clamp v F32.zero F32.one = F32.zero := by
        unfold F32.clamp
        rw [if_pos hneg]
      rw [(SetStartOpacity_targets r v env).1, h75, hc]
      decide

set_option maxRecDepth 4000 in
/-- The rule of C10 on the renderer as constructed and initialised (taskbar
target `0.75`): a request of `1.5` stores `1.0`, a request of `-0.25` stores `0`,
and a request of `0.75` leaves the target alone. -/
theorem opacity_clamp_witness :
    ((reached [Call.Initialize 1 2 {}]).SetTaskbarOpacity F32.c1_5 {}).m_taskbarOpacity =
        F32.one ∧
      ((reached [Call.Initialize 1 2 {}]).SetTaskbarOpacity (F32.lit (-1) 2)
        {}).m_taskbarOpacity = F32.zero ∧
      ((reached [Call.Initialize 1 2 {}]).SetTaskbarOpacity F32.c0_75 {}).m_taskbarOpacity =
        (reached [Call.Initialize 1 2 {}]).m_taskbarOpacity :=
  ⟨((opacity_clamp [Call.Initialize 1 2 {}] F32.c1_5 {}).2.2.2
      (reached [Call.Initialize 1 2 {}])).1 (by decide) |>.1,
    (((opacity_clamp [Call.Initialize 1 2 {}] (F32.lit (-1) 2) {}).2.2.2
      (reached [Call.Initialize 1 2 {}])).1 (by decide)).2 (by decide),
    (opacity_clamp [Call.Initialize 1 2 {}] F32.c0_75 {}).2.2.1.2.1 (by decide)⟩

/-! ### Counting commits and posted messages -/

@[simp] theorem commitCount_append (a b : List RenderCall) :
    commitCount (a ++ b) = commitCount a + commitCount b := by
  unfold commitCount
  exact List.countP_append _ a b

@[simp] theorem postCount_append (a b : List RenderCall) :
    postCount (a ++ b) = postCount a + postCount b := by
  unfold postCount
  exact List.countP_append _ a b

@[simp] theorem commitCount_commit (ok : Bool) :
    commitCount [RenderCall.DeviceCommit ok] = 1 := rfl

@[simp] theorem commitCount_post (hwnd : Nat) :
    commitCount [RenderCall.PostCommitMessage hwnd] = 0 := rfl

@[simp] theorem commitCount_opacity (surface : Surface) (opacity : F32) (ok : Bool) :
    commitCount [RenderCall.VisualSetOpacity surface opacity ok] = 0 := rfl

@[simp] theorem postCount_commit (ok : Bool) :
    postCount [RenderCall.DeviceCommit ok] = 0 := rfl

@[simp] theorem postCount_post (hwnd : Nat) :
    postCount [RenderCall.PostCommitMessage hwnd] = 1 := rfl

@[simp] theorem postCount_opacity (surface : Surface) (opacity : F32) (ok : Bool) :
    postCount [RenderCall.VisualSetOpacity surface opacity ok] = 0 := rfl

/-! ### The three outcomes of `ScheduleCommit` -/

theorem CommitNow_device (self : Renderer) (env : RenderEnv) (hdev : self.m_dcompDevice = true) :
    self.CommitNow env =
      { self with
        calls := self.calls ++ [RenderCall.DeviceCommit env.commitOk]
        m_lastCommit := env.commitTime
        m_pendingCommit := false } := by
  unfold CommitNow
  simp [hdev]

theorem CommitNow_no_device (self : Renderer) (env : RenderEnv)
    (hdev : self.m_dcompDevice = false) : self.CommitNow env = self := by
  unfold CommitNow
  simp [hdev]

theorem ScheduleCommit_immediate (self : Renderer) (env : RenderEnv)
    (h : 16 ≤ self.elapsedMs env) : self.ScheduleCommit env = self.CommitNow env := by
  unfold ScheduleCommit
  unfold elapsedMs at h
  simp [h]

theorem ScheduleCommit_deferred (self : Renderer) (env : RenderEnv)
    (h : self.elapsedMs env < 16) (hpend : self.m_pendingCommit = false) :
    self.ScheduleCommit env =
      { self with
        m_pendingCommit := true
        calls := if self.m_hwndHost ≠ 0 then
            self.calls ++ [RenderCall.PostCommitMessage self.m_hwndHost]
          else self.calls } := by
  unfold ScheduleCommit
  unfold elapsedMs at h
  have h' : ¬ (16 ≤ Int.tdiv (env.now - self.m_lastCommit) 1000000) := not_le.mpr h
  by_cases hh : self.m_hwndHost = 0 <;> simp [h', hpend, hh]

theorem ScheduleCommit_coalesced (self : Renderer) (env : RenderEnv)
    (h : self.elapsedMs env < 16) (hpend : self.m_pendingCommit = true) :
    self.ScheduleCommit env = self := by
  unfold ScheduleCommit
  unfold elapsedMs at h
  have h' : ¬ (16 ≤ Int.tdiv (env.now - self.m_lastCommit) 1000000) := not_le.mpr h
  simp [h', hpend]

/-! ### Opacity and enable calls up to `ScheduleCommit` -/

/-- A call that reaches `ScheduleCommit()` is `ScheduleCommit` applied to a state
that differs from the state before the call in neither the commit bookkeeping,
nor the host window, nor the device, nor the commits and messages traced. -/
theorem call_reaches (self : Renderer) (c : Call) (h : self.reachesSchedule c = true) :
    ∃ mid : Renderer, self.call c = mid.ScheduleCommit c.renderEnv ∧
      mid.m_lastCommit = self.m_lastCommit ∧ mid.m_pendingCommit = self.m_pendingCommit ∧
      mid.m_hwndHost = self.m_hwndHost ∧ mid.m_dcompDevice = self.m_dcompDevice ∧
      commitCount mid.calls = commitCount self.calls ∧
      postCount mid.calls = postCount self.calls := by
  cases c with
  | SetTaskbarOpacity opacity env =>
    simp only [reachesSchedule, Bool.and_eq_true, Bool.not_eq_true', decide_eq_false_iff_not] at h
    obtain ⟨⟨⟨h1, h2⟩, h3⟩, h4⟩ := h
    refine ⟨{ self with
        m_taskbarOpacity := F32.clamp opacity F32.zero F32.one
        m_visualTaskbar := visualSetOpacity self.m_visualTaskbar
          (F32.clamp opacity F32.zero F32.one) env.setOpacityOk
        calls := self.calls ++ [RenderCall.VisualSetOpacity Surface.Taskbar
          (F32.clamp opacity F32.zero F32.one) env.setOpacityOk] }, ?_, ?_⟩
    · simp [call, SetTaskbarOpacity, h1, h2, h3, h4, Call.renderEnv]
    · simp
  | SetStartOpacity opacity env =>
    simp only [reachesSchedule, Bool.and_eq_true, Bool.not_eq_true', decide_eq_false_iff_not] at h
    obtain ⟨⟨⟨h1, h2⟩, h3⟩, h4⟩ := h
    refine ⟨{ self with
        m_startOpacity := F32.clamp opacity F32.zero F32.one
        m_visualStart := visualSetOpacity self.m_visualStart
          (F32.clamp opacity F32.zero F32.one) env.setOpacityOk
        calls := self.calls ++ [RenderCall.VisualSetOpacity Surface.Start
          (F32.clamp opacity F32.zero F32.one) env.setOpacityOk] }, ?_, ?_⟩
    · simp [call, SetStartOpacity, h1, h2, h3, h4, Call.renderEnv]
    · simp
  | SetTaskbarEnabled enabled env =>
    simp only [reachesSchedule] at h
    refine ⟨{ self with
        m_taskbarEnabled := enabled
        m_visualTaskbar := visualSetOpacity self.m_visualTaskbar
          (if enabled then self.m_taskbarOpacity else F32.zero) env.setOpacityOk
        calls := self.calls ++ [RenderCall.VisualSetOpacity Surface.Taskbar
          (if enabled then self.m_taskbarOpacity else F32.zero) env.setOpacityOk] }, ?_, ?_⟩
    · simp [call, SetTaskbarEnabled, h, Call.renderEnv]
    · simp
  | SetStartEnabled enabled env =>
    simp only [reachesSchedule] at h
    refine ⟨{ self with
        m_startEnabled := enabled
        m_visualStart := visualSetOpacity self.m_visualStart
          (if enabled then self.m_startOpacity else F32.zero) env.setOpacityOk
        calls := self.calls ++ [RenderCall.VisualSetOpacity Surface.Start
          (if enabled then self.m_startOpacity else F32.zero) env.setOpacityOk] }, ?_, ?_⟩
    · simp [call, SetStartEnabled, h, Call.renderEnv]
    · simp
  | Initialize _ _ _ => exact absurd h (by simp [reachesSchedule])
  | OnDeferredCommit _ => exact absurd h (by simp [reachesSchedule])
  | Shutdown => exact absurd h (by simp [reachesSchedule])

/-- An opacity or enable call that stops short of `ScheduleCommit()` commits
nothing, posts nothing and leaves the commit bookkeeping alone. -/
theorem call_stops_short (self : Renderer) (c : Call) (hc : c.isChange = true)
    (h : self.reachesSchedule c = false) :
    (self.call c).m_lastCommit = self.m_lastCommit ∧
      (self.call c).m_pendingCommit = self.m_pendingCommit ∧
      commitCount (self.call c).calls = commitCount self.calls ∧
      postCount (self.call c).calls = postCount self.calls := by
  cases c with
  | SetTaskbarOpacity opacity env =>
    simp only [reachesSchedule, Bool.and_eq_false_iff, Bool.not_eq_false',
      decide_eq_true_eq] at h
    simp only [call, SetTaskbarOpacity]
    rcases h with ((h | h) | h) | h
    · simp [h]
    · split_ifs <;> simp_all
    · split_ifs <;> simp_all
    · split_ifs <;> simp_all
  | SetStartOpacity opacity env =>
    simp only [reachesSchedule, Bool.and_eq_false_iff, Bool.not_eq_false',
      decide_eq_true_eq] at h
    simp only [call, SetStartOpacity]
    rcases h with ((h | h) | h) | h
    · simp [h]
    · split_ifs <;> simp_all
    · split_ifs <;> simp_all
    · split_ifs <;> simp_all
  | SetTaskbarEnabled enabled env =>
    simp only [reachesSchedule] at h
    simp [call, SetTaskbarEnabled, h]
  | SetStartEnabled enabled env =>
    simp only [reachesSchedule] at h
    simp [call, SetStartEnabled, h]
  | Initialize _ _ _ => exact absurd hc (by simp [Call.isChange])
  | OnDeferredCommit _ => exact absurd hc (by simp [Call.isChange])
  | Shutdown => exact absurd hc (by simp [Call.isChange])

/-- A change that reaches `ScheduleCommit()` inside the throttle window commits
nothing; it marks a commit pending and, if none was pending, posts the
deferred-commit message to the host window. -/
theorem change_in_window (self : Renderer) (c : Call) (hreach : self.reachesSchedule c = true)
    (hel : self.elapsedMs c.renderEnv < 16) :
    commitCount (self.call c).calls = commitCount self.calls ∧
      (self.call c).m_lastCommit = self.m_lastCommit ∧
      (self.call c).m_hwndHost = self.m_hwndHost ∧
      (self.call c).m_dcompDevice = self.m_dcompDevice ∧
      (self.call c).m_pendingCommit = true ∧
      postCount (self.call c).calls = postCount self.calls +
        (if self.m_pendingCommit = false ∧ self.m_hwndHost ≠ 0 then 1 else 0) := by
  obtain ⟨mid, hcall, hlast, hpend, hhost, hdev, hcc, hpc⟩ := call_reaches self c hreach
  have hel' : mid.elapsedMs c.renderEnv < 16 := by
    unfold elapsedMs at hel ⊢
    rw [hlast]
    exact hel
  rw [hcall]
  cases hp : self.m_pendingCommit
  · rw [ScheduleCommit_deferred mid _ hel' (hpend.trans hp)]
    by_cases hh : self.m_hwndHost = 0
    · have hh' : mid.m_hwndHost = 0 := hhost.trans hh
      simp [hh, hh', hlast, hdev, hcc, hpc]
    · have hh' : mid.m_hwndHost ≠ 0 := fun h0 => hh (hhost.symm.trans h0)
      simp [hh, hh', hlast, hdev, hcc, hpc, hhost]
  · rw [ScheduleCommit_coalesced mid _ hel' (hpend.trans hp)]
    simp [hlast, hdev, hcc, hpc, hhost, hpend, hp]

/-- A change that reaches `ScheduleCommit()` when 16 ms or more have elapsed
since the last commit is committed at once. -/
theorem change_after_window (self : Renderer) (c : Call)
    (hreach : self.reachesSchedule c = true) (hel : 16 ≤ self.elapsedMs c.renderEnv)
    (hdevice : self.m_dcompDevice = true) :
    commitCount (self.call c).calls = commitCount self.calls + 1 ∧
      postCount (self.call c).calls = postCount self.calls ∧
      (self.call c).m_lastCommit = c.renderEnv.commitTime ∧
      (self.call c).m_pendingCommit = false := by
  obtain ⟨mid, hcall, hlast, hpend, hhost, hdev, hcc, hpc⟩ := call_reaches self c hreach
  have hel' : 16 ≤ mid.elapsedMs c.renderEnv := by
    unfold elapsedMs at hel ⊢
    rw [hlast]
    exact hel
  rw [hcall, ScheduleCommit_immediate mid _ hel', CommitNow_device mid _ (hdev.trans hdevice)]
  simp [hcc, hpc]

/-- While a commit is pending, throttled changes commit nothing and post
nothing. -/
theorem throttled_run_pending (cs : List Call) :
    ∀ self : Renderer, self.m_pendingCommit = true → self.throttledChanges cs →
      commitCount (self.calls_run cs).calls = commitCount self.calls ∧
        postCount (self.calls_run cs).calls = postCount self.calls ∧
        (self.calls_run cs).m_pendingCommit = true ∧
        (self.calls_run cs).m_dcompDevice = self.m_dcompDevice ∧
        (self.calls_run cs).m_lastCommit = self.m_lastCommit := by
  induction cs with
  | nil => exact fun self hp _ => ⟨rfl, rfl, hp, rfl, rfl⟩
  | cons c cs ih =>
    intro self hp hthr
    obtain ⟨hreach, hel, hrest⟩ := hthr
    obtain ⟨h1, h2, _, h4, h5, h6⟩ := change_in_window self c hreach hel
    obtain ⟨k1, k2, k3, k4, k5⟩ := ih (self.call c) h5 hrest
    have h6' : postCount (self.call c).calls = postCount self.calls := by
      rw [h6]
      simp [hp]
    exact ⟨k1.trans h1, k2.trans h6', k3, k4.trans h4, k5.trans h2⟩

/-! ### Idempotence of the opacity setters -/

theorem sub_self_lt (c : F32) : F32.abs (F32.sub c c) < F32.c0_01 := by
  unfold F32.sub
  rw [Int.sub_self]
  decide

/-- An opacity request within `0.01f` of the stored target returns at once. -/
theorem SetTaskbarOpacity_noop (self : Renderer) (opacity : F32) (env : RenderEnv)
    (h : F32.abs (F32.sub self.m_taskbarOpacity (F32.clamp opacity F32.zero F32.one)) <
      F32.c0_01) :
    self.SetTaskbarOpacity opacity env = self := by
  unfold SetTaskbarOpacity
  simp only [h, if_true]

theorem SetStartOpacity_noop (self : Renderer) (opacity : F32) (env : RenderEnv)
    (h : F32.abs (F32.sub self.m_startOpacity (F32.clamp opacity F32.zero F32.one)) <
      F32.c0_01) :
    self.SetStartOpacity opacity env = self := by
  unfold SetStartOpacity
  simp only [h, if_true]

theorem SetTaskbarOpacity_twice (self : Renderer) (opacity : F32) (env1 env2 : RenderEnv) :
    (self.SetTaskbarOpacity opacity env1).SetTaskbarOpacity opacity env2 =
      self.SetTaskbarOpacity opacity env1 := by
  apply SetTaskbarOpacity_noop
  rw [(SetTaskbarOpacity_targets self opacity env1).1]
  split
  · assumption
  · exact sub_self_lt _

theorem SetStartOpacity_twice (self : Renderer) (opacity : F32) (env1 env2 : RenderEnv) :
    (self.SetStartOpacity opacity env1).SetStartOpacity opacity env2 =
      self.SetStartOpacity opacity env1 := by
  apply SetStartOpacity_noop
  rw [(SetStartOpacity_targets self opacity env1).1]
  split
  · assumption
  · exact sub_self_lt _

/-- C13.  For every non-empty run of opacity and enable calls that all reach
`ScheduleCommit()` fewer than 16 whole milliseconds after the last commit, made
on a renderer with a device and a host window and no commit pending, with no
deferred callback in between: no call makes the device commit, exactly one
deferred-commit message is posted and a commit is left pending; the following
`OnDeferredCommit` makes exactly one commit, posts nothing and clears the
pending flag. -/
theorem commit_coalescing (self : Renderer) (cs : List Call) (env : RenderEnv)
    (hne : cs ≠ []) (hpend : self.m_pendingCommit = false) (hhost : self.m_hwndHost ≠ 0)
    (hdev : self.m_dcompDevice = true) (hthr : self.throttledChanges cs) :
    commitCount (self.calls_run cs).calls = commitCount self.calls ∧
      (∀ k, commitCount (self.calls_run (cs.take k)).calls = commitCount self.calls) ∧
      postCount (self.calls_run cs).calls = postCount self.calls + 1 ∧
      (self.calls_run cs).m_pendingCommit = true ∧
      commitCount ((self.calls_run cs).OnDeferredCommit env).calls =
        commitCount self.calls + 1 ∧
      postCount ((self.calls_run cs).OnDeferredCommit env).calls = postCount self.calls + 1 ∧
      ((self.calls_run cs).OnDeferredCommit env).m_pendingCommit = false := by
  have hrun : ∀ (ds : List Call), ds ≠ [] → self.throttledChanges ds →
      commitCount (self.calls_run ds).calls = commitCount self.calls ∧
        postCount (self.calls_run ds).calls = postCount self.calls + 1 ∧
        (self.calls_run ds).m_pendingCommit = true ∧
        (self.calls_run ds).m_dcompDevice = true := by
    intro ds hds hthr'
    match ds, hds, hthr' with
    | c :: ds, _, ⟨hreach, hel, hrest⟩ =>
      obtain ⟨h1, _, _, h4, h5, h6⟩ := change_in_window self c hreach hel
      obtain ⟨k1, k2, k3, k4, _⟩ := throttled_run_pending ds (self.call c) h5 hrest
      have h6' : postCount (self.call c).calls = postCount self.calls + 1 := by
        rw [h6]
        simp [hpend, hhost]
      exact ⟨k1.trans h1, k2.trans h6', k3, (k4.trans h4).trans hdev⟩
  have htake : ∀ (ds : List Call) (r : Renderer) (k : Nat), r.throttledChanges ds →
      r.throttledChanges (ds.take k) := by
    intro ds
    induction ds with
    | nil => intro r k h; simpa using h
    | cons d ds ih =>
      intro r k h
      cases k with
      | zero => exact trivial
      | succ k => exact ⟨h.1, h.2.1, ih (r.call d) k h.2.2⟩
  obtain ⟨h1, h2, h3, h4⟩ := hrun cs hne hthr
  refine ⟨h1, ?_, h2, h3, ?_, ?_, ?_⟩
  · intro k
    by_cases hk : cs.take k = []
    · rw [hk]
      rfl
    · exact (hrun (cs.take k) hk (htake cs self k hthr)).1
  · unfold OnDeferredCommit
    rw [if_pos h3, CommitNow_device _ _ h4]
    simp [h1]
  · unfold OnDeferredCommit
    rw [if_pos h3, CommitNow_device _ _ h4]
    simp [h2]
  · unfold OnDeferredCommit
    rw [if_pos h3, CommitNow_device _ _ h4]

set_option maxRecDepth 8000 in
/-- The two opacity changes of C13: after the initial commit at time `0`, the
taskbar opacity is set to `1.0` at 3 ms and to `0.5` at 8 ms; one message is
posted, nothing is committed until the deferred callback, which commits once. -/
theorem commit_coalescing_witness :
    commitCount (initialized.calls_run
        [Call.SetTaskbarOpacity F32.one (atMs 3), Call.SetTaskbarOpacity F32.c0_5 (atMs 8)]).calls
        = commitCount initialized.calls ∧
      postCount (initialized.calls_run
        [Call.SetTaskbarOpacity F32.one (atMs 3), Call.SetTaskbarOpacity F32.c0_5 (atMs 8)]).calls
        = postCount initialized.calls + 1 ∧
      commitCount ((initialized.calls_run
        [Call.SetTaskbarOpacity F32.one (atMs 3),
          Call.SetTaskbarOpacity F32.c0_5 (atMs 8)]).OnDeferredCommit (atMs 9)).calls
        = commitCount initialized.calls + 1 :=
  have h := commit_coalescing initialized
    [Call.SetTaskbarOpacity F32.one (atMs 3), Call.SetTaskbarOpacity F32.c0_5 (atMs 8)]
    (atMs 9) (by decide) (by decide) (by decide) (by decide)
    ⟨by decide, by decide, by decide, by decide, trivial⟩
  ⟨h.1, h.2.2.1, h.2.2.2.2.1⟩


/-! ### Spacing of commits -/

theorem tdiv_ge_sixteen (x : Int) (h : 16 ≤ Int.tdiv x 1000000) : 16000000 ≤ x := by
  rcases lt_or_le x 0 with hneg | hpos
  · have h0 : Int.tdiv x 1000000 ≤ 0 := by
      have hx : x = -(-x) := by omega
      rw [hx, Int.neg_tdiv]
      have : 0 ≤ Int.tdiv (-x) 1000000 := Int.tdiv_nonneg (by omega) (by decide)
      omega
    omega
  · rw [Int.tdiv_eq_ediv hpos (by decide)] at h
    omega

set_option maxRecDepth 8000 in
/-- C14, as stated, fails.  The initial commit is made at time `0`; an opacity
change at 1 ms is deferred; the deferred callback at 2 ms commits.  The two
successive commits are 2 ms apart. -/
theorem commit_spacing_counterexample :
    commitLog {}
        [Call.Initialize 1 2 {}, Call.SetTaskbarOpacity F32.one (atMs 1),
          Call.OnDeferredCommit (atMs 2)] = [0, 2000000] ∧
      commitCount (reached
        [Call.Initialize 1 2 {}, Call.SetTaskbarOpacity F32.one (atMs 1),
          Call.OnDeferredCommit (atMs 2)]).calls = 2 := by
  decide

/-- C14, amended.  An opacity or enable call makes the device commit only when
16 whole milliseconds or more have elapsed since the last commit, and the commit
is then 16 ms or more after the last one; an opacity or enable call that reaches
`ScheduleCommit()` 16 ms or more after the last commit is committed at once.
The commit made by the deferred callback is made whenever one is pending,
whatever the time since the last commit. -/
theorem commit_spacing_amended (self : Renderer) (c : Call) (env : RenderEnv)
    (hc : c.isChange = true) :
    (commitCount (self.call c).calls ≠ commitCount self.calls →
        16 ≤ self.elapsedMs c.renderEnv ∧
          (c.renderEnv.now ≤ c.renderEnv.commitTime →
            16000000 ≤ (self.call c).m_lastCommit - self.m_lastCommit)) ∧
      (self.reachesSchedule c = true → 16 ≤ self.elapsedMs c.renderEnv →
        self.m_dcompDevice = true →
        commitCount (self.call c).calls = commitCount self.calls + 1 ∧
          (self.call c).m_lastCommit = c.renderEnv.commitTime ∧
          (self.call c).m_pendingCommit = false) ∧
      (self.m_pendingCommit = true → self.m_dcompDevice = true →
        commitCount (self.OnDeferredCommit env).calls = commitCount self.calls + 1 ∧
          (self.OnDeferredCommit env).m_lastCommit = env.commitTime) := by
  refine ⟨?_, ?_, ?_⟩
  · intro hne
    cases hreach : self.reachesSchedule c
    · exact absurd (call_stops_short self c hc hreach).2.2.1 hne
    · rcases lt_or_le (self.elapsedMs c.renderEnv) 16 with hel | hel
      · exact absurd (change_in_window self c hreach hel).1 hne
      · refine ⟨hel, fun hclock => ?_⟩
        cases hdev : self.m_dcompDevice
        · exfalso
          obtain ⟨mid, hcall, hlast, _, _, hd, hcc, _⟩ := call_reaches self c hreach
          apply hne
          have hel' : 16 ≤ mid.elapsedMs c.renderEnv := by
            unfold elapsedMs at hel ⊢
            rw [hlast]
            exact hel
          rw [hcall, ScheduleCommit_immediate mid _ hel',
            CommitNow_no_device mid _ (hd.trans hdev), hcc]
        · rw [(change_after_window self c hreach hel hdev).2.2.1]
          have := tdiv_ge_sixteen _ hel
          omega
  · intro hreach hel hdev
    obtain ⟨h1, _, h3, h4⟩ := change_after_window self c hreach hel hdev
    exact ⟨h1, h3, h4⟩
  · intro hp hdev
    unfold OnDeferredCommit
    rw [if_pos hp, CommitNow_device _ _ hdev]
    simp

set_option maxRecDepth 8000 in
/-- The amended C14 on the initialised renderer: an opacity change 20 ms after
the initial commit is committed at once, at 20 ms. -/
theorem commit_spacing_amended_witness :
    commitCount (initialized.call (Call.SetTaskbarOpacity F32.one (atMs 20))).calls =
        commitCount initialized.calls + 1 ∧
      (initialized.call (Call.SetTaskbarOpacity F32.one (atMs 20))).m_lastCommit = 20000000 :=
  have h := (commit_spacing_amended initialized (Call.SetTaskbarOpacity F32.one (atMs 20))
    (atMs 20) rfl).2.1 (by decide) (by decide) (by decide)
  ⟨h.1, h.2.1⟩

/-! ### The deferred callback -/

set_option maxRecDepth 8000 in
/-- C15, as stated, fails.  After the initial commit at time `0`, an opacity
change at 1 ms posts the deferred-commit message; an opacity change at 20 ms
commits at once and clears the pending flag; the deferred callback at 21 ms then
makes no compositor call at all. -/
theorem deferred_callback_counterexample :
    postCount (reached
        [Call.Initialize 1 2 {}, Call.SetTaskbarOpacity F32.one (atMs 1)]).calls = 1 ∧
      (reached
        [Call.Initialize 1 2 {}, Call.SetTaskbarOpacity F32.one (atMs 1)]).m_pendingCommit
          = true ∧
      (reached
        [Call.Initialize 1 2 {}, Call.SetTaskbarOpacity F32.one (atMs 1),
          Call.SetStartOpacity F32.one (atMs 20)]).m_pendingCommit = false ∧
      ((reached
        [Call.Initialize 1 2 {}, Call.SetTaskbarOpacity F32.one (atMs 1),
          Call.SetStartOpacity F32.one (atMs 20)]).OnDeferredCommit (atMs 21)).calls =
        (reached
          [Call.Initialize 1 2 {}, Call.SetTaskbarOpacity F32.one (atMs 1),
            Call.SetStartOpacity F32.one (atMs 20)]).calls := by
  decide

/-- `CommitNow` keeps the device. -/
theorem CommitNow_keeps_device (self : Renderer) (env : RenderEnv) :
    (self.CommitNow env).m_dcompDevice = self.m_dcompDevice := by
  have h := congrArg Renderer.m_dcompDevice (CommitNow_frame self env)
  exact h

/-- `ScheduleCommit` keeps the device. -/
theorem ScheduleCommit_device (self : Renderer) (env : RenderEnv) :
    (self.ScheduleCommit env).m_dcompDevice = self.m_dcompDevice := by
  have h := congrArg Renderer.m_dcompDevice (ScheduleCommit_frame self env)
  exact h

/-- The opacity and enable setters and the deferred callback keep the device. -/
theorem call_device (self : Renderer) (c : Call)
    (hc : c.isChange = true ∨ ∃ env, c = Call.OnDeferredCommit env) :
    (self.call c).m_dcompDevice = self.m_dcompDevice := by
  rcases hc with hc | ⟨env, rfl⟩
  · cases c with
    | Initialize a b e => cases hc
    | SetTaskbarOpacity v env =>
      simp only [call]
      unfold SetTaskbarOpacity
      simp only
      split_ifs <;> simp [ScheduleCommit_device]
    | SetStartOpacity v env =>
      simp only [call]
      unfold SetStartOpacity
      simp only
      split_ifs <;> simp [ScheduleCommit_device]
    | SetTaskbarEnabled b env =>
      simp only [call]
      unfold SetTaskbarEnabled
      simp only
      split_ifs <;> simp [ScheduleCommit_device]
    | SetStartEnabled b env =>
      simp only [call]
      unfold SetStartEnabled
      simp only
      split_ifs <;> simp [ScheduleCommit_device]
    | OnDeferredCommit env => cases hc
    | Shutdown => cases hc
  · simp only [call]
    unfold OnDeferredCommit
    split_ifs
    · exact CommitNow_keeps_device self env
    · rfl

theorem calls_run_device (cs : List Call) :
    ∀ self : Renderer, (∀ c ∈ cs, c.isChange = true ∨ ∃ env, c = Call.OnDeferredCommit env) →
      (self.calls_run cs).m_dcompDevice = self.m_dcompDevice := by
  induction cs with
  | nil => exact fun _ _ => rfl
  | cons c cs ih =>
    intro self hall
    have h1 := call_device self c (hall c (List.mem_cons_self c cs))
    have h2 := ih (self.call c) (fun d hd => hall d (List.mem_cons_of_mem c hd))
    exact h2.trans h1

/-- A successful `Initialize` leaves a device. -/
theorem Initialize_device (self : Renderer) (hwndTaskbar hwndStart : Nat) (env : InitEnv)
    (h : (self.Initialize hwndTaskbar hwndStart env).2 = true) :
    (self.Initialize hwndTaskbar hwndStart env).1.m_dcompDevice = true := by
  unfold Initialize at h ⊢
  simp only at h ⊢
  split_ifs at h ⊢ with h1 h2 h3 h4 h5
  all_goals first
    | exact absurd h (by decide)
    | (rw [CommitNow_keeps_device]
       exact h1)

/-- What `OnDeferredCommit` leaves in the pending flag. -/
theorem OnDeferredCommit_pending (self : Renderer) (env : RenderEnv) :
    (self.OnDeferredCommit env).m_pendingCommit =
      (self.m_pendingCommit && !self.m_dcompDevice) := by
  unfold OnDeferredCommit CommitNow
  cases hp : self.m_pendingCommit <;> cases hd : self.m_dcompDevice <;> simp [hp, hd]

/-- C15, amended.  An invocation of `OnDeferredCommit` with a commit pending on a
renderer that has a device makes exactly one compositor call, the commit, records
its time and leaves the pending flag false, whatever the time since the last
commit.  An invocation with no commit pending (for instance because an immediate
commit cleared the flag after the request was posted) does nothing, and the flag
stays false.  An invocation with a commit pending on a renderer without a device
(after `Shutdown`) does nothing either, and the flag stays true.  So the flag
afterwards is true exactly when a commit was pending and there is no device; in
every execution that starts with a successful `Initialize` and goes on with
opacity calls, enable calls and deferred callbacks, the device is there and
every invocation leaves the flag false. -/
theorem deferred_callback_amended (self : Renderer) (env : RenderEnv) :
    (self.m_pendingCommit = true → self.m_dcompDevice = true →
        (self.OnDeferredCommit env).calls =
            self.calls ++ [RenderCall.DeviceCommit env.commitOk] ∧
          (self.OnDeferredCommit env).m_lastCommit = env.commitTime ∧
          (self.OnDeferredCommit env).m_pendingCommit = false) ∧
      (self.m_pendingCommit = false →
        self.OnDeferredCommit env = self ∧
          (self.OnDeferredCommit env).m_pendingCommit = false) ∧
      (self.m_pendingCommit = true → self.m_dcompDevice = false →
        self.OnDeferredCommit env = self ∧
          (self.OnDeferredCommit env).m_pendingCommit = true) ∧
      (self.OnDeferredCommit env).m_pendingCommit =
        (self.m_pendingCommit && !self.m_dcompDevice) ∧
      (∀ (start : Renderer) (hwndTaskbar hwndStart : Nat) (init : InitEnv) (cs : List Call),
        (Initialize start hwndTaskbar hwndStart init).2 = true →
        (∀ c ∈ cs, c.isChange = true ∨ ∃ e, c = Call.OnDeferredCommit e) →
        (((Initialize start hwndTaskbar hwndStart init).1.calls_run cs).OnDeferredCommit
          env).m_pendingCommit = false) := by
  refine ⟨?_, ?_, ?_, OnDeferredCommit_pending self env, ?_⟩
  · intro hp hdev
    unfold OnDeferredCommit
    rw [if_pos hp, CommitNow_device _ _ hdev]
    exact ⟨rfl, rfl, rfl⟩
  · intro hp
    unfold OnDeferredCommit
    simp [hp]
  · intro hp hdev
    have hself : self.OnDeferredCommit env = self := by
      unfold OnDeferredCommit
      rw [if_pos hp, CommitNow_no_device _ _ hdev]
    rw [hself]
    exact ⟨rfl, hp⟩
  · intro start hwndTaskbar hwndStart init cs hinit hcs
    rw [OnDeferredCommit_pending, calls_run_device cs _ hcs,
      Initialize_device start hwndTaskbar hwndStart init hinit]
    simp

set_option maxRecDepth 8000 in
/-- The amended C15 on the initialised renderer with a change deferred at 1 ms:
the callback, run a full second later, commits and clears the flag; when the
renderer is shut down before the callback runs, the callback does nothing and
the flag stays true. -/
theorem deferred_callback_amended_witness :
    (((initialized.call (Call.SetTaskbarOpacity F32.one (atMs 1))).OnDeferredCommit
        (atMs 1001)).calls =
        (initialized.call (Call.SetTaskbarOpacity F32.one (atMs 1))).calls ++
          [RenderCall.DeviceCommit true] ∧
      ((initialized.call (Call.SetTaskbarOpacity F32.one (atMs 1))).OnDeferredCommit
        (atMs 1001)).m_pendingCommit = false) ∧
      (((initialized.call (Call.SetTaskbarOpacity F32.one (atMs 1))).Shutdown.OnDeferredCommit
        (atMs 1001)) =
        (initialized.call (Call.SetTaskbarOpacity F32.one (atMs 1))).Shutdown ∧
      ((initialized.call (Call.SetTaskbarOpacity F32.one (atMs 1))).Shutdown.OnDeferredCommit
        (atMs 1001)).m_pendingCommit = true) :=
  have h := (deferred_callback_amended (initialized.call (Call.SetTaskbarOpacity F32.one (atMs 1)))
    (atMs 1001)).1 (by decide) (by decide)
  have k := (deferred_callback_amended
    (initialized.call (Call.SetTaskbarOpacity F32.one (atMs 1))).Shutdown
    (atMs 1001)).2.2.1 (by decide) (by decide)
  ⟨⟨h.1, h.2.2⟩, k⟩

/-! ### Idempotence and the enable flag -/

/-- C11.  For every renderer state and every value `v`, a second
`SetTaskbarOpacity(v)` (resp. `SetStartOpacity(v)`) right after the first leaves
the renderer exactly as the first left it: no data member changes, no compositor
call is made, no commit is scheduled.  Hence, on a renderer with a device, for
an enabled surface with a visual whose target differs from `1.0` by `0.01f` or
more and a compositor that accepts the new opacity, `SetOpacity(1.0)` twice in a
row produces exactly one commit: either at once, or by the deferred callback
that follows. -/
theorem opacity_idempotent (self : Renderer) (v : F32) (env1 env2 env3 : RenderEnv) :
    (self.SetTaskbarOpacity v env1).SetTaskbarOpacity v env2 =
        self.SetTaskbarOpacity v env1 ∧
      (self.SetStartOpacity v env1).SetStartOpacity v env2 = self.SetStartOpacity v env1 ∧
      (self.m_dcompDevice = true → self.m_visualTaskbar.isSome = true →
        self.m_taskbarEnabled = true → env1.setOpacityOk = true →
        F32.c0_01 ≤ F32.abs (F32.sub self.m_taskbarOpacity F32.one) →
        commitCount (((self.SetTaskbarOpacity F32.one env1).SetTaskbarOpacity F32.one
            env2).OnDeferredCommit env3).calls = commitCount self.calls + 1 ∧
          (commitCount ((self.SetTaskbarOpacity F32.one env1).SetTaskbarOpacity F32.one
              env2).calls = commitCount self.calls + 1 ∨
            ((self.SetTaskbarOpacity F32.one env1).SetTaskbarOpacity F32.one
              env2).m_pendingCommit = true)) ∧
      (self.m_dcompDevice = true → self.m_visualStart.isSome = true →
        self.m_startEnabled = true → env1.setOpacityOk = true →
        F32.c0_01 ≤ F32.abs (F32.sub self.m_startOpacity F32.one) →
        commitCount (((self.SetStartOpacity F32.one env1).SetStartOpacity F32.one
            env2).OnDeferredCommit env3).calls = commitCount self.calls + 1 ∧
          (commitCount ((self.SetStartOpacity F32.one env1).SetStartOpacity F32.one
              env2).calls = commitCount self.calls + 1 ∨
            ((self.SetStartOpacity F32.one env1).SetStartOpacity F32.one
              env2).m_pendingCommit = true)) := by
  have hone : F32.clamp F32.one F32.zero F32.one = F32.one := by decide
  have hcore : ∀ c : Call, self.reachesSchedule c = true → self.m_dcompDevice = true →
      commitCount ((self.call c).OnDeferredCommit env3).calls = commitCount self.calls + 1 ∧
        (commitCount (self.call c).calls = commitCount self.calls + 1 ∨
          (self.call c).m_pendingCommit = true) := by
    intro c hreach hdev
    rcases lt_or_le (self.elapsedMs c.renderEnv) 16 with hel | hel
    · obtain ⟨h1, _, _, h4, h5, _⟩ := change_in_window self c hreach hel
      refine ⟨?_, Or.inr h5⟩
      unfold OnDeferredCommit
      rw [if_pos h5, CommitNow_device _ _ (h4.trans hdev)]
      simp [h1]
    · obtain ⟨h1, _, _, h4⟩ := change_after_window self c hreach hel hdev
      refine ⟨?_, Or.inl h1⟩
      unfold OnDeferredCommit
      simp [h4, h1]
  refine ⟨SetTaskbarOpacity_twice self v env1 env2, SetStartOpacity_twice self v env1 env2,
    ?_, ?_⟩
  · intro hdev hvis hen hok hdiff
    rw [SetTaskbarOpacity_twice]
    apply hcore (Call.SetTaskbarOpacity F32.one env1) _ hdev
    simp [reachesSchedule, hone, hvis, hen, hok, not_lt.mpr hdiff]
  · intro hdev hvis hen hok hdiff
    rw [SetStartOpacity_twice]
    apply hcore (Call.SetStartOpacity F32.one env1) _ hdev
    simp [reachesSchedule, hone, hvis, hen, hok, not_lt.mpr hdiff]

set_option maxRecDepth 8000 in
/-- C11 on the initialised renderer (taskbar target `0.75`): `SetOpacity(1.0)`
twice at 20 ms commits exactly once. -/
theorem opacity_idempotent_witness :
    commitCount (((initialized.SetTaskbarOpacity F32.one (atMs 20)).SetTaskbarOpacity F32.one
        (atMs 20)).OnDeferredCommit (atMs 21)).calls = commitCount initialized.calls + 1 :=
  ((opacity_idempotent initialized F32.one (atMs 20) (atMs 20) (atMs 21)).2.2.1
    (by decide) (by decide) (by decide) (by decide) (by decide)).1

/-- The opacity property of the visuals survives `ScheduleCommit`. -/
theorem ScheduleCommit_visuals (self : Renderer) (env : RenderEnv) :
    (self.ScheduleCommit env).m_visualTaskbar = self.m_visualTaskbar ∧
      (self.ScheduleCommit env).m_visualStart = self.m_visualStart := by
  have h1 := congrArg Renderer.m_visualTaskbar (ScheduleCommit_frame self env)
  have h2 := congrArg Renderer.m_visualStart (ScheduleCommit_frame self env)
  exact ⟨h1, h2⟩

/-- What an enable call does to the visual of its surface. -/
theorem SetTaskbarEnabled_visual (self : Renderer) (enabled : Bool) (env : RenderEnv) :
    (self.SetTaskbarEnabled enabled env).m_visualTaskbar =
      visualSetOpacity self.m_visualTaskbar
        (if enabled then self.m_taskbarOpacity else F32.zero) env.setOpacityOk := by
  unfold SetTaskbarEnabled
  cases hv : self.m_visualTaskbar <;> simp [hv, ScheduleCommit_visuals, visualSetOpacity]

theorem SetStartEnabled_visual (self : Renderer) (enabled : Bool) (env : RenderEnv) :
    (self.SetStartEnabled enabled env).m_visualStart =
      visualSetOpacity self.m_visualStart
        (if enabled then self.m_startOpacity else F32.zero) env.setOpacityOk := by
  unfold SetStartEnabled
  cases hv : self.m_visualStart <;> simp [hv, ScheduleCommit_visuals, visualSetOpacity]

theorem visualSetOpacity_ok (visual : Option F32) (opacity : F32)
    (h : visual.isSome = true) : visualSetOpacity visual opacity true = some opacity := by
  cases visual with
  | none => exact absurd h (by simp)
  | some old => rfl

/-- C12.  For every renderer state, `SetTaskbarEnabled(b)` and
`SetStartEnabled(b)` change neither stored opacity target.  When the surface has
a visual and the compositor accepts the call, the opacity held by the visual
after `SetEnabled(false)` is `0`, and after `SetEnabled(false)` followed directly
by `SetEnabled(true)` it is the target stored before disabling. -/
theorem enable_orthogonal (self : Renderer) (b : Bool) (env1 env2 : RenderEnv) :
    ((self.SetTaskbarEnabled b env1).m_taskbarOpacity = self.m_taskbarOpacity ∧
        (self.SetTaskbarEnabled b env1).m_startOpacity = self.m_startOpacity ∧
        (self.SetStartEnabled b env1).m_taskbarOpacity = self.m_taskbarOpacity ∧
        (self.SetStartEnabled b env1).m_startOpacity = self.m_startOpacity) ∧
      (self.m_visualTaskbar.isSome = true → env1.setOpacityOk = true →
        (self.SetTaskbarEnabled false env1).m_visualTaskbar = some F32.zero ∧
          (env2.setOpacityOk = true →
            ((self.SetTaskbarEnabled false env1).SetTaskbarEnabled true env2).m_visualTaskbar =
              some self.m_taskbarOpacity)) ∧
      (self.m_visualStart.isSome = true → env1.setOpacityOk = true →
        (self.SetStartEnabled false env1).m_visualStart = some F32.zero ∧
          (env2.setOpacityOk = true →
            ((self.SetStartEnabled false env1).SetStartEnabled true env2).m_visualStart =
              some self.m_startOpacity)) := by
  refine ⟨⟨(SetTaskbarEnabled_targets self b env1).1, (SetTaskbarEnabled_targets self b env1).2,
    (SetStartEnabled_targets self b env1).1, (SetStartEnabled_targets self b env1).2⟩, ?_, ?_⟩
  · intro hvis hok1
    have hoff : (self.SetTaskbarEnabled false env1).m_visualTaskbar = some F32.zero := by
      rw [SetTaskbarEnabled_visual, hok1]
      exact visualSetOpacity_ok _ _ hvis
    refine ⟨hoff, fun hok2 => ?_⟩
    rw [SetTaskbarEnabled_visual, hok2, hoff, (SetTaskbarEnabled_targets self false env1).1]
    rfl
  · intro hvis hok1
    have hoff : (self.SetStartEnabled false env1).m_visualStart = some F32.zero := by
      rw [SetStartEnabled_visual, hok1]
      exact visualSetOpacity_ok _ _ hvis
    refine ⟨hoff, fun hok2 => ?_⟩
    rw [SetStartEnabled_visual, hok2, hoff, (SetStartEnabled_targets self false env1).2]
    rfl

set_option maxRecDepth 8000 in
/-- C12 on the initialised renderer: disabling the taskbar overlay puts `0` on
its visual, re-enabling puts the stored `0.75` back. -/
theorem enable_orthogonal_witness :
    (initialized.SetTaskbarEnabled false (atMs 1)).m_visualTaskbar = some F32.zero ∧
      ((initialized.SetTaskbarEnabled false (atMs 1)).SetTaskbarEnabled true
        (atMs 2)).m_visualTaskbar = some F32.c0_75 :=
  have h := (enable_orthogonal initialized false (atMs 1) (atMs 2)).2.1 (by decide) (by decide)
  ⟨h.1, h.2 (by decide)⟩

/-! ### Frame of `SetStartEnabled` -/

/-- `SetStartEnabled` touches the start flag, the start visual, the commit
bookkeeping and the call trace, and nothing else. -/
theorem SetStartEnabled_frame (self : Renderer) (enabled : Bool) (env : RenderEnv) :
    self.SetStartEnabled enabled env =
      { self with
        m_startEnabled := enabled
        m_visualStart := (self.SetStartEnabled enabled env).m_visualStart
        calls := (self.SetStartEnabled enabled env).calls
        m_lastCommit := (self.SetStartEnabled enabled env).m_lastCommit
        m_pendingCommit := (self.SetStartEnabled enabled env).m_pendingCommit } := by
  unfold SetStartEnabled ScheduleCommit CommitNow
  simp only
  split_ifs <;> rfl

/-! ### The opacity applied to the visuals -/

theorem lastApplied_snoc (surface : Surface) (cs : List RenderCall) (c : RenderCall) :
    lastApplied surface (cs ++ [c]) =
      match c with
      | RenderCall.VisualSetOpacity s o true => if s = surface then some o else lastApplied surface cs
      | _ => lastApplied surface cs := by
  unfold lastApplied
  rw [List.foldl_append]
  rfl

theorem lastApplied_commit (surface : Surface) (cs : List RenderCall) (ok : Bool) :
    lastApplied surface (cs ++ [RenderCall.DeviceCommit ok]) = lastApplied surface cs := by
  rw [lastApplied_snoc]

theorem lastApplied_post (surface : Surface) (cs : List RenderCall) (hwnd : Nat) :
    lastApplied surface (cs ++ [RenderCall.PostCommitMessage hwnd]) = lastApplied surface cs := by
  rw [lastApplied_snoc]

theorem lastApplied_accepted (surface s : Surface) (cs : List RenderCall) (o : F32) :
    lastApplied surface (cs ++ [RenderCall.VisualSetOpacity s o true]) =
      if s = surface then some o else lastApplied surface cs := by
  rw [lastApplied_snoc]

theorem lastApplied_rejected (surface s : Surface) (cs : List RenderCall) (o : F32) :
    lastApplied surface (cs ++ [RenderCall.VisualSetOpacity s o false]) =
      lastApplied surface cs := by
  rw [lastApplied_snoc]

theorem CommitNow_lastApplied (self : Renderer) (env : RenderEnv) (surface : Surface) :
    lastApplied surface (self.CommitNow env).calls = lastApplied surface self.calls := by
  unfold CommitNow
  split_ifs
  · exact lastApplied_commit _ _ _
  · rfl

theorem ScheduleCommit_lastApplied (self : Renderer) (env : RenderEnv) (surface : Surface) :
    lastApplied surface (self.ScheduleCommit env).calls = lastApplied surface self.calls := by
  unfold ScheduleCommit
  simp only
  split_ifs
  · exact CommitNow_lastApplied _ _ _
  · rfl
  · exact lastApplied_post _ _ _
  · rfl

/-- `ScheduleCommit` leaves flags, targets and visuals alone. -/
theorem ScheduleCommit_surfaces (self : Renderer) (env : RenderEnv) (surface : Surface) :
    (self.ScheduleCommit env).visual surface = self.visual surface ∧
      (self.ScheduleCommit env).effectiveOpacity surface = self.effectiveOpacity surface := by
  have h := ScheduleCommit_frame self env
  have h1 := congrArg Renderer.m_visualTaskbar h
  have h2 := congrArg Renderer.m_visualStart h
  have h3 := congrArg Renderer.m_taskbarOpacity h
  have h4 := congrArg Renderer.m_startOpacity h
  have h5 := congrArg Renderer.m_taskbarEnabled h
  have h6 := congrArg Renderer.m_startEnabled h
  simp only at h1 h2 h3 h4 h5 h6
  cases surface <;> simp only [visual, effectiveOpacity, h1, h2, h3, h4, h5, h6] <;> trivial

theorem ScheduleCommit_appliedMatches (self : Renderer) (env : RenderEnv)
    (h : self.appliedMatches) : (self.ScheduleCommit env).appliedMatches := by
  intro surface
  rw [(ScheduleCommit_surfaces self env surface).1, (ScheduleCommit_surfaces self env surface).2,
    ScheduleCommit_lastApplied]
  exact h surface

theorem OnDeferredCommit_appliedMatches (self : Renderer) (env : RenderEnv)
    (h : self.appliedMatches) : (self.OnDeferredCommit env).appliedMatches := by
  unfold OnDeferredCommit
  split_ifs
  · intro surface
    have hf := CommitNow_frame self env
    have h1 := congrArg Renderer.m_visualTaskbar hf
    have h2 := congrArg Renderer.m_visualStart hf
    have h3 := congrArg Renderer.m_taskbarOpacity hf
    have h4 := congrArg Renderer.m_startOpacity hf
    have h5 := congrArg Renderer.m_taskbarEnabled hf
    have h6 := congrArg Renderer.m_startEnabled hf
    simp only at h1 h2 h3 h4 h5 h6
    have := h surface
    rw [CommitNow_lastApplied]
    cases surface <;> simp only [visual, effectiveOpacity, h1, h2, h3, h4, h5, h6] at this ⊢ <;>
      exact this
  · exact h

theorem SetTaskbarOpacity_appliedMatches (self : Renderer) (v : F32) (env : RenderEnv)
    (hok : env.setOpacityOk = true) (h : self.appliedMatches) :
    (self.SetTaskbarOpacity v env).appliedMatches := by
  have hT := h Surface.Taskbar
  have hS := h Surface.Start
  simp only [visual, effectiveOpacity] at hT hS
  unfold SetTaskbarOpacity
  simp only
  split_ifs with hsame hvis
  · exact h
  · apply ScheduleCommit_appliedMatches
    intro surface
    cases surface
    · simp only [visual, effectiveOpacity, hvis.2, if_true, lastApplied_accepted, hok]
      rw [hT.1]
      simp [visualSetOpacity]
    · simp only [visual, effectiveOpacity, lastApplied_accepted, hok]
      exact ⟨hS.1, by simpa using hS.2⟩
  · intro surface
    have hdis : self.m_taskbarEnabled = false := by
      cases he : self.m_taskbarEnabled
      · rfl
      · exfalso
        apply hvis
        rw [hT.1]
        exact ⟨rfl, he⟩
    cases surface
    · simp only [visual, effectiveOpacity, hdis] at hT ⊢
      exact hT
    · simp only [visual, effectiveOpacity]
      exact hS

theorem SetStartOpacity_appliedMatches (self : Renderer) (v : F32) (env : RenderEnv)
    (hok : env.setOpacityOk = true) (h : self.appliedMatches) :
    (self.SetStartOpacity v env).appliedMatches := by
  have hT := h Surface.Taskbar
  have hS := h Surface.Start
  simp only [visual, effectiveOpacity] at hT hS
  unfold SetStartOpacity
  simp only
  split_ifs with hsame hvis
  · exact h
  · apply ScheduleCommit_appliedMatches
    intro surface
    cases surface
    · simp only [visual, effectiveOpacity, lastApplied_accepted, hok]
      exact ⟨hT.1, by simpa using hT.2⟩
    · simp only [visual, effectiveOpacity, hvis.2, if_true, lastApplied_accepted, hok]
      rw [hS.1]
      simp [visualSetOpacity]
  · intro surface
    have hdis : self.m_startEnabled = false := by
      cases he : self.m_startEnabled
      · rfl
      · exfalso
        apply hvis
        rw [hS.1]
        exact ⟨rfl, he⟩
    cases surface
    · simp only [visual, effectiveOpacity]
      exact hT
    · simp only [visual, effectiveOpacity, hdis] at hS ⊢
      exact hS

theorem SetTaskbarEnabled_appliedMatches (self : Renderer) (b : Bool) (env : RenderEnv)
    (hok : env.setOpacityOk = true) (h : self.appliedMatches) :
    (self.SetTaskbarEnabled b env).appliedMatches := by
  have hT := h Surface.Taskbar
  have hS := h Surface.Start
  simp only [visual, effectiveOpacity] at hT hS
  unfold SetTaskbarEnabled
  simp only
  rw [if_pos (by rw [hT.1]; rfl)]
  apply ScheduleCommit_appliedMatches
  intro surface
  cases surface
  · simp [visual, effectiveOpacity, lastApplied_accepted, hok, hT.1, visualSetOpacity]
  · simp only [visual, effectiveOpacity, lastApplied_accepted, hok]
    exact ⟨hS.1, by simpa using hS.2⟩

theorem SetStartEnabled_appliedMatches (self : Renderer) (b : Bool) (env : RenderEnv)
    (hok : env.setOpacityOk = true) (h : self.appliedMatches) :
    (self.SetStartEnabled b env).appliedMatches := by
  have hT := h Surface.Taskbar
  have hS := h Surface.Start
  simp only [visual, effectiveOpacity] at hT hS
  unfold SetStartEnabled
  simp only
  rw [if_pos (by rw [hS.1]; rfl)]
  apply ScheduleCommit_appliedMatches
  intro surface
  cases surface
  · simp only [visual, effectiveOpacity, lastApplied_accepted, hok]
    exact ⟨hT.1, by simpa using hT.2⟩
  · simp [visual, effectiveOpacity, lastApplied_accepted, hok, hS.1, visualSetOpacity]

theorem call_appliedMatches (self : Renderer) (c : Call) (hc : c.acceptedChange)
    (h : self.appliedMatches) : (self.call c).appliedMatches := by
  rcases hc with ⟨hchange, hok⟩ | ⟨env, rfl⟩
  · cases c with
    | Initialize a b e => cases hchange
    | SetTaskbarOpacity v env => exact SetTaskbarOpacity_appliedMatches self v env hok h
    | SetStartOpacity v env => exact SetStartOpacity_appliedMatches self v env hok h
    | SetTaskbarEnabled b env => exact SetTaskbarEnabled_appliedMatches self b env hok h
    | SetStartEnabled b env => exact SetStartEnabled_appliedMatches self b env hok h
    | OnDeferredCommit env => cases hchange
    | Shutdown => cases hchange
  · exact OnDeferredCommit_appliedMatches self env h

theorem calls_run_appliedMatches (cs : List Call) :
    ∀ self : Renderer, (∀ c ∈ cs, c.acceptedChange) → self.appliedMatches →
      (self.calls_run cs).appliedMatches := by
  induction cs with
  | nil => exact fun _ _ h => h
  | cons c cs ih =>
    intro self hall h
    exact ih (self.call c) (fun d hd => hall d (List.mem_cons_of_mem c hd))
      (call_appliedMatches self c (hall c (List.mem_cons_self c cs)) h)

/-- A successful `Initialize` of the constructed renderer applies both default
targets. -/
theorem Initialize_appliedMatches (hwndTaskbar hwndStart : Nat) (env : InitEnv)
    (henv : env.allOk) :
    (Initialize {} hwndTaskbar hwndStart env).2 = true ∧
      (Initialize {} hwndTaskbar hwndStart env).1.appliedMatches := by
  obtain ⟨h1, h2, h3, h4, h5, h6, h7, h8⟩ := henv
  have hres : Initialize {} hwndTaskbar hwndStart env =
      ({ m_hwndHost := hwndTaskbar, m_dcompDevice := true, m_targetTaskbar := true,
         m_visualTaskbar := some F32.c0_75, m_targetStart := true,
         m_visualStart := some F32.c0_5, m_lastCommit := env.commitTime,
         calls := [RenderCall.VisualSetOpacity Surface.Taskbar F32.c0_75 true,
           RenderCall.VisualSetOpacity Surface.Start F32.c0_5 true,
           RenderCall.DeviceCommit true] }, true) := by
    unfold Initialize CommitNow
    simp [h1, h2, h3, h4, h5, h6, h7, h8, visualSetOpacity]
  rw [hres]
  refine ⟨rfl, ?_⟩
  intro surface
  cases surface <;> exact ⟨rfl, rfl⟩

/-- C28.  Assume the compositor accepts every call.  After `Initialize` of the
constructed renderer and after every sequence of `SetTaskbarOpacity`,
`SetTaskbarEnabled`, `SetStartOpacity` and `SetStartEnabled` calls (deferred
commit callbacks may come in between), for each surface the opacity held by its
visual, which is the opacity of the last `SetOpacity` call made for it, equals
the stored target when the surface is enabled and `0` when it is disabled. -/
theorem effective_opacity_invariant (hwndTaskbar hwndStart : Nat) (env : InitEnv)
    (cs : List Call) (henv : env.allOk) (hcs : ∀ c ∈ cs, c.acceptedChange) :
    (Initialize {} hwndTaskbar hwndStart env).2 = true ∧
      ((Initialize {} hwndTaskbar hwndStart env).1.calls_run cs).m_visualTaskbar =
        some (if ((Initialize {} hwndTaskbar hwndStart env).1.calls_run cs).m_taskbarEnabled
          then ((Initialize {} hwndTaskbar hwndStart env).1.calls_run cs).m_taskbarOpacity
          else F32.zero) ∧
      ((Initialize {} hwndTaskbar hwndStart env).1.calls_run cs).m_visualStart =
        some (if ((Initialize {} hwndTaskbar hwndStart env).1.calls_run cs).m_startEnabled
          then ((Initialize {} hwndTaskbar hwndStart env).1.calls_run cs).m_startOpacity
          else F32.zero) ∧
      ((Initialize {} hwndTaskbar hwndStart env).1.calls_run cs).appliedMatches := by
  obtain ⟨hinit, hm⟩ := Initialize_appliedMatches hwndTaskbar hwndStart env henv
  have h := calls_run_appliedMatches cs _ hcs hm
  exact ⟨hinit, (h Surface.Taskbar).1, (h Surface.Start).1, h⟩

set_option maxRecDepth 8000 in
/-- C28 on a renderer whose taskbar overlay is disabled, given the new target
`1.0`, and enabled again: the visual holds `0` while disabled and `1.0`
afterwards. -/
theorem effective_opacity_invariant_witness :
    ((Initialize {} 1 2 {}).1.calls_run
        [Call.SetTaskbarEnabled false (atMs 1),
          Call.SetTaskbarOpacity F32.one (atMs 2)]).m_visualTaskbar = some F32.zero ∧
      ((Initialize {} 1 2 {}).1.calls_run
        [Call.SetTaskbarEnabled false (atMs 1), Call.SetTaskbarOpacity F32.one (atMs 2),
          Call.SetTaskbarEnabled true (atMs 3)]).m_visualTaskbar = some F32.one := by
  have h1 := (effective_opacity_invariant 1 2 {}
    [Call.SetTaskbarEnabled false (atMs 1), Call.SetTaskbarOpacity F32.one (atMs 2)]
    (by unfold InitEnv.allOk; decide)
    (by
      intro c hc
      simp only [List.mem_cons, List.mem_singleton, List.not_mem_nil, or_false] at hc
      rcases hc with rfl | rfl <;> exact Or.inl ⟨rfl, rfl⟩)).2.1
  have h2 := (effective_opacity_invariant 1 2 {}
    [Call.SetTaskbarEnabled false (atMs 1), Call.SetTaskbarOpacity F32.one (atMs 2),
      Call.SetTaskbarEnabled true (atMs 3)]
    (by unfold InitEnv.allOk; decide)
    (by
      intro c hc
      simp only [List.mem_cons, List.mem_singleton, List.not_mem_nil, or_false] at hc
      rcases hc with rfl | rfl | rfl <;> exact Or.inl ⟨rfl, rfl⟩)).2.1
  refine ⟨h1.trans ?_, h2.trans ?_⟩
  · decide
  · decide

/-! ### A rejected opacity update -/

set_option maxRecDepth 8000 in
/-- C25 (the code departs from it).  When the compositor rejects the opacity
update inside `SetTaskbarOpacity(v)` (resp. `SetStartOpacity(v)`), made on an
enabled surface with a visual for a value that is not suppressed, the call makes
the rejected `SetOpacity` call and nothing else: no commit is made or
scheduled, and the visual keeps the opacity it had.  But the stored opacity, which
is what the next call compares its argument with, already holds the rejected
value; so the same request repeated is suppressed: it returns the renderer
unchanged and makes no compositor call, whatever the compositor would answer.
On the initialised renderer, `SetTaskbarOpacity(1.0)` rejected at 20 ms and
repeated at 40 ms leaves the visual at `0.75` with the stored target `1.0`. -/
theorem rejected_opacity_not_retried :
    (∀ (self : Renderer) (v : F32) (env : RenderEnv),
        self.m_visualTaskbar.isSome = true → self.m_taskbarEnabled = true →
        env.setOpacityOk = false →
        ¬ F32.abs (F32.sub self.m_taskbarOpacity (F32.clamp v F32.zero F32.one)) < F32.c0_01 →
        (self.SetTaskbarOpacity v env).calls =
            self.calls ++ [RenderCall.VisualSetOpacity Surface.Taskbar
              (F32.clamp v F32.zero F32.one) false] ∧
          (self.SetTaskbarOpacity v env).m_pendingCommit = self.m_pendingCommit ∧
          (self.SetTaskbarOpacity v env).m_lastCommit = self.m_lastCommit ∧
          (self.SetTaskbarOpacity v env).m_visualTaskbar = self.m_visualTaskbar ∧
          (self.SetTaskbarOpacity v env).m_taskbarOpacity = F32.clamp v F32.zero F32.one ∧
          ∀ retry : RenderEnv,
            (self.SetTaskbarOpacity v env).SetTaskbarOpacity v retry =
              self.SetTaskbarOpacity v env) ∧
      (∀ (self : Renderer) (v : F32) (env : RenderEnv),
        self.m_visualStart.isSome = true → self.m_startEnabled = true →
        env.setOpacityOk = false →
        ¬ F32.abs (F32.sub self.m_startOpacity (F32.clamp v F32.zero F32.one)) < F32.c0_01 →
        (self.SetStartOpacity v env).calls =
            self.calls ++ [RenderCall.VisualSetOpacity Surface.Start
              (F32.clamp v F32.zero F32.one) false] ∧
          (self.SetStartOpacity v env).m_pendingCommit = self.m_pendingCommit ∧
          (self.SetStartOpacity v env).m_lastCommit = self.m_lastCommit ∧
          (self.SetStartOpacity v env).m_visualStart = self.m_visualStart ∧
          (self.SetStartOpacity v env).m_startOpacity = F32.clamp v F32.zero F32.one ∧
          ∀ retry : RenderEnv,
            (self.SetStartOpacity v env).SetStartOpacity v retry =
              self.SetStartOpacity v env) ∧
      (initialized.SetTaskbarOpacity F32.one (rejectAtMs 20)).m_visualTaskbar =
        some F32.c0_75 ∧
      ((initialized.SetTaskbarOpacity F32.one (rejectAtMs 20)).SetTaskbarOpacity F32.one
        (atMs 40)).m_visualTaskbar = some F32.c0_75 ∧
      ((initialized.SetTaskbarOpacity F32.one (rejectAtMs 20)).SetTaskbarOpacity F32.one
        (atMs 40)).m_taskbarOpacity = F32.one ∧
      ((initialized.SetTaskbarOpacity F32.one (rejectAtMs 20)).SetTaskbarOpacity F32.one
        (atMs 40)).calls =
        initialized.calls ++ [RenderCall.VisualSetOpacity Surface.Taskbar F32.one false] ∧
      lastApplied Surface.Taskbar
        ((initialized.SetTaskbarOpacity F32.one (rejectAtMs 20)).SetTaskbarOpacity F32.one
          (atMs 40)).calls = some F32.c0_75 := by
  refine ⟨?_, ?_, by decide, by decide, by decide, by decide, by decide⟩
  · intro self v env hvis hen hok hdiff
    have hres : self.SetTaskbarOpacity v env =
        { self with
          m_taskbarOpacity := F32.clamp v F32.zero F32.one
          m_visualTaskbar := self.m_visualTaskbar
          calls := self.calls ++ [RenderCall.VisualSetOpacity Surface.Taskbar
            (F32.clamp v F32.zero F32.one) false] } := by
      unfold SetTaskbarOpacity
      cases hv : self.m_visualTaskbar with
      | none => rw [hv] at hvis; cases hvis
      | some o => simp [hdiff, hen, hok, visualSetOpacity]
    refine ⟨?_, ?_, ?_, ?_, ?_, fun retry => SetTaskbarOpacity_twice self v env retry⟩ <;>
      rw [hres]
  · intro self v env hvis hen hok hdiff
    have hres : self.SetStartOpacity v env =
        { self with
          m_startOpacity := F32.clamp v F32.zero F32.one
          m_visualStart := self.m_visualStart
          calls := self.calls ++ [RenderCall.VisualSetOpacity Surface.Start
            (F32.clamp v F32.zero F32.one) false] } := by
      unfold SetStartOpacity
      cases hv : self.m_visualStart with
      | none => rw [hv] at hvis; cases hvis
      | some o => simp [hdiff, hen, hok, visualSetOpacity]
    refine ⟨?_, ?_, ?_, ?_, ?_, fun retry => SetStartOpacity_twice self v env retry⟩ <;>
      rw [hres]

end Renderer

/-! ## Properties of the text functions -/

namespace Str

/-! ### Decimal text of integers -/

theorem digitChar_spec (k : Nat) (h : k < 10) :
    (Nat.digitChar k).isDigit = true ∧ (Nat.digitChar k).toNat - 48 = k := by
  interval_cases k <;> exact ⟨rfl, rfl⟩

theorem foldl_digits (ds : List Char) (acc : Nat) :
    ds.foldl (fun acc d => 10 * acc + (d.toNat - 48)) acc =
      acc * 10 ^ ds.length + digitsValue ds := by
  unfold digitsValue
  induction ds generalizing acc with
  | nil => simp
  | cons d ds ih =>
    simp only [List.foldl_cons, List.length_cons]
    rw [ih (10 * acc + (d.toNat - 48)), ih (10 * 0 + (d.toNat - 48))]
    ring

theorem digitsValue_cons (d : Char) (ds : List Char) :
    digitsValue (d :: ds) = (d.toNat - 48) * 10 ^ ds.length + digitsValue ds := by
  have h := foldl_digits ds (10 * 0 + (d.toNat - 48))
  unfold digitsValue at h ⊢
  simp only [List.foldl_cons]
  rw [h]
  ring

theorem toDigitsCore_spec : ∀ (fuel n : Nat) (ds : List Char), n < fuel →
    (∀ c ∈ ds, c.isDigit = true) →
    (∀ c ∈ Nat.toDigitsCore 10 fuel n ds, c.isDigit = true) ∧
      digitsValue (Nat.toDigitsCore 10 fuel n ds) = n * 10 ^ ds.length + digitsValue ds ∧
      Nat.toDigitsCore 10 fuel n ds ≠ [] := by
  intro fuel
  induction fuel with
  | zero => intro n ds h; omega
  | succ fuel ih =>
    intro n ds hn hds
    have hd := digitChar_spec (n % 10) (Nat.mod_lt n (by norm_num))
    have hds' : ∀ c ∈ Nat.digitChar (n % 10) :: ds, c.isDigit = true := by
      intro c hc
      rcases List.mem_cons.mp hc with h | h
      · rw [h]; exact hd.1
      · exact hds c h
    simp only [Nat.toDigitsCore]
    by_cases h0 : n / 10 = 0
    · simp only [h0, if_true]
      refine ⟨hds', ?_, List.cons_ne_nil _ _⟩
      rw [digitsValue_cons, hd.2]
      have : n % 10 = n := Nat.mod_eq_of_lt (by omega)
      rw [this]
    · simp only [h0, if_false]
      obtain ⟨h1, h2, h3⟩ := ih (n / 10) (Nat.digitChar (n % 10) :: ds) (by omega) hds'
      refine ⟨h1, ?_, h3⟩
      rw [h2, digitsValue_cons, hd.2, List.length_cons, pow_succ]
      have := Nat.div_add_mod n 10
      calc n / 10 * (10 ^ ds.length * 10) + (n % 10 * 10 ^ ds.length + digitsValue ds)
          = (10 * (n / 10) + n % 10) * 10 ^ ds.length + digitsValue ds := by ring
        _ = n * 10 ^ ds.length + digitsValue ds := by rw [this]

/-- The decimal digits of a natural number: a non-empty run of digit
characters whose value is the number. -/
theorem toDigits_spec (n : Nat) :
    (∀ c ∈ Nat.toDigits 10 n, c.isDigit = true) ∧ digitsValue (Nat.toDigits 10 n) = n ∧
      Nat.toDigits 10 n ≠ [] := by
  obtain ⟨h1, h2, h3⟩ := toDigitsCore_spec (n + 1) n [] (by omega) (by simp)
  refine ⟨h1, ?_, h3⟩
  unfold Nat.toDigits
  rw [h2]
  simp [digitsValue]

/-- The text `operator<<` writes for an `int`: an optional minus sign and the
decimal digits of the magnitude. -/
theorem toString_int (n : Int) :
    ∃ ds : List Char, (∀ c ∈ ds, c.isDigit = true) ∧ ds ≠ [] ∧
      digitsValue ds = n.natAbs ∧
      (toString n).toList = if n < 0 then '-' :: ds else ds := by
  cases n with
  | ofNat m =>
    obtain ⟨h1, h2, h3⟩ := toDigits_spec m
    refine ⟨Nat.toDigits 10 m, h1, h3, by simpa using h2, ?_⟩
    have : ¬ (Int.ofNat m < 0) := by simp
    rw [if_neg this]
    rfl
  | negSucc m =>
    obtain ⟨h1, h2, h3⟩ := toDigits_spec (m + 1)
    refine ⟨Nat.toDigits 10 (m + 1), h1, h3, by simpa using h2, ?_⟩
    have : Int.negSucc m < 0 := Int.negSucc_lt_zero m
    rw [if_pos this]
    rfl

/-! ### Reading an integer back -/

theorem isSpace_of_digit (c : Char) (h : c.isDigit = true) : isSpace c = false := by
  cases hs : isSpace c
  · rfl
  · exfalso
    simp only [isSpace, Bool.or_eq_true, decide_eq_true_eq] at hs
    rcases hs with ((((hs | hs) | hs) | hs) | hs) | hs <;> rw [hs] at h <;> revert h <;> decide

theorem ne_of_digit (c x : Char) (h : c.isDigit = true) (hx : x.isDigit = false) : c ≠ x := by
  intro hcx
  rw [hcx, hx] at h
  exact Bool.noConfusion h

theorem takeWhile_run (p : Char → Bool) (ds rest : List Char) (hds : ∀ c ∈ ds, p c = true)
    (hrest : ∀ c, rest.head? = some c → p c = false) :
    (ds ++ rest).takeWhile p = ds := by
  induction ds with
  | nil =>
    cases rest with
    | nil => rfl
    | cons r rs =>
      simp only [List.nil_append, List.takeWhile_cons]
      rw [hrest r rfl]
      rfl
  | cons d ds ih =>
    simp only [List.cons_append, List.takeWhile_cons, hds d (List.mem_cons_self d ds), if_true]
    rw [ih (fun c hc => hds c (List.mem_cons_of_mem d hc))]

/-- `std::stoi` gives back an `int` written in decimal, whatever follows it,
as long as no digit follows it directly. -/
theorem stoi_int (n : Int) (ds rest : List Char) (hds : ∀ c ∈ ds, c.isDigit = true)
    (hne : ds ≠ []) (hval : digitsValue ds = n.natAbs)
    (hrest : ∀ c, rest.head? = some c → c.isDigit = false)
    (hrange : -2147483648 ≤ n ∧ n ≤ 2147483647) :
    stoi ((if n < 0 then '-' :: ds else ds) ++ rest) = Except.ok n := by
  have htake := takeWhile_run Char.isDigit ds rest hds hrest
  obtain ⟨d, ds', hcons⟩ : ∃ d ds', ds = d :: ds' := by
    cases ds with
    | nil => exact absurd rfl hne
    | cons d ds' => exact ⟨d, ds', rfl⟩
  have hd : d.isDigit = true := hds d (by rw [hcons]; exact List.mem_cons_self d ds')
  unfold stoi
  by_cases hneg : n < 0
  · simp only [hneg, if_true]
    have h1 : (('-' :: ds) ++ rest).dropWhile isSpace = '-' :: (ds ++ rest) := by
      simp [List.dropWhile_cons, isSpace]
    simp only [h1, List.head?_cons, true_or, if_true, List.tail_cons, htake, hne, if_false]
    have hv : -((digitsValue ds : Nat) : Int) = n := by
      rw [hval]
      omega
    simp only [decide_True, if_true, hv]
    have : ¬ (n < -2147483648 ∨ 2147483647 < n) := by omega
    rw [if_neg this]
  · simp only [hneg, if_false]
    have h1 : (ds ++ rest).dropWhile isSpace = ds ++ rest := by
      rw [hcons]
      simp [List.dropWhile_cons, isSpace_of_digit d hd]
    have h2 : (ds ++ rest).head? = some d := by rw [hcons]; rfl
    have hm : d ≠ '-' := ne_of_digit d '-' hd (by decide)
    have hp : d ≠ '+' := ne_of_digit d '+' hd (by decide)
    simp only [h1, h2, Option.some.injEq, hm, hp, or_self, if_false, htake, hne]
    have hv : ((digitsValue ds : Nat) : Int) = n := by
      rw [hval]
      omega
    simp only [decide_False, hv]
    have : ¬ (n < -2147483648 ∨ 2147483647 < n) := by omega
    simp [this]

/-- The decimal text of an `int` consists of a minus sign and digits, and
`std::stoi` reads the `int` back from it whatever non-digit follows. -/
theorem intText (n : Int) (hrange : -2147483648 ≤ n ∧ n ≤ 2147483647) :
    (∀ c ∈ (toString n).toList, c = '-' ∨ c.isDigit = true) ∧
      ∀ rest : List Char, (∀ c, rest.head? = some c → c.isDigit = false) →
        stoi ((toString n).toList ++ rest) = Except.ok n := by
  obtain ⟨ds, hds, hne, hval, htext⟩ := toString_int n
  rw [htext]
  refine ⟨?_, fun rest hrest => stoi_int n ds rest hds hne hval hrest hrange⟩
  intro c hc
  split at hc
  · rcases List.mem_cons.mp hc with h | h
    · exact Or.inl h
    · exact Or.inr (hds c h)
  · exact Or.inr (hds c hc)

/-! ### Searching and splitting -/

theorem find_at_start (needle rest : List Char) : find needle (needle ++ rest) = some 0 := by
  cases h : needle ++ rest with
  | nil =>
    have : needle = [] := (List.append_eq_nil.mp h).1
    simp [find, this]
  | cons c cs =>
    have hp : needle.isPrefixOf (c :: cs) = true := by
      rw [← h, List.isPrefixOf_iff_prefix]
      exact List.prefix_append needle rest
    simp [find, hp]

theorem contains_at_start (needle rest : List Char) : contains needle (needle ++ rest) = true := by
  unfold contains
  rw [find_at_start]
  rfl

/-- A text that lacks one of the characters of `needle` does not contain
`needle`. -/
theorem find_none_of_not_mem (needle hay : List Char) (c : Char) (hc : c ∈ needle)
    (hn : c ∉ hay) : find needle hay = none := by
  have hne : needle ≠ [] := List.ne_nil_of_mem hc
  induction hay with
  | nil => simp [find, hne]
  | cons x xs ih =>
    have hp : needle.isPrefixOf (x :: xs) = false := by
      cases hpre : needle.isPrefixOf (x :: xs)
      · rfl
      · exfalso
        rw [List.isPrefixOf_iff_prefix] at hpre
        exact hn (hpre.subset hc)
    have hxs : c ∉ xs := fun h => hn (List.mem_cons_of_mem x h)
    simp [find, hp, ih hxs]

theorem contains_false_of_not_mem (needle hay : List Char) (c : Char) (hc : c ∈ needle)
    (hn : c ∉ hay) : contains needle hay = false := by
  unfold contains
  rw [find_none_of_not_mem needle hay c hc hn]
  rfl

/-- The first occurrence of a character. -/
theorem find_char (c : Char) (a rest : List Char) (h : c ∉ a) :
    find [c] (a ++ c :: rest) = some a.length := by
  induction a with
  | nil => simp [find, List.isPrefixOf]
  | cons x xs ih =>
    have hx : c ≠ x := fun hcx => h (hcx ▸ List.mem_cons_self c xs)
    have hxs : c ∉ xs := fun hm => h (List.mem_cons_of_mem x hm)
    simp [find, List.isPrefixOf, hx, ih hxs]

/-- A line without a line feed, followed by a line feed, is the next line
`std::getline` delivers. -/
theorem getlinesAux_line (l : List Char) (h : '\n' ∉ l) :
    ∀ cur rest : List Char,
      getlinesAux cur (l ++ '\n' :: rest) = (cur ++ l) :: getlinesAux [] rest := by
  induction l with
  | nil => intro cur rest; simp [getlinesAux]
  | cons x xs ih =>
    intro cur rest
    have hx : x ≠ '\n' := fun hcx => h (hcx ▸ List.mem_cons_self x xs)
    have hxs : '\n' ∉ xs := fun hm => h (List.mem_cons_of_mem x hm)
    simp [getlinesAux, hx, ih hxs]

theorem getlines_line (l rest : List Char) (h : '\n' ∉ l) :
    getlines (l ++ '\n' :: rest) = l :: getlines rest := by
  unfold getlines
  rw [getlinesAux_line l h]
  rfl


/-- `find` from a position within the text. -/
theorem findFrom_of_le (needle hay : List Char) (pos : Nat) (h : pos ≤ hay.length) :
    findFrom needle hay pos = (find needle (hay.drop pos)).map (fun i => i + pos) := by
  unfold findFrom
  rw [if_neg (Nat.not_lt.mpr h)]

end Str

/-! ## Properties of the configuration store -/

namespace ConfigManager

theorem not_mem_intText (T : List Char) (hT : ∀ c ∈ T, c = '-' ∨ c.isDigit = true)
    (x : Char) (hx1 : x ≠ '-') (hx2 : x.isDigit = false) : x ∉ T := by
  intro hmem
  rcases hT x hmem with h | h
  · exact hx1 h
  · rw [hx2] at h
    exact Bool.noConfusion h

theorem filter_space_intText (T : List Char) (hT : ∀ c ∈ T, c = '-' ∨ c.isDigit = true) :
    T.filter (fun c => !Str.isSpace c) = T := by
  rw [List.filter_eq_self]
  intro c hc
  rcases hT c hc with h | h
  · rw [h]; rfl
  · rw [Str.isSpace_of_digit c h]; rfl

theorem filter_comma_intText (T : List Char) (hT : ∀ c ∈ T, c = '-' ∨ c.isDigit = true) :
    (T ++ [',']).filter (fun c => c != ',') = T := by
  rw [List.filter_append]
  have h1 : T.filter (fun c => c != ',') = T := by
    rw [List.filter_eq_self]
    intro c hc
    have : c ≠ ',' := fun h => not_mem_intText T hT ',' (by decide) (by decide) (h ▸ hc)
    simp [this]
  rw [h1]
  simp

/-- The loop body of `Load` on the line `Save` writes for the taskbar opacity. -/
theorem loadLine_taskbarOpacity (config : Config) (T : List Char) (n : Int)
    (hT : ∀ c ∈ T, c = '-' ∨ c.isDigit = true) (hstoi : Str.stoi T = Except.ok n) :
    loadLine config ("  \"taskbarOpacity\": ".toList ++ (T ++ [','])) =
      Except.ok { config with taskbarOpacity := n } := by
  have hf : ("  \"taskbarOpacity\": ".toList ++ (T ++ [','])).filter
      (fun c => !Str.isSpace c) = "\"taskbarOpacity\":".toList ++ (T ++ [',']) := by
    rw [List.filter_append, List.filter_append, filter_space_intText T hT]
    rfl
  have hfind : Str.find [':'] ("\"taskbarOpacity\":".toList ++ (T ++ [','])) = some 16 := by
    have := Str.find_char ':' "\"taskbarOpacity\"".toList (T ++ [',']) (by decide)
    exact this
  have hdrop : ("\"taskbarOpacity\":".toList ++ (T ++ [','])).drop (16 + 1) = T ++ [','] := rfl
  unfold loadLine
  simp only [hf, Str.contains_at_start, if_true, hfind, hdrop, filter_comma_intText T hT, hstoi]
  rfl

/-- The loop body of `Load` on the line `Save` writes for the start opacity. -/
theorem loadLine_startOpacity (config : Config) (T : List Char) (n : Int)
    (hT : ∀ c ∈ T, c = '-' ∨ c.isDigit = true) (hstoi : Str.stoi T = Except.ok n) :
    loadLine config ("  \"startOpacity\": ".toList ++ (T ++ [','])) =
      Except.ok { config with startOpacity := n } := by
  have hf : ("  \"startOpacity\": ".toList ++ (T ++ [','])).filter
      (fun c => !Str.isSpace c) = "\"startOpacity\":".toList ++ (T ++ [',']) := by
    rw [List.filter_append, List.filter_append, filter_space_intText T hT]
    rfl
  have hk : 'k' ∉ "\"startOpacity\":".toList ++ (T ++ [',']) := by
    intro hmem
    rcases List.mem_append.mp hmem with h | h
    · revert h; decide
    · rcases List.mem_append.mp h with h | h
      · exact not_mem_intText T hT 'k' (by decide) (by decide) h
      · revert h; decide
  have hno : Str.contains "\"taskbarOpacity\":".toList
      ("\"startOpacity\":".toList ++ (T ++ [','])) = false :=
    Str.contains_false_of_not_mem _ _ 'k' (by decide) hk
  have hfind : Str.find [':'] ("\"startOpacity\":".toList ++ (T ++ [','])) = some 14 := by
    have := Str.find_char ':' "\"startOpacity\"".toList (T ++ [',']) (by decide)
    exact this
  have hdrop : ("\"startOpacity\":".toList ++ (T ++ [','])).drop (14 + 1) = T ++ [','] := rfl
  unfold loadLine
  simp only [hf, hno, Str.contains_at_start, if_true, hfind, hdrop, filter_comma_intText T hT,
    hstoi]
  rfl

set_option maxRecDepth 8000 in
/-- The loop body of `Load` on the other lines `Save` writes. -/
theorem loadLine_rest (config : Config) (b : Bool) :
    loadLine config ['\x7b'] = Except.ok config ∧
      loadLine config ['\x7d'] = Except.ok config ∧
      loadLine config ("  \"taskbarEnabled\": ".toList ++
          ((if b then "true" else "false").toList ++ [','])) =
        Except.ok { config with taskbarEnabled := b } ∧
      loadLine config ("  \"startEnabled\": ".toList ++ (if b then "true" else "false").toList) =
        Except.ok { config with startEnabled := b } := by
  cases b <;> exact ⟨rfl, rfl, rfl, rfl⟩

/-- The characters of the file `Save` writes, line by line. -/
theorem saveText_lines (c : Config) :
    (saveText c).toList =
      ['\x7b'] ++ '\n' ::
        (("  \"taskbarOpacity\": ".toList ++ ((toString c.taskbarOpacity).toList ++ [','])) ++
          '\n' ::
        (("  \"startOpacity\": ".toList ++ ((toString c.startOpacity).toList ++ [','])) ++
          '\n' ::
        (("  \"taskbarEnabled\": ".toList ++
            ((if c.taskbarEnabled then "true" else "false").toList ++ [','])) ++ '\n' ::
        (("  \"startEnabled\": ".toList ++
            (if c.startEnabled then "true" else "false").toList) ++ '\n' ::
        (['\x7d'] ++ '\n' :: []))))) := by
  unfold saveText
  simp only [String.toList, String.data_append, List.append_assoc]
  cases c.taskbarEnabled <;> cases c.startEnabled <;> rfl

theorem loadLines_cons (config next : Config) (line : List Char) (rest : List (List Char))
    (h : loadLine config line = Except.ok next) :
    loadLines config (line :: rest) = loadLines next rest := by
  simp only [loadLines, h]

/-- The lines `Load` reads from the file `Save` writes. -/
theorem getlines_saveText (c : Config)
    (ht : -2147483648 ≤ c.taskbarOpacity ∧ c.taskbarOpacity ≤ 2147483647)
    (hs : -2147483648 ≤ c.startOpacity ∧ c.startOpacity ≤ 2147483647) :
    Str.getlines (saveText c).toList =
      [['\x7b'],
        "  \"taskbarOpacity\": ".toList ++ ((toString c.taskbarOpacity).toList ++ [',']),
        "  \"startOpacity\": ".toList ++ ((toString c.startOpacity).toList ++ [',']),
        "  \"taskbarEnabled\": ".toList ++
          ((if c.taskbarEnabled then "true" else "false").toList ++ [',']),
        "  \"startEnabled\": ".toList ++ (if c.startEnabled then "true" else "false").toList,
        ['\x7d']] := by
  have hnl : ∀ (P T : List Char), '\n' ∉ P → (∀ ch ∈ T, ch = '-' ∨ ch.isDigit = true) →
      '\n' ∉ P ++ (T ++ [',']) := by
    intro P T hP hT hmem
    rcases List.mem_append.mp hmem with h | h
    · exact hP h
    · rcases List.mem_append.mp h with h | h
      · exact not_mem_intText T hT '\n' (by decide) (by decide) h
      · revert h; decide
  rw [saveText_lines,
    Str.getlines_line _ _ (by decide),
    Str.getlines_line _ _ (hnl _ _ (by decide) (Str.intText _ ht).1),
    Str.getlines_line _ _ (hnl _ _ (by decide) (Str.intText _ hs).1),
    Str.getlines_line _ _ (by cases c.taskbarEnabled <;> decide),
    Str.getlines_line _ _ (by cases c.startEnabled <;> decide),
    Str.getlines_line _ _ (by decide)]
  rfl

/-- C16.  For every record `c` whose opacities are `int` values (the booleans are
arbitrary), whatever the manager held and whatever the file held before: `Save`
writes `saveText c`, and `Load` on that file, into any prior in-memory record,
returns `true` and leaves a record identical to `c` in all four fields. -/
theorem config_round_trip (c prior : Config) (oldFile : Option String)
    (ht : -2147483648 ≤ c.taskbarOpacity ∧ c.taskbarOpacity ≤ 2147483647)
    (hs : -2147483648 ≤ c.startOpacity ∧ c.startOpacity ≤ 2147483647) :
    (({ m_config := c, file := oldFile } : ConfigManager).Save true).1.file =
        some (saveText c) ∧
      ({ m_config := prior, file := some (saveText c) } : ConfigManager).Load =
        ({ m_config := c, file := some (saveText c) }, Except.ok true) := by
  refine ⟨rfl, ?_⟩
  have h1 := (Str.intText c.taskbarOpacity ht)
  have h2 := (Str.intText c.startOpacity hs)
  have s1 : Str.stoi (toString c.taskbarOpacity).toList = Except.ok c.taskbarOpacity := by
    have := h1.2 [] (by simp)
    simpa using this
  have s2 : Str.stoi (toString c.startOpacity).toList = Except.ok c.startOpacity := by
    have := h2.2 [] (by simp)
    simpa using this
  have hlines : loadLines prior (Str.getlines (saveText c).toList) = (c, none) := by
    rw [getlines_saveText c ht hs,
      loadLines_cons _ _ _ _ (loadLine_rest prior true).1,
      loadLines_cons _ _ _ _ (loadLine_taskbarOpacity prior _ _ h1.1 s1),
      loadLines_cons _ _ _ _ (loadLine_startOpacity _ _ _ h2.1 s2),
      loadLines_cons _ _ _ _ (loadLine_rest _ c.taskbarEnabled).2.2.1,
      loadLines_cons _ _ _ _ (loadLine_rest _ c.startEnabled).2.2.2,
      loadLines_cons _ _ _ _ (loadLine_rest _ true).2.1]
    rfl
  unfold Load
  simp only [hlines]

set_option maxRecDepth 8000 in
/-- C16 for the record `{80, 20, false, true}`, loaded over the default record. -/
theorem config_round_trip_witness :
    ({ m_config := {},
       file := some (saveText
        { taskbarOpacity := 80, startOpacity := 20, taskbarEnabled := false,
          startEnabled := true }) } : ConfigManager).Load =
      ({ m_config :=
          { taskbarOpacity := 80, startOpacity := 20, taskbarEnabled := false,
            startEnabled := true },
         file := some (saveText
          { taskbarOpacity := 80, startOpacity := 20, taskbarEnabled := false,
            startEnabled := true }) }, Except.ok true) :=
  (config_round_trip
    { taskbarOpacity := 80, startOpacity := 20, taskbarEnabled := false, startEnabled := true }
    {} none (by decide) (by decide)).2

/-! ### Range of the stored opacities -/

/-- C17 (the code departs from it).  `Load` stores whatever integer the file
holds: from the default record, loading a file whose opacities read 500 and -20
returns `true` and leaves 500 and -20 in the record.  `UpdateConfig` stores the
record it is given as it is.  The two opacity setters do clamp: whatever they
are given, the stored value is within `[0, 100]`. -/
theorem load_opacity_unchecked :
    (({ file := some outOfRangeFile } : ConfigManager).Load).2 = Except.ok true ∧
      (({ file := some outOfRangeFile } : ConfigManager).Load).1.m_config =
        { taskbarOpacity := 500, startOpacity := -20, taskbarEnabled := true,
          startEnabled := true } ∧
      (({} : ConfigManager).UpdateConfig { taskbarOpacity := 500 }).m_config.taskbarOpacity =
        500 ∧
      (∀ (self : ConfigManager) (opacity : Int),
        (0 ≤ (self.SetTaskbarOpacity opacity).m_config.taskbarOpacity ∧
            (self.SetTaskbarOpacity opacity).m_config.taskbarOpacity ≤ 100) ∧
          (0 ≤ (self.SetStartOpacity opacity).m_config.startOpacity ∧
            (self.SetStartOpacity opacity).m_config.startOpacity ≤ 100)) := by
  refine ⟨by decide, by decide, by decide, ?_⟩
  intro self opacity
  simp only [SetTaskbarOpacity, SetStartOpacity, clampInt]
  constructor <;> split_ifs <;> omega

/-! ### Files that cannot be read -/

/-- A line that names none of the four keys leaves the record as it is. -/
theorem loadLine_noKey (config : Config) (line : List Char) (h : noKey line) :
    loadLine config line = Except.ok config := by
  obtain ⟨h1, h2, h3, h4⟩ := h
  unfold loadLine
  simp only [h1, h2, h3, h4]
  rfl

theorem loadLines_noKey (lines : List (List Char)) :
    ∀ config : Config, (∀ line ∈ lines, noKey line) → loadLines config lines = (config, none) := by
  induction lines with
  | nil => exact fun _ _ => rfl
  | cons line rest ih =>
    intro config h
    unfold loadLines
    rw [loadLine_noKey config line (h line (List.mem_cons_self line rest))]
    exact ih config (fun l hl => h l (List.mem_cons_of_mem line hl))

/-- An exception that ends the loop of `Load` leaves `Load`. -/
theorem Load_throws (self : ConfigManager) (text : String) (config : Config)
    (e : Str.StoiError) (hfile : self.file = some text)
    (h : loadLines self.m_config (Str.getlines text.toList) = (config, some e)) :
    self.Load = ({ self with m_config := config }, Except.error e) := by
  unfold Load
  simp only [hfile, h]

set_option maxRecDepth 8000 in
/-- C30 (the code departs from it).  `Load` returns `false` and changes nothing
when there is no file, and returns `true` with the unnamed fields untouched when
every line can be read: lines naming no key change nothing, and a file naming
two fields changes those two.  But a `taskbarOpacity` or `startOpacity` value
that is no number, or does not fit `int`, makes `std::stoi` throw, and nothing in
`Load` catches: the exception leaves `Load`, with the fields of earlier lines
already assigned, and passes through `ConfigManager::Initialize` and
`CrystalFrameCore::Initialize`. -/
theorem load_throws_on_bad_number :
    (∀ self : ConfigManager, self.file = none → self.Load = (self, Except.ok false)) ∧
      (∀ (self : ConfigManager) (text : String), self.file = some text →
        (∀ line ∈ Str.getlines text.toList, noKey line) →
        self.Load = (self, Except.ok true)) ∧
      ({ file := some partialFile } : ConfigManager).Load =
        ({ m_config :=
            { taskbarOpacity := 75, startOpacity := 20, taskbarEnabled := false,
              startEnabled := true },
           file := some partialFile }, Except.ok true) ∧
      (∀ (self : ConfigManager) (text : String) (config : Config) (e : Str.StoiError),
        self.file = some text →
        loadLines self.m_config (Str.getlines text.toList) = (config, some e) →
        self.Load = ({ self with m_config := config }, Except.error e)) ∧
      loadLine {} "  \"startOpacity\": high,".toList =
        Except.error Str.StoiError.invalid_argument ∧
      ({ file := some malformedFile } : ConfigManager).Load =
        ({ m_config := { taskbarOpacity := 80 }, file := some malformedFile },
          Except.error Str.StoiError.invalid_argument) ∧
      (({ file := some overflowFile } : ConfigManager).Load).2 =
        Except.error Str.StoiError.out_of_range ∧
      (({ file := some malformedFile } : ConfigManager).Initialize true true).2 =
        Except.error Str.StoiError.invalid_argument ∧
      CrystalFrameCore.Initialize {} { configFile := some malformedFile } =
        Except.error Str.StoiError.invalid_argument := by
  refine ⟨?_, ?_, by decide, Load_throws, by decide, by decide, by decide, by decide,
    by decide⟩
  · intro self h
    unfold Load
    simp only [h]
  · intro self text hfile hlines
    unfold Load
    simp only [hfile, loadLines_noKey _ self.m_config hlines]
    cases self
    simp only at hfile
    rw [hfile]

end ConfigManager

/-! ## Properties of the control channel -/

namespace IpcBridge

/-- `ParseCommand` on a text that starts with the member `type`: the value is
what stands between the quotes. -/
theorem ParseCommand_type (T rest : List Char) (hq : quote ∉ T) :
    ParseCommand ("\x7b\"type\":\"".toList ++ (T ++ quote :: rest)) "type".toList = T := by
  have h1 : Str.find (quote :: "type".toList ++ [quote])
      ("\x7b\"type\":\"".toList ++ (T ++ quote :: rest)) = some 1 := rfl
  have hlen : ("\x7b\"type\":\"".toList ++ (T ++ quote :: rest)).length =
      T.length + rest.length + 10 := by
    rw [List.length_append, List.length_append, List.length_cons]
    have : "\x7b\"type\":\"".toList.length = 9 := rfl
    omega
  have h2 : Str.findFrom [':'] ("\x7b\"type\":\"".toList ++ (T ++ quote :: rest)) 1 = some 7 := by
    rw [Str.findFrom_of_le _ _ _ (by omega)]
    rfl
  have h3 : Str.findFrom [quote] ("\x7b\"type\":\"".toList ++ (T ++ quote :: rest)) 7 =
      some 8 := by
    rw [Str.findFrom_of_le _ _ _ (by omega),
      show ("\x7b\"type\":\"".toList ++ (T ++ quote :: rest)).drop 7 =
        [':'] ++ quote :: (T ++ quote :: rest) from rfl,
      Str.find_char quote [':'] _ (by decide)]
    rfl
  have hdrop : ("\x7b\"type\":\"".toList ++ (T ++ quote :: rest)).drop 9 = T ++ quote :: rest :=
    rfl
  have h4 : Str.findFrom [quote] ("\x7b\"type\":\"".toList ++ (T ++ quote :: rest)) (8 + 1) =
      some (T.length + 9) := by
    rw [Str.findFrom_of_le _ _ _ (by omega), hdrop, Str.find_char quote T rest hq]
    rfl
  unfold ParseCommand
  simp only [h1, h2, h3, h4, hdrop]
  have : T.length + 9 - 8 - 1 = T.length := by omega
  rw [this, List.take_left']
  rfl

/-- The characters of a command without arguments. -/
theorem bareMessage_toList (type : String) :
    (bareMessage type).toList = "\x7b\"type\":\"".toList ++ (type.toList ++ quote :: ['\x7d']) := by
  unfold bareMessage
  simp only [String.toList, String.data_append, List.append_assoc]
  rfl

/-- The characters of an opacity command. -/
theorem opacityMessage_toList (type : String) (n : Int) :
    (opacityMessage type n).toList =
      "\x7b\"type\":\"".toList ++
        (type.toList ++ quote :: (",\"opacity\":".toList ++ ((toString n).toList ++ ['\x7d']))) := by
  unfold opacityMessage
  simp only [String.toList, String.data_append, List.append_assoc]
  rfl

/-- `ParseInt` reads the number that follows the member `opacity` of a
`SetTaskbarOpacity` command. -/
theorem ParseInt_taskbarOpacity (X : List Char) :
    ParseInt ("\x7b\"type\":\"".toList ++
        ("SetTaskbarOpacity".toList ++ quote :: (",\"opacity\":".toList ++ X)))
      "opacity".toList = Str.stoi (X.dropWhile (fun c => c = ' ' || c = '\n')) := by
  have h1 : Str.find (quote :: "opacity".toList ++ [quote])
      ("\x7b\"type\":\"".toList ++
        ("SetTaskbarOpacity".toList ++ quote :: (",\"opacity\":".toList ++ X))) = some 28 := rfl
  have hlen : 28 ≤ ("\x7b\"type\":\"".toList ++
        ("SetTaskbarOpacity".toList ++ quote :: (",\"opacity\":".toList ++ X))).length := by
    simp only [List.length_append, List.length_cons]
    have : "\x7b\"type\":\"".toList.length = 9 := rfl
    have : "SetTaskbarOpacity".toList.length = 17 := rfl
    have : ",\"opacity\":".toList.length = 11 := rfl
    omega
  have h2 : Str.findFrom [':'] ("\x7b\"type\":\"".toList ++
        ("SetTaskbarOpacity".toList ++ quote :: (",\"opacity\":".toList ++ X))) 28 = some 37 := by
    rw [Str.findFrom_of_le _ _ _ hlen,
      show ("\x7b\"type\":\"".toList ++
          ("SetTaskbarOpacity".toList ++ quote :: (",\"opacity\":".toList ++ X))).drop 28 =
        "\"opacity\"".toList ++ ':' :: X from rfl,
      Str.find_char ':' _ _ (by decide)]
    rfl
  unfold ParseInt
  simp only [h1, h2]
  rfl

/-- `ParseInt` reads the number that follows the member `opacity` of a
`SetStartOpacity` command. -/
theorem ParseInt_startOpacity (X : List Char) :
    ParseInt ("\x7b\"type\":\"".toList ++
        ("SetStartOpacity".toList ++ quote :: (",\"opacity\":".toList ++ X)))
      "opacity".toList = Str.stoi (X.dropWhile (fun c => c = ' ' || c = '\n')) := by
  have h1 : Str.find (quote :: "opacity".toList ++ [quote])
      ("\x7b\"type\":\"".toList ++
        ("SetStartOpacity".toList ++ quote :: (",\"opacity\":".toList ++ X))) = some 26 := rfl
  have hlen : 26 ≤ ("\x7b\"type\":\"".toList ++
        ("SetStartOpacity".toList ++ quote :: (",\"opacity\":".toList ++ X))).length := by
    simp only [List.length_append, List.length_cons]
    have : "\x7b\"type\":\"".toList.length = 9 := rfl
    have : "SetStartOpacity".toList.length = 15 := rfl
    have : ",\"opacity\":".toList.length = 11 := rfl
    omega
  have h2 : Str.findFrom [':'] ("\x7b\"type\":\"".toList ++
        ("SetStartOpacity".toList ++ quote :: (",\"opacity\":".toList ++ X))) 26 = some 35 := by
    rw [Str.findFrom_of_le _ _ _ hlen,
      show ("\x7b\"type\":\"".toList ++
          ("SetStartOpacity".toList ++ quote :: (",\"opacity\":".toList ++ X))).drop 26 =
        "\"opacity\"".toList ++ ':' :: X from rfl,
      Str.find_char ':' _ _ (by decide)]
    rfl
  unfold ParseInt
  simp only [h1, h2]
  rfl

/-- The decimal text of an `int`, followed by the closing brace, is read back
by `std::stoi` after the (empty) run of blanks is skipped. -/
theorem stoi_after_blanks (n : Int) (hrange : -2147483648 ≤ n ∧ n ≤ 2147483647) :
    Str.stoi (((toString n).toList ++ ['\x7d']).dropWhile (fun c => c = ' ' || c = '\n')) =
      Except.ok n := by
  obtain ⟨hchars, hstoi⟩ := Str.intText n hrange
  have hread := hstoi ['\x7d'] (by intro c hc; cases hc; decide)
  cases hT : (toString n).toList with
  | nil =>
    rw [hT] at hread
    have hnone : Str.stoi ([] ++ ['\x7d']) = Except.error Str.StoiError.invalid_argument := by
      decide
    rw [hnone] at hread
    cases hread
  | cons c cs =>
    have hc : (c = ' ' || c = '\n') = false := by
      rcases hchars c (by rw [hT]; exact List.mem_cons_self c cs) with h | h
      · subst h; decide
      · have h1 := Str.ne_of_digit c ' ' h (by decide)
        have h2 := Str.ne_of_digit c '\n' h (by decide)
        simp [h1, h2]
    rw [hT] at hread
    rw [List.cons_append, List.dropWhile_cons]
    simp only [hc]
    exact hread

/-- A message whose `type` is none of the six command names makes no call. -/
theorem HandleMessage_unknown (callback : Bool) (json : String)
    (h : ParseCommand json.toList "type".toList ∉
      ["SetTaskbarOpacity".toList, "SetStartOpacity".toList, "SetTaskbarEnabled".toList,
        "SetStartEnabled".toList, "GetStatus".toList, "Shutdown".toList]) :
    HandleMessage callback json = [] := by
  simp only [List.mem_cons, List.mem_singleton, List.not_mem_nil, or_false, not_or] at h
  obtain ⟨h1, h2, h3, h4, h5, h6⟩ := h
  unfold HandleMessage
  simp only [h1, h2, h3, h4, h5, h6, if_false, ite_self]

set_option maxRecDepth 8000 in
/-- C18 (the code departs from it).  With a callback registered, `HandleMessage`
on the command `SetTaskbarOpacity` (`SetStartOpacity`) with member `opacity`
equal to `n` calls exactly `OnSetTaskbarOpacity(n)` (`OnSetStartOpacity(n)`), for
every `int` value `n` and so for every `n` in `[0, 100]`; on `SetTaskbarEnabled`
(`SetStartEnabled`) with member `enabled` equal to `b` it calls exactly
`OnSetTaskbarEnabled(b)` (`OnSetStartEnabled(b)`); on `GetStatus` and `Shutdown`
it calls exactly `OnGetStatus` and `OnShutdown`; the four setter commands with
the member `type` written last, tried with 40, 100, `false` and `true`, do the
same.  The part on the other messages fails: `ParseCommand` takes the first
place where the quoted text `type` stands, also where it is the value of another
member.  So the object with the members `cmd` and `arg` only, `cmd` being `type`
and `arg` being `Shutdown`, which has no member `type` (the quoted text `type`
with a colon after it occurs nowhere in it), calls `OnShutdown`, and with `arg`
being `SetTaskbarOpacity` it calls `OnSetTaskbarOpacity(0)`; an object whose
member `type` is the unknown name `Refresh` calls `OnShutdown` when a member
before it has the value `type`, and one whose member `type` is `GetStatus` then
calls `OnShutdown` instead of `OnGetStatus`.  No call is made where the text
read by `ParseCommand` is none of the six names: for an object with the single
member `type` of another value that holds no quote character, and for a text in
which the quoted text `type` does not occur. -/
theorem dispatch_first_type_text :
    (∀ n : Int, -2147483648 ≤ n → n ≤ 2147483647 →
        HandleMessage true (opacityMessage "SetTaskbarOpacity" n) =
            [IpcCommand.OnSetTaskbarOpacity n] ∧
          HandleMessage true (opacityMessage "SetStartOpacity" n) =
            [IpcCommand.OnSetStartOpacity n]) ∧
      (∀ b : Bool,
        HandleMessage true (enabledMessage "SetTaskbarEnabled" b) =
            [IpcCommand.OnSetTaskbarEnabled b] ∧
          HandleMessage true (enabledMessage "SetStartEnabled" b) =
            [IpcCommand.OnSetStartEnabled b]) ∧
      HandleMessage true (bareMessage "GetStatus") = [IpcCommand.OnGetStatus] ∧
      HandleMessage true (bareMessage "Shutdown") = [IpcCommand.OnShutdown] ∧
      HandleMessage true "\x7b\"opacity\":40,\"type\":\"SetTaskbarOpacity\"\x7d" =
        [IpcCommand.OnSetTaskbarOpacity 40] ∧
      HandleMessage true "\x7b\"opacity\":100,\"type\":\"SetStartOpacity\"\x7d" =
        [IpcCommand.OnSetStartOpacity 100] ∧
      HandleMessage true "\x7b\"enabled\":false,\"type\":\"SetTaskbarEnabled\"\x7d" =
        [IpcCommand.OnSetTaskbarEnabled false] ∧
      HandleMessage true "\x7b\"enabled\":true,\"type\":\"SetStartEnabled\"\x7d" =
        [IpcCommand.OnSetStartEnabled true] ∧
      Str.find "\"type\":".toList "\x7b\"cmd\":\"type\",\"arg\":\"Shutdown\"\x7d".toList = none ∧
      ParseCommand "\x7b\"cmd\":\"type\",\"arg\":\"Shutdown\"\x7d".toList "type".toList =
        "Shutdown".toList ∧
      HandleMessage true "\x7b\"cmd\":\"type\",\"arg\":\"Shutdown\"\x7d" =
        [IpcCommand.OnShutdown] ∧
      HandleMessage true "\x7b\"cmd\":\"type\",\"arg\":\"SetTaskbarOpacity\"\x7d" =
        [IpcCommand.OnSetTaskbarOpacity 0] ∧
      HandleMessage true "\x7b\"note\":\"type\",\"id\":\"Shutdown\",\"type\":\"Refresh\"\x7d" =
        [IpcCommand.OnShutdown] ∧
      HandleMessage true "\x7b\"note\":\"type\",\"id\":\"Shutdown\",\"type\":\"GetStatus\"\x7d" =
        [IpcCommand.OnShutdown] ∧
      (∀ (callback : Bool) (type : String), quote ∉ type.toList →
        type ∉ ["SetTaskbarOpacity", "SetStartOpacity", "SetTaskbarEnabled", "SetStartEnabled",
          "GetStatus", "Shutdown"] →
        HandleMessage callback (bareMessage type) = []) ∧
      (∀ (callback : Bool) (json : String),
        ParseCommand json.toList "type".toList ∉
            ["SetTaskbarOpacity".toList, "SetStartOpacity".toList, "SetTaskbarEnabled".toList,
              "SetStartEnabled".toList, "GetStatus".toList, "Shutdown".toList] →
          HandleMessage callback json = []) ∧
      (∀ (callback : Bool) (json : String),
        Str.find (quote :: "type".toList ++ [quote]) json.toList = none →
          HandleMessage callback json = []) := by
  refine ⟨?_, ?_, by decide, by decide, by decide, by decide, by decide, by decide, by decide,
    by decide, by decide, by decide, by decide, by decide, ?_, HandleMessage_unknown, ?_⟩
  · intro n h1 h2
    constructor
    · have hcmd := ParseCommand_type "SetTaskbarOpacity".toList
        (",\"opacity\":".toList ++ ((toString n).toList ++ ['\x7d'])) (by decide)
      unfold HandleMessage
      simp only [opacityMessage_toList, hcmd, ParseInt_taskbarOpacity,
        stoi_after_blanks n ⟨h1, h2⟩]
      rfl
    · have hcmd := ParseCommand_type "SetStartOpacity".toList
        (",\"opacity\":".toList ++ ((toString n).toList ++ ['\x7d'])) (by decide)
      unfold HandleMessage
      simp only [opacityMessage_toList, hcmd, ParseInt_startOpacity,
        stoi_after_blanks n ⟨h1, h2⟩]
      rfl
  · intro b
    cases b <;> exact ⟨by decide, by decide⟩
  · intro callback type hq hne
    apply HandleMessage_unknown
    rw [bareMessage_toList, ParseCommand_type type.toList ['\x7d'] hq]
    simp only [List.mem_cons, List.mem_singleton, List.not_mem_nil, or_false, not_or] at hne ⊢
    obtain ⟨h1, h2, h3, h4, h5, h6⟩ := hne
    have inj : ∀ s : String, type ≠ s → type.toList ≠ s.toList :=
      fun s hs h => hs (String.ext h)
    exact ⟨inj _ h1, inj _ h2, inj _ h3, inj _ h4, inj _ h5, inj _ h6⟩
  · intro callback json h
    have hcmd : ParseCommand json.toList "type".toList = [] := by
      unfold ParseCommand
      simp only [h]
    apply HandleMessage_unknown
    rw [hcmd]
    decide

end IpcBridge

/-! ### Messages that cannot be read -/

namespace IpcBridge

/-- `HandleMessage` makes at most one callback. -/
theorem HandleMessage_length (callback : Bool) (json : String) :
    (HandleMessage callback json).length ≤ 1 := by
  unfold HandleMessage
  simp only []
  repeat' split
  all_goals first | exact Nat.zero_le 1 | exact Nat.le_refl 1

/-- An exception thrown by `std::stoi` in an opacity command is caught: no
callback is made. -/
theorem HandleMessage_caught (callback : Bool) (json : String) (e : Str.StoiError)
    (htype : ParseCommand json.toList "type".toList = "SetTaskbarOpacity".toList ∨
      ParseCommand json.toList "type".toList = "SetStartOpacity".toList)
    (hthrow : ParseInt json.toList "opacity".toList = Except.error e) :
    HandleMessage callback json = [] := by
  have h0 : ¬ ("SetTaskbarOpacity".toList = []) := by decide
  have h1 : ¬ ("SetStartOpacity".toList = []) := by decide
  have h2 : ¬ ("SetStartOpacity".toList = "SetTaskbarOpacity".toList) := by decide
  unfold HandleMessage
  rcases htype with h | h
  · simp only [h, hthrow, h0, if_false, if_true]
  · simp only [h, hthrow, h1, h2, if_false, if_true]

end IpcBridge

namespace CrystalFrameCore

/-- A message on which `HandleMessage` makes no callback leaves the coordinator
as it is. -/
theorem receive_nothing (core : CrystalFrameCore) (json : String) (env : RenderEnv)
    (saveOpened : Bool)
    (h : ∀ i, core.m_ipc = some i → IpcBridge.HandleMessage i.m_callback json = []) :
    core.receive json env saveOpened = core := by
  unfold receive
  cases hi : core.m_ipc with
  | none => rfl
  | some i => simp only [h i hi, List.foldl_nil]

end CrystalFrameCore

namespace IpcBridge

set_option maxRecDepth 8000 in
/-- C24.  For every input text `HandleMessage` returns, with at most one callback
made.  Whenever `std::stoi` throws in an opacity command, for want of a number
(`invalid_argument`) or because the number does not fit `int`
(`out_of_range`), no callback is made and the coordinator that receives the
message stays as it is: so for the opacity texts `abc`, the empty text and
`99999999999`.  A text that starts with a number is read as that number by
`std::stoi`: `12abc` leads to the callback with `12`. -/
theorem control_failure_isolated :
    (∀ (callback : Bool) (json : String), (HandleMessage callback json).length ≤ 1) ∧
      (∀ (callback : Bool) (json : String) (e : Str.StoiError),
        (ParseCommand json.toList "type".toList = "SetTaskbarOpacity".toList ∨
          ParseCommand json.toList "type".toList = "SetStartOpacity".toList) →
        ParseInt json.toList "opacity".toList = Except.error e →
        HandleMessage callback json = [] ∧
          ∀ (core : CrystalFrameCore) (env : RenderEnv) (saveOpened : Bool),
            core.receive json env saveOpened = core) ∧
      ParseInt (rawOpacityMessage "SetTaskbarOpacity" "abc").toList "opacity".toList =
        Except.error Str.StoiError.invalid_argument ∧
      HandleMessage true (rawOpacityMessage "SetTaskbarOpacity" "abc") = [] ∧
      HandleMessage true (rawOpacityMessage "SetStartOpacity" "") = [] ∧
      ParseInt (rawOpacityMessage "SetStartOpacity" "99999999999").toList "opacity".toList =
        Except.error Str.StoiError.out_of_range ∧
      HandleMessage true (rawOpacityMessage "SetStartOpacity" "99999999999") = [] ∧
      HandleMessage true (rawOpacityMessage "SetTaskbarOpacity" "-99999999999") = [] ∧
      CrystalFrameCore.runningSystem.receive (rawOpacityMessage "SetTaskbarOpacity" "abc")
        (Renderer.atMs 20) true = CrystalFrameCore.runningSystem ∧
      HandleMessage true (rawOpacityMessage "SetTaskbarOpacity" "12abc") =
        [IpcCommand.OnSetTaskbarOpacity 12] := by
  refine ⟨HandleMessage_length, ?_, by decide, by decide, by decide, by decide, by decide,
    by decide, by decide, by decide⟩
  intro callback json e htype hthrow
  refine ⟨HandleMessage_caught callback json e htype hthrow, fun core env saveOpened => ?_⟩
  exact CrystalFrameCore.receive_nothing core json env saveOpened
    (fun i _ => HandleMessage_caught i.m_callback json e htype hthrow)

end IpcBridge


/-! ## Properties of the coordinator -/

namespace CrystalFrameCore

set_option maxRecDepth 8000 in
/-- C6 (the code departs from it).  `OnSetStartEnabled` never changes the
locator: for every system state and argument the locator member is the same
before and after.  In particular, in a system whose locator has disabled itself,
`OnSetStartEnabled(true)` sets the renderer's and the configuration's start flags
to `true` while the locator's `m_startEnabled` stays `false`, and the next pass
of the monitor loop, even with a fully confident open record, is idle: it emits
nothing and changes nothing. -/
theorem set_start_enabled_misses_locator :
    (∀ (core : CrystalFrameCore) (enabled : Bool) (env : RenderEnv) (saveOpened : Bool),
        (core.OnSetStartEnabled enabled env saveOpened).m_locator = core.m_locator) ∧
      afterAutoDisable.m_locator.map (fun m => m.loc.m_startEnabled) = some false ∧
      (afterAutoDisable.OnSetStartEnabled true {} true).m_renderer.map
          (fun r => r.m_startEnabled) = some true ∧
      (afterAutoDisable.OnSetStartEnabled true {} true).m_config.map
          (fun c => c.m_config.startEnabled) = some true ∧
      (afterAutoDisable.OnSetStartEnabled true {} true).m_locator.map
          (fun m => m.loc.m_startEnabled) = some false ∧
      (afterAutoDisable.OnSetStartEnabled true {} true).m_locator.map
          (fun m => ShellTargetLocator.MonitorStart_step m
            { ShellTargetLocator.highPoll with confidence := F32.one }) =
        afterAutoDisable.m_locator.map (fun m => (m, [])) := by
  refine ⟨fun core enabled env saveOpened => rfl, ?_, ?_, ?_, ?_, ?_⟩ <;> decide

/-! ### Detection failure -/

/-- C19.  `OnStartDetectionFailed` passes `false` to the renderer's
`SetStartEnabled`, which leaves the start flag `false` and changes neither stored
opacity target nor the taskbar's flag, visual or target; it hides the start
overlay window and leaves the taskbar overlay window alone; and through an open
pipe it writes exactly two messages, first the `Error` with code
`START_DETECTION_FAILED`, then one `StatusUpdate` carrying the current status.
The locator and the configuration are not touched. -/
theorem detection_failed_routing (core : CrystalFrameCore) (env : RenderEnv) :
    (∀ r : Renderer, core.m_renderer = some r →
        (core.OnStartDetectionFailed env).m_renderer = some (r.SetStartEnabled false env) ∧
          (r.SetStartEnabled false env).m_startEnabled = false ∧
          (r.SetStartEnabled false env).m_startOpacity = r.m_startOpacity ∧
          (r.SetStartEnabled false env).m_taskbarOpacity = r.m_taskbarOpacity ∧
          (r.SetStartEnabled false env).m_taskbarEnabled = r.m_taskbarEnabled ∧
          (r.SetStartEnabled false env).m_visualTaskbar = r.m_visualTaskbar ∧
          (r.SetStartEnabled false env).m_targetTaskbar = r.m_targetTaskbar) ∧
      (∀ h : OverlayHost, core.m_overlayHost = some h → h.m_hwndStart ≠ 0 →
        (core.OnStartDetectionFailed env).m_overlayHost = some h.HideStartOverlay ∧
          h.HideStartOverlay.startWindow.shown = false ∧
          h.HideStartOverlay.taskbarWindow = h.taskbarWindow) ∧
      (∀ i : IpcBridge, core.m_ipc = some i → i.m_pipeValid = true →
        ∃ j : IpcBridge, (core.OnStartDetectionFailed env).m_ipc = some j ∧
          j.written = i.written ++
            [IpcMessage.Error "Start menu detection unreliable" "START_DETECTION_FAILED",
              IpcMessage.StatusUpdate core.GetCurrentStatus]) ∧
      (core.OnStartDetectionFailed env).m_locator = core.m_locator ∧
      (core.OnStartDetectionFailed env).m_config = core.m_config := by
  refine ⟨?_, ?_, ?_, rfl, rfl⟩
  · intro r hr
    have hframe := Renderer.SetStartEnabled_frame r false env
    have h1 := congrArg Renderer.m_startEnabled hframe
    have h2 := congrArg Renderer.m_taskbarEnabled hframe
    have h3 := congrArg Renderer.m_visualTaskbar hframe
    have h4 := congrArg Renderer.m_targetTaskbar hframe
    exact ⟨by simp [OnStartDetectionFailed, hr], h1,
      (Renderer.SetStartEnabled_targets r false env).2,
      (Renderer.SetStartEnabled_targets r false env).1, h2, h3, h4⟩
  · intro h hh hwnd
    refine ⟨by simp [OnStartDetectionFailed, hh], ?_, ?_⟩
    · simp [OverlayHost.HideStartOverlay, hwnd]
    · simp [OverlayHost.HideStartOverlay, hwnd]
  · intro i hi hpipe
    refine ⟨_, by simp only [OnStartDetectionFailed, hi, Option.map_some']; rfl, ?_⟩
    simp [IpcBridge.SendStatusUpdate, IpcBridge.SendError, IpcBridge.SendMessage, hpipe,
      GetCurrentStatus]

set_option maxRecDepth 8000 in
/-- C19 on the running system: the start flag of the renderer goes to `false`,
the start overlay window is hidden, and the pipe receives the error and then
the status. -/
theorem detection_failed_routing_witness :
    (runningSystem.OnStartDetectionFailed (Renderer.atMs 1)).m_renderer.map
        (fun r => r.m_startEnabled) = some false ∧
      (runningSystem.OnStartDetectionFailed (Renderer.atMs 1)).m_overlayHost.map
        (fun h => h.startWindow.shown) = some false ∧
      (runningSystem.OnStartDetectionFailed (Renderer.atMs 1)).m_ipc.map
        (fun i => i.written) = some
          [IpcMessage.Error "Start menu detection unreliable" "START_DETECTION_FAILED",
            IpcMessage.StatusUpdate runningSystem.GetCurrentStatus] := by
  obtain ⟨h1, h2, h3, _, _⟩ := detection_failed_routing runningSystem (Renderer.atMs 1)
  obtain ⟨r1, r2, _⟩ := h1 Renderer.initialized rfl
  obtain ⟨o1, o2, _⟩ := h2 _ rfl (by decide)
  obtain ⟨j, j1, j2⟩ := h3 _ rfl rfl
  refine ⟨?_, ?_, ?_⟩
  · rw [r1]
    exact congrArg some r2
  · rw [o1]
    exact congrArg some o2
  · rw [j1]
    exact congrArg some j2

/-! ### Setter commands -/

set_option maxRecDepth 8000 in
/-- C20, as stated, fails.  On the running system, whose pipe is open and has
carried nothing yet, each of the four setter commands changes the renderer and
the configuration (taskbar opacity 80 is stored as target `0.8f` and as 80) but
leaves the pipe as it was: no `StatusUpdate` is written. -/
theorem status_push_counterexample :
    runningSystem.m_ipc.map (fun i => (i.m_pipeValid, i.written)) = some (true, []) ∧
      (runningSystem.OnSetTaskbarOpacity 80 (Renderer.atMs 20) true).m_renderer.map
        (fun r => r.m_taskbarOpacity) = some F32.c0_8 ∧
      (runningSystem.OnSetTaskbarOpacity 80 (Renderer.atMs 20) true).m_config.map
        (fun c => c.m_config.taskbarOpacity) = some 80 ∧
      (runningSystem.OnSetTaskbarOpacity 80 (Renderer.atMs 20) true).m_ipc.map
        (fun i => i.written) = some [] ∧
      (runningSystem.OnSetStartOpacity 80 (Renderer.atMs 20) true).m_ipc.map
        (fun i => i.written) = some [] ∧
      (runningSystem.OnSetTaskbarEnabled false (Renderer.atMs 20) true).m_ipc.map
        (fun i => i.written) = some [] ∧
      (runningSystem.OnSetStartEnabled false (Renderer.atMs 20) true).m_ipc.map
        (fun i => i.written) = some [] := by
  decide

/-- `ScheduleCommit` leaves the flags alone. -/
theorem ScheduleCommit_flags (x : Renderer) (e : RenderEnv) :
    (x.ScheduleCommit e).m_taskbarEnabled = x.m_taskbarEnabled ∧
      (x.ScheduleCommit e).m_startEnabled = x.m_startEnabled := by
  have h1 := congrArg Renderer.m_taskbarEnabled (Renderer.ScheduleCommit_frame x e)
  have h2 := congrArg Renderer.m_startEnabled (Renderer.ScheduleCommit_frame x e)
  exact ⟨h1, h2⟩

/-- What the renderer's `SetTaskbarOpacity` does to the taskbar visual, and that
it touches neither flag nor the start visual. -/
theorem SetTaskbarOpacity_effect (r : Renderer) (v : F32) (env : RenderEnv) :
    (¬ F32.abs (F32.sub r.m_taskbarOpacity (F32.clamp v F32.zero F32.one)) < F32.c0_01 →
        (r.SetTaskbarOpacity v env).m_visualTaskbar =
          if r.m_taskbarEnabled then
            Renderer.visualSetOpacity r.m_visualTaskbar (F32.clamp v F32.zero F32.one)
              env.setOpacityOk
          else r.m_visualTaskbar) ∧
      (r.SetTaskbarOpacity v env).m_taskbarEnabled = r.m_taskbarEnabled ∧
      (r.SetTaskbarOpacity v env).m_startEnabled = r.m_startEnabled ∧
      (r.SetTaskbarOpacity v env).m_visualStart = r.m_visualStart := by
  unfold Renderer.SetTaskbarOpacity
  simp only
  refine ⟨?_, ?_, ?_, ?_⟩
  · intro h
    rw [if_neg h]
    cases hv : r.m_visualTaskbar <;> cases he : r.m_taskbarEnabled <;>
      cases ho : env.setOpacityOk <;>
      simp [hv, he, ho, Renderer.visualSetOpacity, Renderer.ScheduleCommit_visuals]
  · split_ifs <;> simp [ScheduleCommit_flags]
  · split_ifs <;> simp [ScheduleCommit_flags]
  · split_ifs <;> simp [Renderer.ScheduleCommit_visuals]

/-- What the renderer's `SetStartOpacity` does to the start visual, and that it
touches neither flag nor the taskbar visual. -/
theorem SetStartOpacity_effect (r : Renderer) (v : F32) (env : RenderEnv) :
    (¬ F32.abs (F32.sub r.m_startOpacity (F32.clamp v F32.zero F32.one)) < F32.c0_01 →
        (r.SetStartOpacity v env).m_visualStart =
          if r.m_startEnabled then
            Renderer.visualSetOpacity r.m_visualStart (F32.clamp v F32.zero F32.one)
              env.setOpacityOk
          else r.m_visualStart) ∧
      (r.SetStartOpacity v env).m_taskbarEnabled = r.m_taskbarEnabled ∧
      (r.SetStartOpacity v env).m_startEnabled = r.m_startEnabled ∧
      (r.SetStartOpacity v env).m_visualTaskbar = r.m_visualTaskbar := by
  unfold Renderer.SetStartOpacity
  simp only
  refine ⟨?_, ?_, ?_, ?_⟩
  · intro h
    rw [if_neg h]
    cases hv : r.m_visualStart <;> cases he : r.m_startEnabled <;>
      cases ho : env.setOpacityOk <;>
      simp [hv, he, ho, Renderer.visualSetOpacity, Renderer.ScheduleCommit_visuals]
  · split_ifs <;> simp [ScheduleCommit_flags]
  · split_ifs <;> simp [ScheduleCommit_flags]
  · split_ifs <;> simp [Renderer.ScheduleCommit_visuals]

/-- The flags and the start visual after the renderer's `SetTaskbarEnabled`. -/
theorem SetTaskbarEnabled_effect (r : Renderer) (b : Bool) (env : RenderEnv) :
    (r.SetTaskbarEnabled b env).m_taskbarEnabled = b ∧
      (r.SetTaskbarEnabled b env).m_startEnabled = r.m_startEnabled ∧
      (r.SetTaskbarEnabled b env).m_visualStart = r.m_visualStart := by
  unfold Renderer.SetTaskbarEnabled
  simp only
  refine ⟨?_, ?_, ?_⟩
  · split_ifs <;> simp [ScheduleCommit_flags]
  · split_ifs <;> simp [ScheduleCommit_flags]
  · split_ifs <;> simp [Renderer.ScheduleCommit_visuals]

/-- The flags and the taskbar visual after the renderer's `SetStartEnabled`. -/
theorem SetStartEnabled_effect (r : Renderer) (b : Bool) (env : RenderEnv) :
    (r.SetStartEnabled b env).m_startEnabled = b ∧
      (r.SetStartEnabled b env).m_taskbarEnabled = r.m_taskbarEnabled ∧
      (r.SetStartEnabled b env).m_visualTaskbar = r.m_visualTaskbar := by
  unfold Renderer.SetStartEnabled
  simp only
  refine ⟨?_, ?_, ?_⟩
  · split_ifs <;> simp [ScheduleCommit_flags]
  · split_ifs <;> simp [ScheduleCommit_flags]
  · split_ifs <;> simp [Renderer.ScheduleCommit_visuals]

/-- The stored target after an opacity setter is within `0.01f` of the request. -/
theorem target_near_request (old v : F32) :
    F32.abs (F32.sub (if F32.abs (F32.sub old v) < F32.c0_01 then old else v) v) < F32.c0_01 := by
  split_ifs with h
  · exact h
  · exact Renderer.sub_self_lt v

/-- Every handler that is not a setter command writes, through an open pipe, the
status built by `GetCurrentStatus` as the last message. -/
theorem statusPushes_lastWritten (core : CrystalFrameCore) (i : IpcBridge)
    (hi : core.m_ipc = some i) (hpipe : i.m_pipeValid = true) (env : RenderEnv)
    (taskbar : TaskbarInfo) (start : StartInfo) :
    ∀ next ∈ core.statusPushes env taskbar start,
      next.lastWritten = some (IpcMessage.StatusUpdate core.GetCurrentStatus) := by
  intro next hnext
  simp only [statusPushes, List.mem_cons, List.mem_singleton, List.not_mem_nil, or_false] at hnext
  rcases hnext with h | h | h | h | h | h <;> subst h <;>
    simp [lastWritten, OnGetStatus, OnShutdown, OnTaskbarChanged, OnStartShown, OnStartHidden,
      OnStartDetectionFailed, hi, IpcBridge.SendStatusUpdate, IpcBridge.SendError,
      IpcBridge.SendMessage, hpipe, GetCurrentStatus]

/-- C20, amended.  On a coordinator with a renderer, a configuration and an open
pipe, no setter command writes to the pipe.  `OnSetTaskbarOpacity(n)`
(`OnSetStartOpacity(n)`) hands `n / 100.0f` to the renderer: with `v` that value
clamped to `[0, 1]`, a request within `0.01f` of the stored target of the surface
leaves the renderer as it was (76 after 75); any other request makes `v` the
stored target and, when the surface is enabled, has the compositor set the
visual to `v` (a visual keeps its opacity when the compositor rejects the call).
Either way the stored target is afterwards within `0.01f` of `v`, and the other
surface and both flags are untouched.  `OnSetTaskbarEnabled(b)`
(`OnSetStartEnabled(b)`) sets the flag of the renderer to `b` and has the
compositor set the visual to the stored target (`b` true) or to `0` (`b` false),
leaving both targets and the other surface alone.  Each handler stores the value
in the configuration record (an opacity clamped to `[0, 100]`) and writes the
file when it can be opened.  The status `GetCurrentStatus` builds afterwards
carries the stored value, and whichever handler that is not a setter runs next
(`OnGetStatus`, `OnShutdown`, `OnTaskbarChanged`, `OnStartShown`, `OnStartHidden`,
`OnStartDetectionFailed`) writes that status to the pipe as its last message. -/
theorem setter_routing_amended (core : CrystalFrameCore) (r : Renderer) (c : ConfigManager)
    (i : IpcBridge) (hr : core.m_renderer = some r) (hc : core.m_config = some c)
    (hi : core.m_ipc = some i) (hpipe : i.m_pipeValid = true) (opacity : Int) (enabled : Bool)
    (env : RenderEnv) (saveOpened : Bool) :
    ((∃ r1 : Renderer,
          (core.OnSetTaskbarOpacity opacity env saveOpened).m_renderer = some r1 ∧
            (F32.abs (F32.sub r.m_taskbarOpacity (requested opacity)) < F32.c0_01 → r1 = r) ∧
            (¬ F32.abs (F32.sub r.m_taskbarOpacity (requested opacity)) < F32.c0_01 →
              r1.m_taskbarOpacity = requested opacity ∧
                r1.m_visualTaskbar =
                  if r.m_taskbarEnabled then
                    Renderer.visualSetOpacity r.m_visualTaskbar (requested opacity)
                      env.setOpacityOk
                  else r.m_visualTaskbar) ∧
            F32.abs (F32.sub r1.m_taskbarOpacity (requested opacity)) < F32.c0_01 ∧
            r1.m_startOpacity = r.m_startOpacity ∧ r1.m_visualStart = r.m_visualStart ∧
            r1.m_taskbarEnabled = r.m_taskbarEnabled ∧ r1.m_startEnabled = r.m_startEnabled) ∧
        (∃ c1 : ConfigManager,
          (core.OnSetTaskbarOpacity opacity env saveOpened).m_config = some c1 ∧
            c1.m_config =
              { c.m_config with taskbarOpacity := ConfigManager.clampInt opacity 0 100 } ∧
            c1.file = if saveOpened then some (ConfigManager.saveText c1.m_config) else c.file) ∧
        (core.OnSetTaskbarOpacity opacity env saveOpened).m_ipc = some i ∧
        (core.OnSetTaskbarOpacity opacity env saveOpened).GetCurrentStatus.taskbar.opacity =
          ConfigManager.clampInt opacity 0 100 ∧
        ∀ (later : RenderEnv) (taskbar : TaskbarInfo) (start : StartInfo),
          ∀ next ∈ (core.OnSetTaskbarOpacity opacity env saveOpened).statusPushes later taskbar
              start,
            next.lastWritten = some (IpcMessage.StatusUpdate
              (core.OnSetTaskbarOpacity opacity env saveOpened).GetCurrentStatus)) ∧
      ((∃ r1 : Renderer,
          (core.OnSetStartOpacity opacity env saveOpened).m_renderer = some r1 ∧
            (F32.abs (F32.sub r.m_startOpacity (requested opacity)) < F32.c0_01 → r1 = r) ∧
            (¬ F32.abs (F32.sub r.m_startOpacity (requested opacity)) < F32.c0_01 →
              r1.m_startOpacity = requested opacity ∧
                r1.m_visualStart =
                  if r.m_startEnabled then
                    Renderer.visualSetOpacity r.m_visualStart (requested opacity)
                      env.setOpacityOk
                  else r.m_visualStart) ∧
            F32.abs (F32.sub r1.m_startOpacity (requested opacity)) < F32.c0_01 ∧
            r1.m_taskbarOpacity = r.m_taskbarOpacity ∧ r1.m_visualTaskbar = r.m_visualTaskbar ∧
            r1.m_taskbarEnabled = r.m_taskbarEnabled ∧ r1.m_startEnabled = r.m_startEnabled) ∧
        (∃ c1 : ConfigManager,
          (core.OnSetStartOpacity opacity env saveOpened).m_config = some c1 ∧
            c1.m_config =
              { c.m_config with startOpacity := ConfigManager.clampInt opacity 0 100 } ∧
            c1.file = if saveOpened then some (ConfigManager.saveText c1.m_config) else c.file) ∧
        (core.OnSetStartOpacity opacity env saveOpened).m_ipc = some i ∧
        (core.OnSetStartOpacity opacity env saveOpened).GetCurrentStatus.start.opacity =
          ConfigManager.clampInt opacity 0 100 ∧
        ∀ (later : RenderEnv) (taskbar : TaskbarInfo) (start : StartInfo),
          ∀ next ∈ (core.OnSetStartOpacity opacity env saveOpened).statusPushes later taskbar
              start,
            next.lastWritten = some (IpcMessage.StatusUpdate
              (core.OnSetStartOpacity opacity env saveOpened).GetCurrentStatus)) ∧
      ((∃ r1 : Renderer,
          (core.OnSetTaskbarEnabled enabled env saveOpened).m_renderer = some r1 ∧
            r1.m_taskbarEnabled = enabled ∧
            r1.m_visualTaskbar =
              Renderer.visualSetOpacity r.m_visualTaskbar
                (if enabled then r.m_taskbarOpacity else F32.zero) env.setOpacityOk ∧
            r1.m_taskbarOpacity = r.m_taskbarOpacity ∧ r1.m_startOpacity = r.m_startOpacity ∧
            r1.m_startEnabled = r.m_startEnabled ∧ r1.m_visualStart = r.m_visualStart) ∧
        (∃ c1 : ConfigManager,
          (core.OnSetTaskbarEnabled enabled env saveOpened).m_config = some c1 ∧
            c1.m_config = { c.m_config with taskbarEnabled := enabled } ∧
            c1.file = if saveOpened then some (ConfigManager.saveText c1.m_config) else c.file) ∧
        (core.OnSetTaskbarEnabled enabled env saveOpened).m_ipc = some i ∧
        (core.OnSetTaskbarEnabled enabled env saveOpened).GetCurrentStatus.taskbar.enabled =
          enabled ∧
        ∀ (later : RenderEnv) (taskbar : TaskbarInfo) (start : StartInfo),
          ∀ next ∈ (core.OnSetTaskbarEnabled enabled env saveOpened).statusPushes later taskbar
              start,
            next.lastWritten = some (IpcMessage.StatusUpdate
              (core.OnSetTaskbarEnabled enabled env saveOpened).GetCurrentStatus)) ∧
      ((∃ r1 : Renderer,
          (core.OnSetStartEnabled enabled env saveOpened).m_renderer = some r1 ∧
            r1.m_startEnabled = enabled ∧
            r1.m_visualStart =
              Renderer.visualSetOpacity r.m_visualStart
                (if enabled then r.m_startOpacity else F32.zero) env.setOpacityOk ∧
            r1.m_taskbarOpacity = r.m_taskbarOpacity ∧ r1.m_startOpacity = r.m_startOpacity ∧
            r1.m_taskbarEnabled = r.m_taskbarEnabled ∧
            r1.m_visualTaskbar = r.m_visualTaskbar) ∧
        (∃ c1 : ConfigManager,
          (core.OnSetStartEnabled enabled env saveOpened).m_config = some c1 ∧
            c1.m_config = { c.m_config with startEnabled := enabled } ∧
            c1.file = if saveOpened then some (ConfigManager.saveText c1.m_config) else c.file) ∧
        (core.OnSetStartEnabled enabled env saveOpened).m_ipc = some i ∧
        (core.OnSetStartEnabled enabled env saveOpened).GetCurrentStatus.start.enabled =
          enabled ∧
        ∀ (later : RenderEnv) (taskbar : TaskbarInfo) (start : StartInfo),
          ∀ next ∈ (core.OnSetStartEnabled enabled env saveOpened).statusPushes later taskbar
              start,
            next.lastWritten = some (IpcMessage.StatusUpdate
              (core.OnSetStartEnabled enabled env saveOpened).GetCurrentStatus)) := by
  have hcfg : ∀ (f : ConfigManager → ConfigManager) (core1 : CrystalFrameCore),
      core1.m_config = some ((f c).Save saveOpened).1 → (f c).file = c.file →
      ∃ c1 : ConfigManager, core1.m_config = some c1 ∧ c1.m_config = (f c).m_config ∧
        c1.file = if saveOpened then some (ConfigManager.saveText c1.m_config) else c.file := by
    intro f core1 h1 h2
    refine ⟨_, h1, ?_, ?_⟩
    · cases saveOpened <;> rfl
    · cases saveOpened
      · exact h2
      · rfl
  have hstatus : ∀ core1 : CrystalFrameCore, ∀ c1 : ConfigManager, core1.m_config = some c1 →
      core1.GetCurrentStatus.taskbar.opacity = c1.m_config.taskbarOpacity ∧
        core1.GetCurrentStatus.start.opacity = c1.m_config.startOpacity ∧
        core1.GetCurrentStatus.taskbar.enabled = c1.m_config.taskbarEnabled ∧
        core1.GetCurrentStatus.start.enabled = c1.m_config.startEnabled := by
    intro core1 c1 h1
    unfold GetCurrentStatus
    cases hl : core1.m_locator <;> simp [h1, ConfigManager.GetConfig]
  refine ⟨⟨?_, ?_, hi, ?_, ?_⟩, ⟨?_, ?_, hi, ?_, ?_⟩, ⟨?_, ?_, hi, ?_, ?_⟩, ⟨?_, ?_, hi, ?_, ?_⟩⟩
  · refine ⟨r.SetTaskbarOpacity (F32.div (F32.ofInt opacity) F32.c100) env,
      by simp [OnSetTaskbarOpacity, hr], ?_, ?_, ?_, ?_, ?_, ?_, ?_⟩
    · exact fun h => Renderer.SetTaskbarOpacity_noop r _ env h
    · intro h
      refine ⟨?_, (SetTaskbarOpacity_effect r _ env).1 h⟩
      rw [(Renderer.SetTaskbarOpacity_targets r _ env).1]
      exact if_neg h
    · rw [(Renderer.SetTaskbarOpacity_targets r _ env).1]
      exact target_near_request _ _
    · exact (Renderer.SetTaskbarOpacity_targets r _ env).2
    · exact (SetTaskbarOpacity_effect r _ env).2.2.2
    · exact (SetTaskbarOpacity_effect r _ env).2.1
    · exact (SetTaskbarOpacity_effect r _ env).2.2.1
  · exact hcfg (fun c => c.SetTaskbarOpacity opacity) _
      (by simp [OnSetTaskbarOpacity, hc]) rfl
  · exact ((hstatus _ _ (show (core.OnSetTaskbarOpacity opacity env saveOpened).m_config = _ by
      simp [OnSetTaskbarOpacity, hc]; rfl)).1).trans (by cases saveOpened <;> rfl)
  · exact fun later taskbar start =>
      statusPushes_lastWritten (core.OnSetTaskbarOpacity opacity env saveOpened) i hi hpipe later
        taskbar start
  · refine ⟨r.SetStartOpacity (F32.div (F32.ofInt opacity) F32.c100) env,
      by simp [OnSetStartOpacity, hr], ?_, ?_, ?_, ?_, ?_, ?_, ?_⟩
    · exact fun h => Renderer.SetStartOpacity_noop r _ env h
    · intro h
      refine ⟨?_, (SetStartOpacity_effect r _ env).1 h⟩
      rw [(Renderer.SetStartOpacity_targets r _ env).1]
      exact if_neg h
    · rw [(Renderer.SetStartOpacity_targets r _ env).1]
      exact target_near_request _ _
    · exact (Renderer.SetStartOpacity_targets r _ env).2
    · exact (SetStartOpacity_effect r _ env).2.2.2
    · exact (SetStartOpacity_effect r _ env).2.1
    · exact (SetStartOpacity_effect r _ env).2.2.1
  · exact hcfg (fun c => c.SetStartOpacity opacity) _
      (by simp [OnSetStartOpacity, hc]) rfl
  · exact ((hstatus _ _ (show (core.OnSetStartOpacity opacity env saveOpened).m_config = _ by
      simp [OnSetStartOpacity, hc]; rfl)).2.1).trans (by cases saveOpened <;> rfl)
  · exact fun later taskbar start =>
      statusPushes_lastWritten (core.OnSetStartOpacity opacity env saveOpened) i hi hpipe later
        taskbar start
  · exact ⟨r.SetTaskbarEnabled enabled env, by simp [OnSetTaskbarEnabled, hr],
      (SetTaskbarEnabled_effect r enabled env).1,
      Renderer.SetTaskbarEnabled_visual r enabled env,
      (Renderer.SetTaskbarEnabled_targets r enabled env).1,
      (Renderer.SetTaskbarEnabled_targets r enabled env).2,
      (SetTaskbarEnabled_effect r enabled env).2.1,
      (SetTaskbarEnabled_effect r enabled env).2.2⟩
  · exact hcfg (fun c => c.SetTaskbarEnabled enabled) _
      (by simp [OnSetTaskbarEnabled, hc]) rfl
  · exact ((hstatus _ _ (show (core.OnSetTaskbarEnabled enabled env saveOpened).m_config = _ by
      simp [OnSetTaskbarEnabled, hc]; rfl)).2.2.1).trans (by cases saveOpened <;> rfl)
  · exact fun later taskbar start =>
      statusPushes_lastWritten (core.OnSetTaskbarEnabled enabled env saveOpened) i hi hpipe later
        taskbar start
  · exact ⟨r.SetStartEnabled enabled env, by simp [OnSetStartEnabled, hr],
      (SetStartEnabled_effect r enabled env).1,
      Renderer.SetStartEnabled_visual r enabled env,
      (Renderer.SetStartEnabled_targets r enabled env).1,
      (Renderer.SetStartEnabled_targets r enabled env).2,
      (SetStartEnabled_effect r enabled env).2.1,
      (SetStartEnabled_effect r enabled env).2.2⟩
  · exact hcfg (fun c => c.SetStartEnabled enabled) _
      (by simp [OnSetStartEnabled, hc]) rfl
  · exact ((hstatus _ _ (show (core.OnSetStartEnabled enabled env saveOpened).m_config = _ by
      simp [OnSetStartEnabled, hc]; rfl)).2.2.2).trans (by cases saveOpened <;> rfl)
  · exact fun later taskbar start =>
      statusPushes_lastWritten (core.OnSetStartEnabled enabled env saveOpened) i hi hpipe later
        taskbar start

set_option maxRecDepth 8000 in
/-- The amended C20 on the running system, whose taskbar target is `0.75f`:
`OnSetTaskbarOpacity(76)` leaves the renderer as it was while the status to
report carries 76, which a `GetStatus` handled next writes to the pipe;
`OnSetTaskbarOpacity(80)` makes `0.8f` the target and the opacity of the taskbar
visual. -/
theorem setter_routing_amended_witness :
    (runningSystem.OnSetTaskbarOpacity 76 (Renderer.atMs 20) true).m_renderer =
        some Renderer.initialized ∧
      (runningSystem.OnSetTaskbarOpacity 76 (Renderer.atMs 20)
        true).GetCurrentStatus.taskbar.opacity = 76 ∧
      (runningSystem.OnSetTaskbarOpacity 76 (Renderer.atMs 20) true).OnGetStatus.lastWritten =
        some (IpcMessage.StatusUpdate
          (runningSystem.OnSetTaskbarOpacity 76 (Renderer.atMs 20) true).GetCurrentStatus) ∧
      (runningSystem.OnSetTaskbarOpacity 80 (Renderer.atMs 20) true).m_renderer.map
        (fun r => (r.m_taskbarOpacity, r.m_visualTaskbar)) = some (F32.c0_8, some F32.c0_8) := by
  obtain ⟨⟨r1, h1, hnear, _⟩, _, _, hst, hpush⟩ :=
    (setter_routing_amended runningSystem Renderer.initialized {}
      { m_pipeValid := true, m_running := true, m_callback := true } rfl rfl rfl rfl 76 false
      (Renderer.atMs 20) true).1
  obtain ⟨⟨r2, k1, _, kfar, _⟩, _⟩ :=
    (setter_routing_amended runningSystem Renderer.initialized {}
      { m_pipeValid := true, m_running := true, m_callback := true } rfl rfl rfl rfl 80 false
      (Renderer.atMs 20) true).1
  have e := kfar (by decide)
  refine ⟨?_, hst, hpush {} {} {} _ (List.mem_cons_self _ _), ?_⟩
  · rw [h1, hnear (by decide)]
  · rw [k1]
    show some (r2.m_taskbarOpacity, r2.m_visualTaskbar) = _
    rw [e.1, e.2]
    decide

/-! ### Order of shutdown -/

/-- The first three statements of `Shutdown` on a coordinator that holds a
control channel and a renderer. -/
theorem Shutdown_upto_three (core : CrystalFrameCore) (saveOpened : Bool) (i : IpcBridge)
    (r : Renderer) (hi : core.m_ipc = some i) (hr : core.m_renderer = some r) :
    core.Shutdown_upto saveOpened 3 =
      ({ core with m_running := false, m_ipc := none, m_renderer := none },
        [Teardown.ChannelStopped i.Shutdown, Teardown.CompositorReleased r.Shutdown]) := by
  have hrange : List.range 3 = [0, 1, 2] := rfl
  unfold Shutdown_upto
  rw [hrange]
  simp [Shutdown_statement, hi, hr]

/-- The destructor work of the whole of `Shutdown` on a coordinator that holds a
control channel, a renderer and a locator. -/
theorem Shutdown_work (core : CrystalFrameCore) (saveOpened : Bool) (i : IpcBridge)
    (r : Renderer) (m : ShellTargetLocator.Monitor) (hi : core.m_ipc = some i)
    (hr : core.m_renderer = some r) (hm : core.m_locator = some m) :
    ∃ rest, (core.Shutdown saveOpened).2 =
      [Teardown.ChannelStopped i.Shutdown, Teardown.CompositorReleased r.Shutdown,
        Teardown.MonitorJoined m.loc.Shutdown] ++ rest := by
  have hrange : List.range 6 = [0, 1, 2, 3, 4, 5] := rfl
  unfold Shutdown Shutdown_upto
  rw [hrange]
  cases ho : core.m_overlayHost <;> cases hc : core.m_config <;>
    simp [Shutdown_statement, hi, hr, hm, ho, hc]

set_option maxRecDepth 8000 in
/-- C23 (the code departs from it).  `Shutdown` resets the control channel, then
the renderer, then the locator: on every coordinator that holds all three, the
destructor work starts with the channel stopped, the compositor resources
released and only then the monitor thread joined.  After the statement
`m_renderer.reset()` the renderer is gone while the locator is untouched: on the
running system its monitor thread is still running with detection enabled, and a
pass of its loop at that point processes a poll and makes the `OnStartShown`
callback. -/
theorem shutdown_releases_renderer_first :
    (∀ (core : CrystalFrameCore) (saveOpened : Bool) (i : IpcBridge) (r : Renderer)
        (m : ShellTargetLocator.Monitor),
        core.m_ipc = some i → core.m_renderer = some r → core.m_locator = some m →
        (core.Shutdown_upto saveOpened 3).1.m_renderer = none ∧
          (core.Shutdown_upto saveOpened 3).1.m_locator = some m ∧
          (core.Shutdown_upto saveOpened 3).2 =
            [Teardown.ChannelStopped i.Shutdown, Teardown.CompositorReleased r.Shutdown] ∧
          ∃ rest, (core.Shutdown saveOpened).2 =
            [Teardown.ChannelStopped i.Shutdown, Teardown.CompositorReleased r.Shutdown,
              Teardown.MonitorJoined m.loc.Shutdown] ++ rest) ∧
      (runningSystem.Shutdown_upto true 3).1.m_renderer = none ∧
      (runningSystem.Shutdown_upto true 3).1.m_locator.map
        (fun m => (m.loc.m_running, m.loc.m_startEnabled)) = some (true, true) ∧
      (runningSystem.Shutdown_upto true 3).1.m_locator.map
        (fun m => (ShellTargetLocator.MonitorStart_step m ShellTargetLocator.highPoll).2) =
        some [ShellEvent.OnStartShown ShellTargetLocator.highPoll] ∧
      Teardown.indexOf Teardown.isChannelStopped (runningSystem.Shutdown true).2 = some 0 ∧
      Teardown.indexOf Teardown.isCompositorReleased (runningSystem.Shutdown true).2 = some 1 ∧
      Teardown.indexOf Teardown.isMonitorJoined (runningSystem.Shutdown true).2 = some 2 ∧
      (runningSystem.Shutdown true).1 = { quitPosted := false } := by
  refine ⟨?_, by decide, by decide, by decide, by decide, by decide, by decide, by decide⟩
  intro core saveOpened i r m hi hr hm
  rw [Shutdown_upto_three core saveOpened i r hi hr]
  exact ⟨rfl, hm, rfl, Shutdown_work core saveOpened i r m hi hr hm⟩

/-! ### Agreement of the start flags -/

/-- The start flag after the renderer's `SetStartEnabled`. -/
theorem SetStartEnabled_flag (r : Renderer) (b : Bool) (env : RenderEnv) :
    (r.SetStartEnabled b env).m_startEnabled = b := by
  have h := congrArg Renderer.m_startEnabled (Renderer.SetStartEnabled_frame r b env)
  exact h

/-- The other three renderer setters leave the start flag alone. -/
theorem other_setters_flag (r : Renderer) (v : F32) (b : Bool) (env : RenderEnv) :
    (r.SetTaskbarOpacity v env).m_startEnabled = r.m_startEnabled ∧
      (r.SetStartOpacity v env).m_startEnabled = r.m_startEnabled ∧
      (r.SetTaskbarEnabled b env).m_startEnabled = r.m_startEnabled := by
  have hs : ∀ (x : Renderer) (e : RenderEnv),
      (x.ScheduleCommit e).m_startEnabled = x.m_startEnabled := by
    intro x e
    have h := congrArg Renderer.m_startEnabled (Renderer.ScheduleCommit_frame x e)
    exact h
  refine ⟨?_, ?_, ?_⟩
  · unfold Renderer.SetTaskbarOpacity
    simp only
    split_ifs <;> simp [hs]
  · unfold Renderer.SetStartOpacity
    simp only
    split_ifs <;> simp [hs]
  · unfold Renderer.SetTaskbarEnabled
    simp only
    split_ifs <;> simp [hs]

/-- The start 'enabled' value of the status is the configuration's. -/
theorem status_start_enabled (core : CrystalFrameCore) (c : ConfigManager)
    (hc : core.m_config = some c) :
    core.GetCurrentStatus.start.enabled = c.m_config.startEnabled := by
  unfold GetCurrentStatus
  cases hl : core.m_locator <;> simp [hc, ConfigManager.GetConfig]

/-- Agreement of the two start flags, spelled out. -/
theorem startFlagsAgree_iff (core : CrystalFrameCore) (r : Renderer) (c : ConfigManager)
    (hr : core.m_renderer = some r) (hc : core.m_config = some c) :
    core.startFlagsAgree ↔ r.m_startEnabled = c.m_config.startEnabled := by
  unfold startFlagsAgree
  rw [status_start_enabled core c hc, hr]
  simp

/-- Saving leaves the record alone. -/
theorem Save_config (c : ConfigManager) (opened : Bool) :
    (c.Save opened).1.m_config = c.m_config := by
  unfold ConfigManager.Save
  cases opened <;> rfl

/-- The four setter commands and the three other locator events keep the two
start flags in agreement. -/
theorem agreement_kept (core : CrystalFrameCore) (r : Renderer) (c : ConfigManager)
    (hr : core.m_renderer = some r) (hc : core.m_config = some c)
    (h : core.startFlagsAgree) (opacity : Int) (enabled : Bool) (env : RenderEnv)
    (saveOpened : Bool) (taskbar : TaskbarInfo) (start : StartInfo) :
    (core.OnSetTaskbarOpacity opacity env saveOpened).startFlagsAgree ∧
      (core.OnSetStartOpacity opacity env saveOpened).startFlagsAgree ∧
      (core.OnSetTaskbarEnabled enabled env saveOpened).startFlagsAgree ∧
      (core.OnSetStartEnabled enabled env saveOpened).startFlagsAgree ∧
      (core.OnTaskbarChanged taskbar).startFlagsAgree ∧
      (core.OnStartShown start).startFlagsAgree ∧
      core.OnStartHidden.startFlagsAgree := by
  have h0 := (startFlagsAgree_iff core r c hr hc).mp h
  have ho := other_setters_flag r (F32.div (F32.ofInt opacity) F32.c100) enabled env
  refine ⟨?_, ?_, ?_, ?_, ?_, ?_, ?_⟩
  · rw [startFlagsAgree_iff (core.OnSetTaskbarOpacity opacity env saveOpened)
      (r.SetTaskbarOpacity (F32.div (F32.ofInt opacity) F32.c100) env)
      ((c.SetTaskbarOpacity opacity).Save saveOpened).1
      (by simp [OnSetTaskbarOpacity, hr]) (by simp [OnSetTaskbarOpacity, hc])]
    rw [ho.1, Save_config, h0]
    rfl
  · rw [startFlagsAgree_iff (core.OnSetStartOpacity opacity env saveOpened)
      (r.SetStartOpacity (F32.div (F32.ofInt opacity) F32.c100) env)
      ((c.SetStartOpacity opacity).Save saveOpened).1
      (by simp [OnSetStartOpacity, hr]) (by simp [OnSetStartOpacity, hc])]
    rw [ho.2.1, Save_config, h0]
    rfl
  · rw [startFlagsAgree_iff (core.OnSetTaskbarEnabled enabled env saveOpened)
      (r.SetTaskbarEnabled enabled env)
      ((c.SetTaskbarEnabled enabled).Save saveOpened).1
      (by simp [OnSetTaskbarEnabled, hr]) (by simp [OnSetTaskbarEnabled, hc])]
    rw [ho.2.2, Save_config, h0]
    rfl
  · rw [startFlagsAgree_iff (core.OnSetStartEnabled enabled env saveOpened)
      (r.SetStartEnabled enabled env)
      ((c.SetStartEnabled enabled).Save saveOpened).1
      (by simp [OnSetStartEnabled, hr]) (by simp [OnSetStartEnabled, hc])]
    rw [SetStartEnabled_flag, Save_config]
    rfl
  · rw [startFlagsAgree_iff (core.OnTaskbarChanged taskbar) r c
      (by simp [OnTaskbarChanged, hr]) (by simp [OnTaskbarChanged, hc])]
    exact h0
  · rw [startFlagsAgree_iff (core.OnStartShown start) r c
      (by simp [OnStartShown, hr]) (by simp [OnStartShown, hc])]
    exact h0
  · rw [startFlagsAgree_iff core.OnStartHidden r c
      (by simp [OnStartHidden, hr]) (by simp [OnStartHidden, hc])]
    exact h0

/-- `OnTaskbarChanged` touches neither the renderer nor the configuration. -/
theorem OnTaskbarChanged_fixed (core : CrystalFrameCore) (info : TaskbarInfo) :
    (core.OnTaskbarChanged info).m_renderer = core.m_renderer ∧
      (core.OnTaskbarChanged info).m_config = core.m_config := ⟨rfl, rfl⟩

/-- Calls through `IShellTargetCallback` made while the locator starts up touch
neither the renderer nor the configuration, unless one is the failure report. -/
theorem onShellEvent_fixed (core : CrystalFrameCore) (env : RenderEnv) (e : ShellEvent)
    (he : e ≠ ShellEvent.OnStartDetectionFailed) :
    (core.onShellEvent env e).m_renderer = core.m_renderer ∧
      (core.onShellEvent env e).m_config = core.m_config := by
  cases e with
  | OnTaskbarChanged info => exact ⟨rfl, rfl⟩
  | OnStartShown info => exact ⟨rfl, rfl⟩
  | OnStartHidden => exact ⟨rfl, rfl⟩
  | OnStartDetectionFailed => exact absurd rfl he

theorem events_fixed (env : RenderEnv) (es : List ShellEvent) :
    ∀ core : CrystalFrameCore, (∀ e ∈ es, e ≠ ShellEvent.OnStartDetectionFailed) →
      (es.foldl (fun (core : CrystalFrameCore) e => core.onShellEvent env e) core).m_renderer =
          core.m_renderer ∧
        (es.foldl (fun (core : CrystalFrameCore) e => core.onShellEvent env e) core).m_config =
          core.m_config := by
  induction es with
  | nil => exact fun _ _ => ⟨rfl, rfl⟩
  | cons e es ih =>
    intro core hall
    have h1 := onShellEvent_fixed core env e (hall e (List.mem_cons_self e es))
    have h2 := ih (core.onShellEvent env e) (fun d hd => hall d (List.mem_cons_of_mem e hd))
    simp only [List.foldl_cons]
    exact ⟨h2.1.trans h1.1, h2.2.trans h1.2⟩

/-- `DetectTaskbar` makes no other callback than `OnTaskbarChanged`. -/
theorem DetectTaskbar_events (self : ShellTargetLocator)
    (probe : ShellTargetLocator.TaskbarProbe) :
    ∀ e ∈ (self.DetectTaskbar probe).2.2, e ≠ ShellEvent.OnStartDetectionFailed := by
  intro e he
  by_cases hlive : probe.hwnd = 0 ∨ ¬ probe.isWindow = true ∨ ¬ probe.isVisible = true
  · unfold ShellTargetLocator.DetectTaskbar at he
    rw [if_pos hlive] at he
    cases he
  · unfold ShellTargetLocator.DetectTaskbar at he
    rw [if_neg hlive] at he
    cases hrect : probe.rect with
    | none =>
      simp only [hrect] at he
      cases he
    | some rect =>
      simp only [hrect, ShellTargetLocator.notify] at he
      split at he
      · rw [List.mem_singleton] at he
        rw [he]
        intro h
        cases h
      · cases he

/-- The locator reports no detection failure while it starts up. -/
theorem locator_start_events (self : ShellTargetLocator) (callback msgWindowOk : Bool)
    (probe : ShellTargetLocator.TaskbarProbe) :
    ∀ e ∈ (self.Initialize callback msgWindowOk probe).2.2,
      e ≠ ShellEvent.OnStartDetectionFailed := by
  intro e he
  unfold ShellTargetLocator.Initialize at he
  simp only at he
  split_ifs at he
  all_goals first
    | cases he
    | exact DetectTaskbar_events _ probe e he

/-- After a successful `Initialize` the two start flags agree. -/
theorem Initialize_agree (env : CoreInitEnv) (core : CrystalFrameCore)
    (h : Initialize {} env = Except.ok (core, true)) : core.startFlagsAgree := by
  unfold Initialize at h
  simp only at h
  split at h
  · cases h
  · injection h with h
    injection h with _ h
    cases h
  · rename_i manager hmanager
    split_ifs at h with h1 h2 h3 h4 <;>
      simp only [Except.ok.injEq, Prod.mk.injEq, Bool.false_eq_true, and_false, and_true] at h
    have hfix := events_fixed {}
      (ShellTargetLocator.Initialize {} true env.msgWindowOk env.taskbar).2.2
      { m_config := some manager
        m_locator := some
          { loc := (ShellTargetLocator.Initialize {} true env.msgWindowOk env.taskbar).1 }
        m_overlayHost := some (OverlayHost.Initialize {} env.classesOk env.hwndTaskbar
          env.hwndStart).1
        m_renderer := some
          ((((((Renderer.Initialize {}
            (OverlayHost.Initialize {} env.classesOk env.hwndTaskbar env.hwndStart).1.m_hwndTaskbar
            (OverlayHost.Initialize {} env.classesOk env.hwndTaskbar env.hwndStart).1.m_hwndStart
            env.render).1.SetTaskbarOpacity
              (F32.div (F32.ofInt manager.GetConfig.taskbarOpacity) F32.c100)
              env.applyTaskbarOpacity).SetStartOpacity
              (F32.div (F32.ofInt manager.GetConfig.startOpacity) F32.c100)
              env.applyStartOpacity).SetTaskbarEnabled manager.GetConfig.taskbarEnabled
              env.applyTaskbarEnabled).SetStartEnabled manager.GetConfig.startEnabled
              env.applyStartEnabled))
        m_ipc := some {} }
      (locator_start_events {} true env.msgWindowOk env.taskbar)
    rw [← h]
    refine (startFlagsAgree_iff _ _ manager (hfix.1) (hfix.2)).mpr ?_
    rw [SetStartEnabled_flag]
    rfl

set_option maxRecDepth 8000 in
/-- C29 (the code departs from it).  After a successful `Initialize`, and after
each of the four setter commands and of `OnTaskbarChanged`, `OnStartShown` and
`OnStartHidden`, the start 'enabled' value that `GetCurrentStatus` reports equals
the renderer's start flag.  `OnStartDetectionFailed` breaks the agreement: it
sets the renderer's flag to `false` and leaves the configuration as it is, so
with a configuration that has the start overlay enabled the status still reports
`start.enabled = true`.  On the running system the `StatusUpdate` pushed by
`OnStartDetectionFailed` carries `start.enabled = true`, and the configuration
is neither changed nor saved. -/
theorem detection_failure_breaks_agreement :
    (∀ (env : CoreInitEnv) (core : CrystalFrameCore),
        Initialize {} env = Except.ok (core, true) → core.startFlagsAgree) ∧
      (∀ (core : CrystalFrameCore) (r : Renderer) (c : ConfigManager),
        core.m_renderer = some r → core.m_config = some c → core.startFlagsAgree →
        ∀ (opacity : Int) (enabled : Bool) (env : RenderEnv) (saveOpened : Bool)
          (taskbar : TaskbarInfo) (start : StartInfo),
          (core.OnSetTaskbarOpacity opacity env saveOpened).startFlagsAgree ∧
            (core.OnSetStartOpacity opacity env saveOpened).startFlagsAgree ∧
            (core.OnSetTaskbarEnabled enabled env saveOpened).startFlagsAgree ∧
            (core.OnSetStartEnabled enabled env saveOpened).startFlagsAgree ∧
            (core.OnTaskbarChanged taskbar).startFlagsAgree ∧
            (core.OnStartShown start).startFlagsAgree ∧
            core.OnStartHidden.startFlagsAgree) ∧
      (∀ (core : CrystalFrameCore) (r : Renderer) (c : ConfigManager) (env : RenderEnv),
        core.m_renderer = some r → core.m_config = some c → c.m_config.startEnabled = true →
        (core.OnStartDetectionFailed env).m_renderer.map (fun x => x.m_startEnabled) =
            some false ∧
          (core.OnStartDetectionFailed env).GetCurrentStatus.start.enabled = true ∧
          (core.OnStartDetectionFailed env).m_config = some c ∧
          ¬ (core.OnStartDetectionFailed env).startFlagsAgree) ∧
      runningSystem.startFlagsAgree ∧
      (runningSystem.OnStartDetectionFailed (Renderer.atMs 1)).m_ipc.map (fun i => i.written) =
        some [IpcMessage.Error "Start menu detection unreliable" "START_DETECTION_FAILED",
          IpcMessage.StatusUpdate runningSystem.GetCurrentStatus] ∧
      runningSystem.GetCurrentStatus.start.enabled = true ∧
      (runningSystem.OnStartDetectionFailed (Renderer.atMs 1)).m_renderer.map
        (fun x => x.m_startEnabled) = some false ∧
      (runningSystem.OnStartDetectionFailed (Renderer.atMs 1)).m_config =
        some { m_config := { startEnabled := true }, file := none } := by
  refine ⟨Initialize_agree, ?_, ?_, ?_, by decide, by decide, by decide, by decide⟩
  · intro core r c hr hc h opacity enabled env saveOpened taskbar start
    exact agreement_kept core r c hr hc h opacity enabled env saveOpened taskbar start
  · intro core r c env hr hc hen
    have hr' : (core.OnStartDetectionFailed env).m_renderer = some (r.SetStartEnabled false env) := by
      simp [OnStartDetectionFailed, hr]
    have hc' : (core.OnStartDetectionFailed env).m_config = some c := by
      simp [OnStartDetectionFailed, hc]
    refine ⟨?_, ?_, hc', ?_⟩
    · rw [hr']
      exact congrArg some (SetStartEnabled_flag r false env)
    · rw [status_start_enabled _ c hc', hen]
    · rw [startFlagsAgree_iff _ _ c hr' hc', SetStartEnabled_flag, hen]
      decide
  · unfold startFlagsAgree
    decide

end CrystalFrameCore

end CrystalFrame
